import Mathlib

/-!
# MAGE rendering core: output manager, renderer and frame bracketing

A shallow embedding of

* `MAGE/Rendering/src/renderer/output_manager.cpp` (surface setup and the
  `Bind*` phase operations of `OutputManager`),
* `MAGE/MAGE/src/rendering/renderer.cpp` (the per-camera pass sequence of
  `Renderer`),
* `MAGE/MAGE/src/rendering/rendering_manager.cpp` (`BeginFrame`/`EndFrame`),

followed by theorems about them.

Conventions.  `U32` values are natural numbers, arithmetic on them is reduced
modulo `2 ^ 32` where the source computes in `U32`.  A failing `ThrowIfFailed`
is `Except.error`.  A COM pointer is an `Option`, `none` being `nullptr`.
-/

namespace MAGE

/-! ## Basic data -/

/-- Modulus of the `U32` arithmetic of the source. -/
def U32_MOD : Nat := 2 ^ 32

/-- The anti-aliasing descriptors of the display configuration. -/
inductive AADescriptor where
  | None
  | FXAA
  | MSAA_2x
  | MSAA_4x
  | MSAA_8x
  | SSAA_2x
  | SSAA_3x
  | SSAA_4x
  deriving DecidableEq, Repr

/-- The texture formats used by `OutputManager`. -/
inductive DXGI_FORMAT where
  | R8G8B8A8_UNORM_SRGB
  | R8G8B8A8_UNORM
  | R11G11B10_FLOAT
  | R16G16B16A16_FLOAT
  | R32_FLOAT
  | R32_TYPELESS
  deriving DecidableEq, Repr

/-- Indices of the shader resource views (read views) of `OutputManager`. -/
inductive SRVIndex where
  | HDR
  | GBuffer_BaseColor
  | GBuffer_Material
  | GBuffer_Normal
  | GBuffer_Depth
  | PostProcessing_HDR0
  | PostProcessing_HDR1
  | PostProcessing_Depth
  | PostProcessing_Normal
  deriving DecidableEq, Repr

/-- Indices of the render target views (write views) of `OutputManager`. -/
inductive RTVIndex where
  | HDR
  | GBuffer_BaseColor
  | GBuffer_Material
  | GBuffer_Normal
  | PostProcessing_HDR0
  | PostProcessing_HDR1
  deriving DecidableEq, Repr

/-- Indices of the unordered access views (compute read-write views) of
`OutputManager`. -/
inductive UAVIndex where
  | HDR
  | PostProcessing_HDR0
  | PostProcessing_HDR1
  | PostProcessing_Depth
  | PostProcessing_Normal
  deriving DecidableEq, Repr

/-- The descriptor `D3D11_TEXTURE2D_DESC` as far as `OutputManager` fills it
in; `BindFlags` is kept as one boolean per flag. -/
structure TextureDesc where
  Width : Nat
  Height : Nat
  MipLevels : Nat
  ArraySize : Nat
  Format : DXGI_FORMAT
  SampleDesc_Count : Nat
  SampleDesc_Quality : Nat
  BIND_SHADER_RESOURCE : Bool
  BIND_RENDER_TARGET : Bool
  BIND_UNORDERED_ACCESS : Bool
  BIND_DEPTH_STENCIL : Bool
  deriving DecidableEq, Repr

/-- The four kinds of resource views. -/
inductive ViewKind where
  | SRV
  | RTV
  | UAV
  | DSV
  deriving DecidableEq, Repr

/-- A resource view object.  `id` is the identity of the view object (two
handles are the same COM object iff their `id` agrees), `texture` is the
allocation the view was created on. -/
structure View where
  id : Nat
  texture : Nat
  kind : ViewKind
  deriving DecidableEq, Repr

/-- The exception thrown by `ThrowIfFailed`, carrying its message. -/
structure Exception where
  msg : String
  deriving DecidableEq, Repr

/-! ## The device

`ID3D11Device` is outside the repository.  It is a state machine that hands
out fresh textures and views; whether a call succeeds and how many quality
levels it reports are properties of the device, indexed by the number of the
call. -/

/-- Modelled from the spec: the graphics device (`ID3D11Device`), an opaque
collaborator whose creation calls may fail.  `textures` are the allocations
made so far (a texture is named by its position), `nb_views` counts the views
created, `nb_calls` the calls made; `succeeds k` is the `HRESULT` of call `k`
and `quality_levels k` the number of quality levels call `k` reports. -/
structure Device where
  textures : List TextureDesc
  nb_views : Nat
  nb_calls : Nat
  succeeds : Nat → Bool
  quality_levels : Nat → Nat

/-- The call `CheckMultisampleQualityLevels`: the `HRESULT` and the reported
number of quality levels. -/
def Device.CheckMultisampleQualityLevels (d : Device) : Device × Bool × Nat :=
  ({ d with nb_calls := d.nb_calls + 1 }, d.succeeds d.nb_calls, d.quality_levels d.nb_calls)

/-- The call `CreateTexture2D`: on success a new allocation is appended and its
name returned. -/
def Device.CreateTexture2D (d : Device) (desc : TextureDesc) : Device × Bool × Nat :=
  if d.succeeds d.nb_calls then
    ({ d with nb_calls := d.nb_calls + 1, textures := d.textures ++ [desc] }, true,
      d.textures.length)
  else
    ({ d with nb_calls := d.nb_calls + 1 }, false, 0)

/-- The calls `CreateShaderResourceView`, `CreateRenderTargetView`,
`CreateUnorderedAccessView` and `CreateDepthStencilView`: on success a fresh
view object on the given texture. -/
def Device.CreateView (d : Device) (texture : Nat) (kind : ViewKind) :
    Device × Bool × Option View :=
  if d.succeeds d.nb_calls then
    ({ d with nb_calls := d.nb_calls + 1, nb_views := d.nb_views + 1 }, true,
      some { id := d.nb_views, texture := texture, kind := kind })
  else
    ({ d with nb_calls := d.nb_calls + 1 }, false, none)

/-- A device on which every call succeeds and reports one quality level. -/
def Device.reliable : Device :=
  { textures := [], nb_views := 0, nb_calls := 0,
    succeeds := fun _ => true, quality_levels := fun _ => 1 }

/-- Modelled from the spec: `ThrowIfFailed` of `exception.hpp`, which raises
the creation error when the status (or the boolean) reports failure. -/
def ThrowIfFailed (result : Bool) (msg : String) : Except Exception Unit :=
  if result then Except.ok () else Except.error { msg := msg }

/-! ## Display configuration and swap chain -/

/-- The display configuration as read by `OutputManager` and `Renderer`:
display width and height (`U32`), the anti-aliasing descriptor and the answer
of `UsesMSAA()`. -/
structure DisplayConfiguration where
  m_display_width : Nat
  m_display_height : Nat
  m_aa_desc : AADescriptor
  m_uses_msaa : Bool

def DisplayConfiguration.GetDisplayWidth (c : DisplayConfiguration) : Nat :=
  c.m_display_width

def DisplayConfiguration.GetDisplayHeight (c : DisplayConfiguration) : Nat :=
  c.m_display_height

def DisplayConfiguration.GetAADescriptor (c : DisplayConfiguration) : AADescriptor :=
  c.m_aa_desc

def DisplayConfiguration.UsesMSAA (c : DisplayConfiguration) : Bool :=
  c.m_uses_msaa

/-- The swap chain as seen by `OutputManager`: the render target view of its
back buffer. -/
structure SwapChain where
  m_rtv : Option View

def SwapChain.GetRTV (s : SwapChain) : Option View :=
  s.m_rtv

/-! ## OutputManager: state and setup -/

/-- The member variables of `OutputManager`. -/
structure OutputManager where
  m_display_configuration : DisplayConfiguration
  m_device : Device
  m_swap_chain : SwapChain
  m_srvs : SRVIndex → Option View
  m_rtvs : RTVIndex → Option View
  m_uavs : UAVIndex → Option View
  m_dsv : Option View
  m_hdr0_to_hdr1 : Bool
  m_msaa : Bool
  m_ssaa : Bool

namespace OutputManager

def GetSRV (om : OutputManager) (index : SRVIndex) : Option View :=
  om.m_srvs index

def GetRTV (om : OutputManager) (index : RTVIndex) : Option View :=
  om.m_rtvs index

def GetUAV (om : OutputManager) (index : UAVIndex) : Option View :=
  om.m_uavs index

/-- The store through the pointer `ReleaseAndGetAddressOfSRV(index)`. -/
def setSRV (om : OutputManager) (index : SRVIndex) (v : Option View) : OutputManager :=
  { om with m_srvs := fun i => if i = index then v else om.m_srvs i }

/-- The store through the pointer `ReleaseAndGetAddressOfRTV(index)`. -/
def setRTV (om : OutputManager) (index : RTVIndex) (v : Option View) : OutputManager :=
  { om with m_rtvs := fun i => if i = index then v else om.m_rtvs i }

/-- The store through the pointer `ReleaseAndGetAddressOfUAV(index)`. -/
def setUAV (om : OutputManager) (index : UAVIndex) (v : Option View) : OutputManager :=
  { om with m_uavs := fun i => if i = index then v else om.m_uavs i }

/-- The effect of evaluating the arguments `ReleaseAndGetAddressOf*` of a
`SetupBuffer` call: the addressed slots are released; a null `rtv` or `uav`
argument addresses no slot. -/
def releaseSlots (om : OutputManager) (srv : SRVIndex) (rtv : Option RTVIndex)
    (uav : Option UAVIndex) : OutputManager :=
  let om := om.setSRV srv none
  let om := match rtv with
    | some r => om.setRTV r none
    | none => om
  match uav with
  | some u => om.setUAV u none
  | none => om

/-- The block `// Sample quality` shared by `SetupBuffer` and
`SetupDepthBuffer`. -/
def sampleQuality (d : Device) (texture_desc : TextureDesc) (nb_samples : Nat) :
    Except Exception (Device × TextureDesc) :=
  if 1 ≠ nb_samples then
    match d.CheckMultisampleQualityLevels with
    | (d, result, quality) =>
      match ThrowIfFailed result "Multi-sampled texture 2D creation failed: %08X." with
      | Except.error e => Except.error e
      | Except.ok _ =>
        match ThrowIfFailed (0 != quality) "Multi-sampled texture 2D creation failed." with
        | Except.error e => Except.error e
        | Except.ok _ =>
          Except.ok (d, { texture_desc with SampleDesc_Quality := (quality - 1) % U32_MOD })
  else
    Except.ok (d, texture_desc)

/-- The block `// RTV` of `SetupBuffer`. -/
def SetupBuffer_rtv (om : OutputManager) (texture : Nat) (rtv : Option RTVIndex) :
    Except Exception OutputManager :=
  match rtv with
  | some r =>
    match om.m_device.CreateView texture ViewKind.RTV with
    | (d, result, v) =>
      match ThrowIfFailed result "RTV creation failed: %08X." with
      | Except.error e => Except.error e
      | Except.ok _ => Except.ok ({ om with m_device := d }.setRTV r v)
  | none => Except.ok om

/-- The block `// UAV` of `SetupBuffer`. -/
def SetupBuffer_uav (om : OutputManager) (texture : Nat) (uav : Option UAVIndex) :
    Except Exception OutputManager :=
  match uav with
  | some u =>
    match om.m_device.CreateView texture ViewKind.UAV with
    | (d, result, v) =>
      match ThrowIfFailed result "UAV creation failed: %08X." with
      | Except.error e => Except.error e
      | Except.ok _ => Except.ok ({ om with m_device := d }.setUAV u v)
  | none => Except.ok om

/-- The function `OutputManager::SetupBuffer`.  The three pointer arguments
are given by the index of the slot they address, `none` for `nullptr`. -/
def SetupBuffer (om : OutputManager) (width height nb_samples : Nat) (format : DXGI_FORMAT)
    (srv : SRVIndex) (rtv : Option RTVIndex) (uav : Option UAVIndex) :
    Except Exception OutputManager :=
  let om := om.releaseSlots srv rtv uav
  let texture_desc : TextureDesc :=
    { Width := width, Height := height, MipLevels := 1, ArraySize := 1, Format := format,
      SampleDesc_Count := nb_samples, SampleDesc_Quality := 0,
      BIND_SHADER_RESOURCE := true,
      BIND_RENDER_TARGET := rtv.isSome,
      BIND_UNORDERED_ACCESS := uav.isSome,
      BIND_DEPTH_STENCIL := false }
  match sampleQuality om.m_device texture_desc nb_samples with
  | Except.error e => Except.error e
  | Except.ok (d, texture_desc) =>
    match d.CreateTexture2D texture_desc with
    | (d, result, texture) =>
      match ThrowIfFailed result "Texture 2D creation failed: %08X." with
      | Except.error e => Except.error e
      | Except.ok _ =>
        match d.CreateView texture ViewKind.SRV with
        | (d, result, v) =>
          match ThrowIfFailed result "SRV creation failed: %08X." with
          | Except.error e => Except.error e
          | Except.ok _ =>
            match SetupBuffer_rtv ({ om with m_device := d }.setSRV srv v) texture rtv with
            | Except.error e => Except.error e
            | Except.ok om => SetupBuffer_uav om texture uav

/-- The function `OutputManager::SetupDepthBuffer`. -/
def SetupDepthBuffer (om : OutputManager) (width height nb_samples : Nat) :
    Except Exception OutputManager :=
  let texture_desc : TextureDesc :=
    { Width := width, Height := height, MipLevels := 1, ArraySize := 1,
      Format := DXGI_FORMAT.R32_TYPELESS,
      SampleDesc_Count := nb_samples, SampleDesc_Quality := 0,
      BIND_SHADER_RESOURCE := true,
      BIND_RENDER_TARGET := false,
      BIND_UNORDERED_ACCESS := false,
      BIND_DEPTH_STENCIL := true }
  match sampleQuality om.m_device texture_desc nb_samples with
  | Except.error e => Except.error e
  | Except.ok (d, texture_desc) =>
    match d.CreateTexture2D texture_desc with
    | (d, result, texture) =>
      match ThrowIfFailed result "Texture 2D creation failed: %08X." with
      | Except.error e => Except.error e
      | Except.ok _ =>
        let om := om.setSRV SRVIndex.GBuffer_Depth none
        match d.CreateView texture ViewKind.SRV with
        | (d, result, v) =>
          match ThrowIfFailed result "SRV creation failed: %08X." with
          | Except.error e => Except.error e
          | Except.ok _ =>
            let om := { om with m_device := d }.setSRV SRVIndex.GBuffer_Depth v
            let om := { om with m_dsv := none }
            match om.m_device.CreateView texture ViewKind.DSV with
            | (d, result, v) =>
              match ThrowIfFailed result "DSV creation failed: %08X." with
              | Except.error e => Except.error e
              | Except.ok _ => Except.ok { om with m_device := d, m_dsv := v }

/-- The values the `switch` of `SetupBuffers` leaves in its locals and in
`m_msaa`, `m_ssaa`. -/
structure AASetup where
  nb_samples : Nat
  ss_width : Nat
  ss_height : Nat
  aa : Bool
  m_msaa : Bool
  m_ssaa : Bool
  deriving DecidableEq, Repr

/-- The declarations and the `switch` at the head of `SetupBuffers`; `m_msaa`
and `m_ssaa` enter with the value they have before the call. -/
def SetupBuffers_switch (desc : AADescriptor) (width height : Nat) (m_msaa m_ssaa : Bool) :
    AASetup :=
  let s : AASetup :=
    { nb_samples := 1, ss_width := width, ss_height := height, aa := true,
      m_msaa := m_msaa, m_ssaa := m_ssaa }
  match desc with
  | AADescriptor.MSAA_2x => { s with m_msaa := true, nb_samples := 2 }
  | AADescriptor.MSAA_4x => { s with m_msaa := true, nb_samples := 4 }
  | AADescriptor.MSAA_8x => { s with m_msaa := true, nb_samples := 8 }
  | AADescriptor.SSAA_2x =>
    { s with m_ssaa := true, ss_width := (s.ss_width * 2) % U32_MOD,
             ss_height := (s.ss_height * 2) % U32_MOD }
  | AADescriptor.SSAA_3x =>
    { s with m_ssaa := true, ss_width := (s.ss_width * 3) % U32_MOD,
             ss_height := (s.ss_height * 3) % U32_MOD }
  | AADescriptor.SSAA_4x =>
    { s with m_ssaa := true, ss_width := (s.ss_width * 4) % U32_MOD,
             ss_height := (s.ss_height * 4) % U32_MOD }
  | AADescriptor.None => { s with aa := false }
  | AADescriptor.FXAA => s

/-- The statement `if (aa) ... else ...` of `SetupBuffers` for
`PostProcessing_HDR0`. -/
def SetupBuffers_hdr0 (om : OutputManager) (width height : Nat) (aa : Bool) :
    Except Exception OutputManager :=
  if aa then
    om.SetupBuffer width height 1 DXGI_FORMAT.R16G16B16A16_FLOAT
      SRVIndex.PostProcessing_HDR0 (some RTVIndex.PostProcessing_HDR0)
      (some UAVIndex.PostProcessing_HDR0)
  else
    let om := om.setSRV SRVIndex.PostProcessing_HDR0 (om.m_srvs SRVIndex.HDR)
    let om := om.setRTV RTVIndex.PostProcessing_HDR0 (om.m_rtvs RTVIndex.HDR)
    let om := om.setUAV UAVIndex.PostProcessing_HDR0 (om.m_uavs UAVIndex.HDR)
    Except.ok om

/-- The last statement `if (m_msaa || m_ssaa) ... else ...` of
`SetupBuffers`. -/
def SetupBuffers_postprocessing (om : OutputManager) (width height : Nat) :
    Except Exception OutputManager :=
  if om.m_msaa || om.m_ssaa then
    match om.SetupBuffer width height 1 DXGI_FORMAT.R32_FLOAT
        SRVIndex.PostProcessing_Depth none (some UAVIndex.PostProcessing_Depth) with
    | Except.error e => Except.error e
    | Except.ok om =>
      om.SetupBuffer width height 1 DXGI_FORMAT.R11G11B10_FLOAT
        SRVIndex.PostProcessing_Normal none (some UAVIndex.PostProcessing_Normal)
  else
    let om := om.setSRV SRVIndex.PostProcessing_Depth (om.m_srvs SRVIndex.GBuffer_Depth)
    let om := om.setSRV SRVIndex.PostProcessing_Normal (om.m_srvs SRVIndex.GBuffer_Normal)
    Except.ok om

/-- The statement `if (m_msaa) ... else ...` of `SetupBuffers` for the HDR
buffer. -/
def SetupBuffers_hdr (om : OutputManager) (ss_width ss_height nb_samples : Nat) :
    Except Exception OutputManager :=
  if om.m_msaa then
    om.SetupBuffer ss_width ss_height nb_samples DXGI_FORMAT.R16G16B16A16_FLOAT
      SRVIndex.HDR (some RTVIndex.HDR) none
  else
    om.SetupBuffer ss_width ss_height 1 DXGI_FORMAT.R16G16B16A16_FLOAT
      SRVIndex.HDR (some RTVIndex.HDR) (some UAVIndex.HDR)

/-- The function `OutputManager::SetupBuffers`. -/
def SetupBuffers (om : OutputManager) : Except Exception OutputManager :=
  let width := om.m_display_configuration.GetDisplayWidth
  let height := om.m_display_configuration.GetDisplayHeight
  let s := SetupBuffers_switch om.m_display_configuration.GetAADescriptor width height
    om.m_msaa om.m_ssaa
  let om := { om with m_msaa := s.m_msaa, m_ssaa := s.m_ssaa }
  match om.SetupDepthBuffer s.ss_width s.ss_height s.nb_samples with
  | Except.error e => Except.error e
  | Except.ok om =>
  match om.SetupBuffer s.ss_width s.ss_height s.nb_samples DXGI_FORMAT.R8G8B8A8_UNORM_SRGB
      SRVIndex.GBuffer_BaseColor (some RTVIndex.GBuffer_BaseColor) none with
  | Except.error e => Except.error e
  | Except.ok om =>
  match om.SetupBuffer s.ss_width s.ss_height s.nb_samples DXGI_FORMAT.R8G8B8A8_UNORM
      SRVIndex.GBuffer_Material (some RTVIndex.GBuffer_Material) none with
  | Except.error e => Except.error e
  | Except.ok om =>
  match om.SetupBuffer s.ss_width s.ss_height s.nb_samples DXGI_FORMAT.R11G11B10_FLOAT
      SRVIndex.GBuffer_Normal (some RTVIndex.GBuffer_Normal) none with
  | Except.error e => Except.error e
  | Except.ok om =>
  match om.SetupBuffers_hdr s.ss_width s.ss_height s.nb_samples with
  | Except.error e => Except.error e
  | Except.ok om =>
  match om.SetupBuffers_hdr0 width height s.aa with
  | Except.error e => Except.error e
  | Except.ok om =>
  match om.SetupBuffer width height 1 DXGI_FORMAT.R16G16B16A16_FLOAT
      SRVIndex.PostProcessing_HDR1 (some RTVIndex.PostProcessing_HDR1)
      (some UAVIndex.PostProcessing_HDR1) with
  | Except.error e => Except.error e
  | Except.ok om => om.SetupBuffers_postprocessing width height

/-- The manager before `SetupBuffers`, as the member initialisers of the
constructor leave it. -/
def initial (device : Device) (display_configuration : DisplayConfiguration)
    (swap_chain : SwapChain) : OutputManager :=
  { m_display_configuration := display_configuration,
    m_device := device,
    m_swap_chain := swap_chain,
    m_srvs := fun _ => none,
    m_rtvs := fun _ => none,
    m_uavs := fun _ => none,
    m_dsv := none,
    m_hdr0_to_hdr1 := true,
    m_msaa := false,
    m_ssaa := false }

/-- The constructor `OutputManager::OutputManager`: the member initialisers
followed by `SetupBuffers`. -/
def create (device : Device) (display_configuration : DisplayConfiguration)
    (swap_chain : SwapChain) : Except Exception OutputManager :=
  SetupBuffers (initial device display_configuration swap_chain)

end OutputManager

/-! ## The device context and the pipeline binding calls -/

/-- The slot numbers of `hlsl.hpp` used by `OutputManager`.  Their values are
not part of the repository sources at hand; the `static_assert`s of
`output_manager.cpp` fix the other slots relative to these three. -/
structure HLSL where
  SLOT_SRV_BASE_COLOR : Nat
  SLOT_SRV_IMAGE : Nat
  SLOT_UAV_IMAGE : Nat

def HLSL.SLOT_SRV_MATERIAL (hlsl : HLSL) : Nat := hlsl.SLOT_SRV_BASE_COLOR + 1

def HLSL.SLOT_SRV_NORMAL (hlsl : HLSL) : Nat := hlsl.SLOT_SRV_BASE_COLOR + 2

def HLSL.SLOT_SRV_DEPTH (hlsl : HLSL) : Nat := hlsl.SLOT_SRV_BASE_COLOR + 3

def HLSL.SLOT_UAV_NORMAL (hlsl : HLSL) : Nat := hlsl.SLOT_UAV_IMAGE + 1

def HLSL.SLOT_UAV_DEPTH (hlsl : HLSL) : Nat := hlsl.SLOT_UAV_IMAGE + 2

/-- Modelled from the spec: the binding state of the immediate device context
(`ID3D11DeviceContext`) that `OutputManager` manages: the shader-input slots of
the pixel and the compute stage, the compute read-write slots, the bound
render targets and depth target, and the list of views cleared so far. -/
structure DeviceContext where
  ps_srvs : Nat → Option View
  cs_srvs : Nat → Option View
  cs_uavs : Nat → Option View
  om_rtvs : List (Option View)
  om_dsv : Option View
  cleared : List (Option View)

/-- A device context with nothing bound. -/
def DeviceContext.empty : DeviceContext :=
  { ps_srvs := fun _ => none, cs_srvs := fun _ => none, cs_uavs := fun _ => none,
    om_rtvs := [], om_dsv := none, cleared := [] }

/-- Writing `nb` consecutive slots from `start` with the entries of `views`. -/
def bindSlots (slots : Nat → Option View) (start nb : Nat) (views : List (Option View)) :
    Nat → Option View :=
  fun s => if start ≤ s ∧ s < start + nb then (views.getD (s - start) none) else slots s

namespace Pipeline

/-- Modelled from the spec: `Pipeline::PS::BindSRVs` of `pipeline.hpp`
(`PSSetShaderResources`). -/
def PS.BindSRVs (ctx : DeviceContext) (slot nb_srvs : Nat) (srvs : List (Option View)) :
    DeviceContext :=
  { ctx with ps_srvs := bindSlots ctx.ps_srvs slot nb_srvs srvs }

/-- Modelled from the spec: `Pipeline::PS::BindSRV` of `pipeline.hpp`. -/
def PS.BindSRV (ctx : DeviceContext) (slot : Nat) (srv : Option View) : DeviceContext :=
  PS.BindSRVs ctx slot 1 [srv]

/-- Modelled from the spec: `Pipeline::CS::BindSRVs` of `pipeline.hpp`
(`CSSetShaderResources`). -/
def CS.BindSRVs (ctx : DeviceContext) (slot nb_srvs : Nat) (srvs : List (Option View)) :
    DeviceContext :=
  { ctx with cs_srvs := bindSlots ctx.cs_srvs slot nb_srvs srvs }

/-- Modelled from the spec: `Pipeline::CS::BindSRV` of `pipeline.hpp`. -/
def CS.BindSRV (ctx : DeviceContext) (slot : Nat) (srv : Option View) : DeviceContext :=
  CS.BindSRVs ctx slot 1 [srv]

/-- Modelled from the spec: `Pipeline::CS::BindUAVs` of `pipeline.hpp`
(`CSSetUnorderedAccessViews`). -/
def CS.BindUAVs (ctx : DeviceContext) (slot nb_uavs : Nat) (uavs : List (Option View)) :
    DeviceContext :=
  { ctx with cs_uavs := bindSlots ctx.cs_uavs slot nb_uavs uavs }

/-- Modelled from the spec: `Pipeline::CS::BindUAV` of `pipeline.hpp`. -/
def CS.BindUAV (ctx : DeviceContext) (slot : Nat) (uav : Option View) : DeviceContext :=
  CS.BindUAVs ctx slot 1 [uav]

/-- Modelled from the spec: `Pipeline::OM::BindRTVsAndDSV` of `pipeline.hpp`
(`OMSetRenderTargets`): the bound render targets become the `nb_views` given
ones and the depth target the given one. -/
def OM.BindRTVsAndDSV (ctx : DeviceContext) (nb_views : Nat) (rtvs : List (Option View))
    (dsv : Option View) : DeviceContext :=
  { ctx with om_rtvs := rtvs.take nb_views, om_dsv := dsv }

/-- Modelled from the spec: `Pipeline::OM::BindRTVAndDSV` of `pipeline.hpp`. -/
def OM.BindRTVAndDSV (ctx : DeviceContext) (rtv : Option View) (dsv : Option View) :
    DeviceContext :=
  OM.BindRTVsAndDSV ctx 1 [rtv] dsv

/-- Modelled from the spec: `Pipeline::OM::ClearRTV` of `pipeline.hpp`. -/
def OM.ClearRTV (ctx : DeviceContext) (rtv : Option View) : DeviceContext :=
  { ctx with cleared := ctx.cleared ++ [rtv] }

/-- Modelled from the spec: `Pipeline::OM::ClearDepthOfDSV` of
`pipeline.hpp`. -/
def OM.ClearDepthOfDSV (ctx : DeviceContext) (dsv : Option View) : DeviceContext :=
  { ctx with cleared := ctx.cleared ++ [dsv] }

/-- Modelled from the spec: `Pipeline::OM::ClearDSV` of `pipeline.hpp`. -/
def OM.ClearDSV (ctx : DeviceContext) (dsv : Option View) : DeviceContext :=
  { ctx with cleared := ctx.cleared ++ [dsv] }

end Pipeline

/-! ## OutputManager: phase operations

Every `Bind*` member is `const` in the source and acts on the device context;
`BindBegin` and `BindPingPong` also write the `mutable` member
`m_hdr0_to_hdr1`.  Each is a function from the manager and the context to the
manager and the context. -/

namespace OutputManager

open Pipeline

def BindBegin (hlsl : HLSL) (om : OutputManager) (device_context : DeviceContext) :
    OutputManager × DeviceContext :=
  let srvs : List (Option View) := [none, none, none, none]
  let ctx := PS.BindSRVs device_context hlsl.SLOT_SRV_BASE_COLOR srvs.length srvs
  let ctx := CS.BindSRVs ctx hlsl.SLOT_SRV_BASE_COLOR srvs.length srvs
  let ctx := OM.ClearRTV ctx (om.GetRTV RTVIndex.GBuffer_BaseColor)
  let ctx := OM.ClearRTV ctx (om.GetRTV RTVIndex.GBuffer_Material)
  let ctx := OM.ClearRTV ctx (om.GetRTV RTVIndex.GBuffer_Normal)
  let ctx := OM.ClearDepthOfDSV ctx om.m_dsv
  let ctx := PS.BindSRV ctx hlsl.SLOT_SRV_IMAGE none
  let ctx := CS.BindSRV ctx hlsl.SLOT_SRV_IMAGE none
  let ctx := OM.ClearRTV ctx (om.GetRTV RTVIndex.HDR)
  ({ om with m_hdr0_to_hdr1 := true }, ctx)

def BindBeginGBuffer (om : OutputManager) (device_context : DeviceContext) :
    OutputManager × DeviceContext :=
  let rtvs : List (Option View) :=
    [om.GetRTV RTVIndex.GBuffer_BaseColor,
     om.GetRTV RTVIndex.GBuffer_Material,
     om.GetRTV RTVIndex.GBuffer_Normal]
  (om, OM.BindRTVsAndDSV device_context rtvs.length rtvs om.m_dsv)

def BindEndGBuffer (om : OutputManager) (device_context : DeviceContext) :
    OutputManager × DeviceContext :=
  (om, OM.BindRTVAndDSV device_context none none)

def BindBeginDeferred (hlsl : HLSL) (om : OutputManager) (device_context : DeviceContext) :
    OutputManager × DeviceContext :=
  let srvs : List (Option View) :=
    [om.GetSRV SRVIndex.GBuffer_BaseColor,
     om.GetSRV SRVIndex.GBuffer_Material,
     om.GetSRV SRVIndex.GBuffer_Normal,
     om.GetSRV SRVIndex.GBuffer_Depth]
  if om.m_msaa then
    let ctx := PS.BindSRVs device_context hlsl.SLOT_SRV_BASE_COLOR srvs.length srvs
    (om, OM.BindRTVAndDSV ctx (om.GetRTV RTVIndex.HDR) none)
  else
    let ctx := CS.BindSRVs device_context hlsl.SLOT_SRV_BASE_COLOR srvs.length srvs
    (om, CS.BindUAV ctx hlsl.SLOT_UAV_IMAGE (om.GetUAV UAVIndex.HDR))

def BindEndDeferred (hlsl : HLSL) (om : OutputManager) (device_context : DeviceContext) :
    OutputManager × DeviceContext :=
  let srvs : List (Option View) := [none, none, none, none]
  if om.m_msaa then
    let ctx := PS.BindSRVs device_context hlsl.SLOT_SRV_BASE_COLOR srvs.length srvs
    (om, OM.BindRTVAndDSV ctx none none)
  else
    let ctx := CS.BindSRVs device_context hlsl.SLOT_SRV_BASE_COLOR srvs.length srvs
    (om, CS.BindUAV ctx hlsl.SLOT_UAV_IMAGE none)

def BindBeginForward (om : OutputManager) (device_context : DeviceContext) :
    OutputManager × DeviceContext :=
  let rtvs : List (Option View) :=
    [om.GetRTV RTVIndex.HDR,
     om.GetRTV RTVIndex.GBuffer_Normal]
  (om, OM.BindRTVsAndDSV device_context rtvs.length rtvs om.m_dsv)

def BindEndForward (om : OutputManager) (device_context : DeviceContext) :
    OutputManager × DeviceContext :=
  (om, OM.BindRTVAndDSV device_context none none)

def BindBeginResolve (hlsl : HLSL) (om : OutputManager) (device_context : DeviceContext) :
    OutputManager × DeviceContext :=
  let ctx := CS.BindSRV device_context hlsl.SLOT_SRV_IMAGE (om.GetSRV SRVIndex.HDR)
  let ctx := CS.BindSRV ctx hlsl.SLOT_SRV_NORMAL (om.GetSRV SRVIndex.GBuffer_Normal)
  let ctx := CS.BindSRV ctx hlsl.SLOT_SRV_DEPTH (om.GetSRV SRVIndex.GBuffer_Depth)
  let uavs : List (Option View) :=
    [om.GetUAV UAVIndex.PostProcessing_HDR0,
     om.GetUAV UAVIndex.PostProcessing_Normal,
     om.GetUAV UAVIndex.PostProcessing_Depth]
  (om, CS.BindUAVs ctx hlsl.SLOT_UAV_IMAGE uavs.length uavs)

def BindEndResolve (hlsl : HLSL) (om : OutputManager) (device_context : DeviceContext) :
    OutputManager × DeviceContext :=
  let ctx := CS.BindSRV device_context hlsl.SLOT_SRV_IMAGE none
  let ctx := CS.BindSRV ctx hlsl.SLOT_SRV_NORMAL none
  let ctx := CS.BindSRV ctx hlsl.SLOT_SRV_DEPTH none
  let uavs : List (Option View) := [none, none, none]
  (om, CS.BindUAVs ctx hlsl.SLOT_UAV_IMAGE uavs.length uavs)

def BindBeginPostProcessing (hlsl : HLSL) (om : OutputManager)
    (device_context : DeviceContext) : OutputManager × DeviceContext :=
  let ctx := CS.BindSRV device_context hlsl.SLOT_SRV_NORMAL
    (om.GetSRV SRVIndex.PostProcessing_Normal)
  (om, CS.BindSRV ctx hlsl.SLOT_SRV_DEPTH (om.GetSRV SRVIndex.PostProcessing_Depth))

def BindPingPong (hlsl : HLSL) (om : OutputManager) (device_context : DeviceContext) :
    OutputManager × DeviceContext :=
  let ctx := CS.BindUAV device_context hlsl.SLOT_UAV_IMAGE none
  let ctx :=
    if om.m_hdr0_to_hdr1 then
      let ctx := CS.BindUAV ctx hlsl.SLOT_UAV_IMAGE (om.GetUAV UAVIndex.PostProcessing_HDR1)
      CS.BindSRV ctx hlsl.SLOT_SRV_IMAGE (om.GetSRV SRVIndex.PostProcessing_HDR0)
    else
      let ctx := CS.BindUAV ctx hlsl.SLOT_UAV_IMAGE (om.GetUAV UAVIndex.PostProcessing_HDR0)
      CS.BindSRV ctx hlsl.SLOT_SRV_IMAGE (om.GetSRV SRVIndex.PostProcessing_HDR1)
  ({ om with m_hdr0_to_hdr1 := !om.m_hdr0_to_hdr1 }, ctx)

def BindEnd (hlsl : HLSL) (om : OutputManager) (device_context : DeviceContext) :
    OutputManager × DeviceContext :=
  let ctx := OM.BindRTVAndDSV device_context om.m_swap_chain.GetRTV none
  let ctx := CS.BindUAV ctx hlsl.SLOT_UAV_IMAGE none
  if om.m_hdr0_to_hdr1 then
    (om, PS.BindSRV ctx hlsl.SLOT_SRV_IMAGE (om.GetSRV SRVIndex.PostProcessing_HDR0))
  else
    (om, PS.BindSRV ctx hlsl.SLOT_SRV_IMAGE (om.GetSRV SRVIndex.PostProcessing_HDR1))

/-- The state after `n` consecutive calls of `BindPingPong`. -/
def BindPingPong_times (hlsl : HLSL) :
    Nat → OutputManager × DeviceContext → OutputManager × DeviceContext
  | 0, s => s
  | n + 1, s =>
    let s := BindPingPong_times hlsl n s
    BindPingPong hlsl s.1 s.2

end OutputManager

/-! ## Scene, camera and the commands of Renderer

The declarations of `Camera`, `CameraSettings`, `CameraLens`, `Viewport`,
`RenderMode`, `RenderLayer`, `State` and `Scene::ForEach` are not among the
sources at hand; they are given here as far as `renderer.cpp` uses them. -/

/-- The render modes `Renderer::Render` switches on. -/
inductive RenderMode where
  | Forward
  | Deferred
  | Solid
  | BaseColor
  | BaseColorCoefficient
  | BaseColorTexture
  | Material
  | MaterialCoefficient
  | MaterialTexture
  | NormalTexture
  | UVTexture
  | Distance
  | ShadingNormal
  | TSNMShadingNormal
  | None
  deriving DecidableEq, Repr

/-- The render layers tested by `Renderer::Render`. -/
inductive RenderLayer where
  | Wireframe
  | AABB
  deriving DecidableEq, Repr

/-- The state of a component; `Renderer::Render` only compares it with
`Active`, the two other values stand for every state that is not `Active`. -/
inductive State where
  | Active
  | Passive
  | Terminated
  deriving DecidableEq, Repr

/-- A viewport; the four numbers stand for the members of `D3D11_VIEWPORT`,
on which no arithmetic is done here. -/
structure Viewport where
  m_top_left_x : Nat
  m_top_left_y : Nat
  m_width : Nat
  m_height : Nat
  deriving DecidableEq, Repr

/-- The BRDF selected by the camera settings, an opaque tag handed to
`BindFixedState`. -/
structure BRDFType where
  tag : Nat
  deriving DecidableEq, Repr

/-- Modelled from the spec: the camera lens; `m_finite_aperture` is the answer
of `HasFiniteAperture()`, false for a pinhole lens (aperture 0). -/
structure CameraLens where
  m_finite_aperture : Bool
  deriving DecidableEq, Repr

def CameraLens.HasFiniteAperture (lens : CameraLens) : Bool :=
  lens.m_finite_aperture

/-- The camera settings read by `Renderer`: render mode, BRDF and the set of
render layers. -/
structure CameraSettings where
  m_render_mode : RenderMode
  m_brdf : BRDFType
  m_render_layers : List RenderLayer
  deriving DecidableEq, Repr

def CameraSettings.GetRenderMode (s : CameraSettings) : RenderMode :=
  s.m_render_mode

def CameraSettings.GetBRDF (s : CameraSettings) : BRDFType :=
  s.m_brdf

def CameraSettings.ContainsRenderLayer (s : CameraSettings) (layer : RenderLayer) : Bool :=
  s.m_render_layers.contains layer

/-- A camera as read by `Renderer`. -/
structure Camera where
  m_state : State
  m_settings : CameraSettings
  m_lens : CameraLens
  m_viewport : Viewport
  m_ss_viewport : Viewport
  deriving DecidableEq, Repr

def Camera.GetState (c : Camera) : State := c.m_state

def Camera.GetSettings (c : Camera) : CameraSettings := c.m_settings

def Camera.GetLens (c : Camera) : CameraLens := c.m_lens

def Camera.GetViewport (c : Camera) : Viewport := c.m_viewport

def Camera.GetSSViewport (c : Camera) : Viewport := c.m_ss_viewport

/-- A scene as read by `Renderer`: its cameras in iteration order. -/
structure Scene where
  m_cameras : List Camera

/-- Modelled from the spec: `Scene::ForEach< Camera >` of `scene.tpp`, which
applies the action to every camera of the scene in order. -/
def Scene.ForEach_Camera {σ : Type} (scene : Scene) (action : σ → Camera → σ) (init : σ) : σ :=
  scene.m_cameras.foldl action init

/-- The calls `Renderer` makes on the output manager. -/
inductive OutputManagerCall where
  | BindBegin
  | BindBeginGBuffer
  | BindEndGBuffer
  | BindBeginDeferred
  | BindEndDeferred
  | BindBeginForward
  | BindEndForward
  | BindBeginResolve
  | BindEndResolve
  | BindBeginPostProcessing
  | BindPingPong
  | BindEnd
  deriving DecidableEq, Repr

/-- The member of `OutputManager` a call names. -/
def OutputManagerCall.run (hlsl : HLSL) :
    OutputManagerCall → OutputManager → DeviceContext → OutputManager × DeviceContext
  | BindBegin => OutputManager.BindBegin hlsl
  | BindBeginGBuffer => OutputManager.BindBeginGBuffer
  | BindEndGBuffer => OutputManager.BindEndGBuffer
  | BindBeginDeferred => OutputManager.BindBeginDeferred hlsl
  | BindEndDeferred => OutputManager.BindEndDeferred hlsl
  | BindBeginForward => OutputManager.BindBeginForward
  | BindEndForward => OutputManager.BindEndForward
  | BindBeginResolve => OutputManager.BindBeginResolve hlsl
  | BindEndResolve => OutputManager.BindEndResolve hlsl
  | BindBeginPostProcessing => OutputManager.BindBeginPostProcessing hlsl
  | BindPingPong => OutputManager.BindPingPong hlsl
  | BindEnd => OutputManager.BindEnd hlsl

/-- The commands `Renderer` issues, one constructor per callee.  Scene and
matrix arguments are not recorded. -/
inductive Cmd where
  | OutputManager (call : OutputManagerCall)
  | BindCameraBuffer (camera : Camera)
  | BindViewport (viewport : Viewport)
  | LBufferPass_Render
  | GBufferPass_BindFixedState
  | GBufferPass_Render
  | DeferredShadingPass_BindFixedState (brdf : BRDFType) (use_compute : Bool)
  | DeferredShadingPass_Render
  | DeferredShadingPass_Dispatch (viewport : Viewport)
  | VariableShadingPass_BindFixedState (brdf : BRDFType)
  | VariableShadingPass_Render
  | VariableShadingPass_RenderEmissive
  | VariableShadingPass_RenderTransparent
  | SkyPass_BindFixedState
  | SkyPass_Render
  | ConstantShadingPass_BindFixedState
  | ConstantShadingPass_Render
  | VariableComponentPass_BindFixedState (mode : RenderMode)
  | VariableComponentPass_Render
  | ConstantComponentPass_BindFixedState (mode : RenderMode)
  | ConstantComponentPass_Render
  | ShadingNormalPass_BindFixedState (mode : RenderMode)
  | ShadingNormalPass_Render
  | WireframePass_BindFixedState
  | WireframePass_Render
  | BoundingVolumePass_BindFixedState
  | BoundingVolumePass_Render
  | AAPass_DispatchAAPreprocess (viewport : Viewport) (desc : AADescriptor)
  | AAPass_DispatchAA (viewport : Viewport) (desc : AADescriptor)
  | DOFPass_Dispatch (viewport : Viewport)
  | BackBufferPass_BindFixedState
  | BackBufferPass_Render
  | SpritePass_BindFixedState
  | SpritePass_Render
  deriving DecidableEq, Repr

/-- The graphics draws: the `Render*` members of the passes. -/
def Cmd.isDraw : Cmd → Bool
  | LBufferPass_Render => true
  | GBufferPass_Render => true
  | DeferredShadingPass_Render => true
  | VariableShadingPass_Render => true
  | VariableShadingPass_RenderEmissive => true
  | VariableShadingPass_RenderTransparent => true
  | SkyPass_Render => true
  | ConstantShadingPass_Render => true
  | VariableComponentPass_Render => true
  | ConstantComponentPass_Render => true
  | ShadingNormalPass_Render => true
  | WireframePass_Render => true
  | BoundingVolumePass_Render => true
  | BackBufferPass_Render => true
  | SpritePass_Render => true
  | _ => false

/-- The compute dispatches: the `Dispatch*` members of the passes. -/
def Cmd.isDispatch : Cmd → Bool
  | DeferredShadingPass_Dispatch _ => true
  | AAPass_DispatchAAPreprocess _ _ => true
  | AAPass_DispatchAA _ _ => true
  | DOFPass_Dispatch _ => true
  | _ => false

/-- A command together with the binding state of the device context in which
it takes effect (for an output manager call: the state it leaves). -/
structure Event where
  cmd : Cmd
  ctx : DeviceContext

/-! ## Renderer -/

/-- The state `Renderer` works on: its device context and maximum viewport,
the two singletons it reaches through `RenderingOutputManager::Get()` and
`DisplayConfiguration::Get()`, the slot numbers, and the commands issued so
far. -/
structure Renderer where
  m_device_context : DeviceContext
  m_maximum_viewport : Viewport
  output_manager : OutputManager
  display_configuration : DisplayConfiguration
  hlsl : HLSL
  issued : List Event

namespace Renderer

/-- Modelled from the spec: a call into a pass object, the constant buffers or
a viewport.  These collaborators are outside the sources at hand; the call is
recorded and leaves the slots managed by the output manager alone. -/
def issue (r : Renderer) (c : Cmd) : Renderer :=
  { r with issued := r.issued ++ [{ cmd := c, ctx := r.m_device_context }] }

/-- A call `output_manager->X(m_device_context)`. -/
def callOutputManager (r : Renderer) (call : OutputManagerCall) : Renderer :=
  let res := call.run r.hlsl r.output_manager r.m_device_context
  issue { r with output_manager := res.1, m_device_context := res.2 } (Cmd.OutputManager call)

/-- The commands issued so far, without the binding states. -/
def cmds (r : Renderer) : List Cmd :=
  r.issued.map Event.cmd

def ExecuteSolidForwardPipeline (r : Renderer) (_scene : Scene) (camera : Camera) : Renderer :=
  let viewport := camera.GetSSViewport
  let r := r.issue Cmd.LBufferPass_Render
  let r := r.issue (Cmd.BindViewport viewport)
  let r := r.callOutputManager OutputManagerCall.BindBeginForward
  let r := r.issue Cmd.ConstantShadingPass_BindFixedState
  r.issue Cmd.ConstantShadingPass_Render

def ExecuteForwardPipeline (r : Renderer) (_scene : Scene) (camera : Camera) : Renderer :=
  let viewport := camera.GetSSViewport
  let r := r.issue Cmd.LBufferPass_Render
  let r := r.issue (Cmd.BindViewport viewport)
  let r := r.callOutputManager OutputManagerCall.BindBeginForward
  let r := r.issue (Cmd.VariableShadingPass_BindFixedState camera.GetSettings.GetBRDF)
  let r := r.issue Cmd.VariableShadingPass_Render
  let r := r.issue Cmd.SkyPass_BindFixedState
  let r := r.issue Cmd.SkyPass_Render
  let r := r.issue (Cmd.VariableShadingPass_BindFixedState camera.GetSettings.GetBRDF)
  r.issue Cmd.VariableShadingPass_RenderTransparent

def ExecuteDeferredPipeline (r : Renderer) (_scene : Scene) (camera : Camera) : Renderer :=
  let viewport := camera.GetSSViewport
  let r := r.issue Cmd.LBufferPass_Render
  let r := r.issue (Cmd.BindViewport viewport)
  let r := r.callOutputManager OutputManagerCall.BindBeginGBuffer
  let r := r.issue Cmd.GBufferPass_BindFixedState
  let r := r.issue Cmd.GBufferPass_Render
  let r := r.callOutputManager OutputManagerCall.BindEndGBuffer
  let r := r.callOutputManager OutputManagerCall.BindBeginDeferred
  let r :=
    if r.display_configuration.UsesMSAA then
      let r := r.issue (Cmd.DeferredShadingPass_BindFixedState camera.GetSettings.GetBRDF false)
      r.issue Cmd.DeferredShadingPass_Render
    else
      let r := r.issue (Cmd.DeferredShadingPass_BindFixedState camera.GetSettings.GetBRDF true)
      r.issue (Cmd.DeferredShadingPass_Dispatch viewport)
  let r := r.callOutputManager OutputManagerCall.BindEndDeferred
  let r := r.callOutputManager OutputManagerCall.BindBeginForward
  let r := r.issue (Cmd.VariableShadingPass_BindFixedState camera.GetSettings.GetBRDF)
  let r := r.issue Cmd.VariableShadingPass_RenderEmissive
  let r := r.issue Cmd.SkyPass_BindFixedState
  let r := r.issue Cmd.SkyPass_Render
  let r := r.issue (Cmd.VariableShadingPass_BindFixedState camera.GetSettings.GetBRDF)
  r.issue Cmd.VariableShadingPass_RenderTransparent

def ExecuteAAPipeline (r : Renderer) (camera : Camera) : Renderer :=
  let desc := r.display_configuration.GetAADescriptor
  let viewport := camera.GetSSViewport
  match desc with
  | AADescriptor.FXAA =>
    let r := r.callOutputManager OutputManagerCall.BindBeginResolve
    let r := r.issue (Cmd.AAPass_DispatchAAPreprocess viewport AADescriptor.FXAA)
    let r := r.callOutputManager OutputManagerCall.BindEndResolve
    let r := r.callOutputManager OutputManagerCall.BindPingPong
    r.issue (Cmd.AAPass_DispatchAA viewport AADescriptor.FXAA)
  | AADescriptor.MSAA_2x
  | AADescriptor.MSAA_4x
  | AADescriptor.MSAA_8x
  | AADescriptor.SSAA_2x
  | AADescriptor.SSAA_3x
  | AADescriptor.SSAA_4x =>
    let r := r.callOutputManager OutputManagerCall.BindBeginResolve
    let r := r.issue (Cmd.AAPass_DispatchAA viewport desc)
    r.callOutputManager OutputManagerCall.BindEndResolve
  | AADescriptor.None => r

/-- The statement `switch (camera.GetSettings().GetRenderMode())` of the
per-camera action of `Renderer::Render`. -/
def Render_mode (r : Renderer) (scene : Scene) (camera : Camera) : Renderer :=
  match camera.GetSettings.GetRenderMode with
  | RenderMode.Forward => r.ExecuteForwardPipeline scene camera
  | RenderMode.Deferred => r.ExecuteDeferredPipeline scene camera
  | RenderMode.Solid => r.ExecuteSolidForwardPipeline scene camera
  | RenderMode.BaseColor
  | RenderMode.BaseColorCoefficient
  | RenderMode.BaseColorTexture
  | RenderMode.Material
  | RenderMode.MaterialCoefficient
  | RenderMode.MaterialTexture
  | RenderMode.NormalTexture =>
    let ss_viewport := camera.GetSSViewport
    let r := r.issue (Cmd.BindViewport ss_viewport)
    let r := r.callOutputManager OutputManagerCall.BindBeginForward
    let r := r.issue (Cmd.VariableComponentPass_BindFixedState camera.GetSettings.GetRenderMode)
    r.issue Cmd.VariableComponentPass_Render
  | RenderMode.UVTexture
  | RenderMode.Distance =>
    let ss_viewport := camera.GetSSViewport
    let r := r.issue (Cmd.BindViewport ss_viewport)
    let r := r.callOutputManager OutputManagerCall.BindBeginForward
    let r := r.issue (Cmd.ConstantComponentPass_BindFixedState camera.GetSettings.GetRenderMode)
    r.issue Cmd.ConstantComponentPass_Render
  | RenderMode.ShadingNormal
  | RenderMode.TSNMShadingNormal =>
    let ss_viewport := camera.GetSSViewport
    let r := r.issue (Cmd.BindViewport ss_viewport)
    let r := r.callOutputManager OutputManagerCall.BindBeginForward
    let r := r.issue (Cmd.ShadingNormalPass_BindFixedState camera.GetSettings.GetRenderMode)
    r.issue Cmd.ShadingNormalPass_Render
  | RenderMode.None =>
    let ss_viewport := camera.GetSSViewport
    let r := r.issue (Cmd.BindViewport ss_viewport)
    r.callOutputManager OutputManagerCall.BindBeginForward

/-- The two statements under `// RenderLayer` of the per-camera action. -/
def Render_layers (r : Renderer) (camera : Camera) : Renderer :=
  let r :=
    if camera.GetSettings.ContainsRenderLayer RenderLayer.Wireframe then
      let r := r.issue Cmd.WireframePass_BindFixedState
      r.issue Cmd.WireframePass_Render
    else r
  if camera.GetSettings.ContainsRenderLayer RenderLayer.AABB then
    let r := r.issue Cmd.BoundingVolumePass_BindFixedState
    r.issue Cmd.BoundingVolumePass_Render
  else r

/-- The statements of the per-camera action from `BindBeginPostProcessing` to
the back buffer pass. -/
def Render_postprocessing (r : Renderer) (camera : Camera) : Renderer :=
  let r := r.callOutputManager OutputManagerCall.BindBeginPostProcessing
  let viewport := camera.GetViewport
  let r := r.issue (Cmd.BindViewport viewport)
  let r :=
    if camera.GetLens.HasFiniteAperture then
      let r := r.callOutputManager OutputManagerCall.BindPingPong
      r.issue (Cmd.DOFPass_Dispatch viewport)
    else r
  let r := r.callOutputManager OutputManagerCall.BindEnd
  let r := r.issue Cmd.BackBufferPass_BindFixedState
  r.issue Cmd.BackBufferPass_Render

/-- The action `Renderer::Render` applies to each camera of the scene. -/
def Render_camera (scene : Scene) (r : Renderer) (camera : Camera) : Renderer :=
  if State.Active ≠ camera.GetState then r
  else
    let r := r.callOutputManager OutputManagerCall.BindBegin
    let r := r.issue (Cmd.BindCameraBuffer camera)
    let r := r.Render_mode scene camera
    let r := r.Render_layers camera
    let r := r.callOutputManager OutputManagerCall.BindEndForward
    let r := r.ExecuteAAPipeline camera
    r.Render_postprocessing camera

/-- The function `Renderer::Render`. -/
def Render (r : Renderer) (scene : Scene) : Renderer :=
  let r := scene.ForEach_Camera (Render_camera scene) r
  let r := r.issue (Cmd.BindViewport r.m_maximum_viewport)
  let r := r.issue Cmd.SpritePass_BindFixedState
  r.issue Cmd.SpritePass_Render

end Renderer

/-! ## RenderingManager: frame bracketing -/

/-- The failure of an `Assert`. -/
structure AssertionFailure where
  expression : String
  deriving DecidableEq, Repr

/-- Modelled from the spec: the macro `Assert`, which fails when its
expression is false. -/
def Assert (expression : Bool) (text : String) : Except AssertionFailure Unit :=
  if expression then Except.ok () else Except.error { expression := text }

/-- The members of `RenderingManager` that `BeginFrame` and `EndFrame` use,
and the sync intervals of the presentations made so far. -/
structure RenderingManager where
  m_in_begin_end_pair : Bool
  m_vsync : Bool
  m_device_context : DeviceContext
  m_back_buffer_rtv : Option View
  m_depth_buffer_dsv : Option View
  presented : List Nat

namespace RenderingManager

def BeginFrame (m : RenderingManager) : Except AssertionFailure RenderingManager :=
  match Assert (!m.m_in_begin_end_pair) "!m_in_begin_end_pair" with
  | Except.error e => Except.error e
  | Except.ok _ =>
    let ctx := Pipeline.OM.ClearRTV m.m_device_context m.m_back_buffer_rtv
    let ctx := Pipeline.OM.ClearDSV ctx m.m_depth_buffer_dsv
    Except.ok { m with m_device_context := ctx, m_in_begin_end_pair := true }

def EndFrame (m : RenderingManager) : Except AssertionFailure RenderingManager :=
  match Assert m.m_in_begin_end_pair "m_in_begin_end_pair" with
  | Except.error e => Except.error e
  | Except.ok _ =>
    let sync_interval : Nat := if m.m_vsync then 1 else 0
    Except.ok { m with presented := m.presented ++ [sync_interval],
                       m_in_begin_end_pair := false }

/-- The two frame-bracketing calls. -/
inductive FrameCall where
  | BeginFrame
  | EndFrame
  deriving DecidableEq, Repr

def FrameCall.run : FrameCall → RenderingManager → Except AssertionFailure RenderingManager
  | FrameCall.BeginFrame => RenderingManager.BeginFrame
  | FrameCall.EndFrame => RenderingManager.EndFrame

/-- A finite sequence of calls, stopping at the first failing assertion. -/
def runCalls : List FrameCall → RenderingManager → Except AssertionFailure RenderingManager
  | [], m => Except.ok m
  | c :: cs, m =>
    match c.run m with
    | Except.error e => Except.error e
    | Except.ok m => runCalls cs m

/-- The state the constructor leaves as far as bracketing goes: the flag is
false, the back buffer and depth buffer are bound (`BindRTVAndDSV`) and nothing
has been presented. -/
def fresh (vsync : Bool) (back_buffer_rtv depth_buffer_dsv : Option View) : RenderingManager :=
  { m_in_begin_end_pair := false, m_vsync := vsync,
    m_device_context :=
      Pipeline.OM.BindRTVAndDSV DeviceContext.empty back_buffer_rtv depth_buffer_dsv,
    m_back_buffer_rtv := back_buffer_rtv, m_depth_buffer_dsv := depth_buffer_dsv,
    presented := [] }

end RenderingManager

/-! ## GBuffer: packing and unpacking

`GetNumberOfRTVs()`, `GetNumberOfSRVs()` and `SLOT_SRV_GBUFFER_START` are
declared in `gbuffer.hpp` and `hlsl.hpp`, which are not among the sources at
hand.  The two numbers are the sizes of the arrays `m_rtvs` and `m_srvs`; the
slot number is a parameter. -/

/-- The member variables of `GBuffer`. -/
structure GBuffer where
  m_dsv : Option View
  m_rtvs : List (Option View)
  m_srvs : List (Option View)

namespace GBuffer

def GetNumberOfRTVs (g : GBuffer) : Nat := g.m_rtvs.length

def GetNumberOfSRVs (g : GBuffer) : Nat := g.m_srvs.length

/-- The loop `// Collect and clear the RTVs.` of `BindPacking` from index `i`
on: the views collected and the device context after the clears. -/
def collectAndClear (ctx : DeviceContext) : List (Option View) →
    List (Option View) × DeviceContext
  | [] => ([], ctx)
  | rtv :: rest =>
    let res := collectAndClear (Pipeline.OM.ClearRTV ctx rtv) rest
    (rtv :: res.1, res.2)

def BindPacking (SLOT_SRV_GBUFFER_START : Nat) (g : GBuffer) (device_context : DeviceContext) :
    DeviceContext :=
  let srvs : List (Option View) := List.replicate g.GetNumberOfSRVs none
  let ctx := Pipeline.PS.BindSRVs device_context SLOT_SRV_GBUFFER_START g.GetNumberOfSRVs srvs
  let ctx := Pipeline.CS.BindSRVs ctx SLOT_SRV_GBUFFER_START g.GetNumberOfSRVs srvs
  let res := collectAndClear ctx g.m_rtvs
  let rtvs := res.1
  let ctx := Pipeline.OM.ClearDSV res.2 g.m_dsv
  Pipeline.OM.BindRTVsAndDSV ctx g.GetNumberOfRTVs rtvs g.m_dsv

def BindUnpacking (SLOT_SRV_GBUFFER_START : Nat) (g : GBuffer)
    (device_context : DeviceContext) : DeviceContext :=
  let ctx := Pipeline.OM.BindRTVAndDSV device_context none none
  let srvs : List (Option View) := g.m_srvs
  let ctx := Pipeline.PS.BindSRVs ctx SLOT_SRV_GBUFFER_START g.GetNumberOfSRVs srvs
  Pipeline.CS.BindSRVs ctx SLOT_SRV_GBUFFER_START g.GetNumberOfSRVs srvs

/-- The two binding calls of `GBuffer`. -/
inductive BindCall where
  | BindPacking
  | BindUnpacking
  deriving DecidableEq, Repr

def BindCall.run (SLOT_SRV_GBUFFER_START : Nat) (g : GBuffer) :
    BindCall → DeviceContext → DeviceContext
  | BindCall.BindPacking => g.BindPacking SLOT_SRV_GBUFFER_START
  | BindCall.BindUnpacking => g.BindUnpacking SLOT_SRV_GBUFFER_START

/-- A finite sequence of binding calls, first call first. -/
def runCalls (SLOT_SRV_GBUFFER_START : Nat) (g : GBuffer) :
    List BindCall → DeviceContext → DeviceContext
  | [], ctx => ctx
  | c :: cs, ctx => runCalls SLOT_SRV_GBUFFER_START g cs (c.run SLOT_SRV_GBUFFER_START g ctx)

end GBuffer

/-! ## SceneRenderer

The alternate orchestrator of `scene_renderer.cpp`.  Its node, settings and
pass-buffer types are not among the sources at hand and are given as far as
`SceneRenderer::Render` uses them; its render modes are those its `switch`
names.  Only the commands are recorded, without pass-buffer and node
arguments. -/

namespace SceneRenderer

/-- The render modes `SceneRenderer::Render` switches on. -/
inductive RenderMode where
  | DepthAndForward
  | Forward
  | Deferred
  | DepthAndSolid
  | Solid
  | DiffuseColor
  | DiffuseReflectivity
  | DiffuseReflectivityTexture
  | SpecularColor
  | SpecularReflectivity
  | SpecularReflectivityTexture
  | NormalTexture
  | UVTexture
  | Distance
  | ShadingNormal
  | TSNMShadingNormal
  deriving DecidableEq, Repr

/-- The camera settings read by `SceneRenderer`. -/
structure CameraSettings where
  m_render_mode : RenderMode
  m_render_layers : List RenderLayer
  deriving DecidableEq, Repr

def CameraSettings.GetRenderMode (s : CameraSettings) : RenderMode := s.m_render_mode

def CameraSettings.HasRenderLayer (s : CameraSettings) (layer : RenderLayer) : Bool :=
  s.m_render_layers.contains layer

/-- A camera node of the pass buffer. -/
structure CameraNode where
  m_viewport : Viewport
  m_settings : CameraSettings
  deriving DecidableEq, Repr

def CameraNode.GetViewport (n : CameraNode) : Viewport := n.m_viewport

def CameraNode.GetSettings (n : CameraNode) : CameraSettings := n.m_settings

/-- The commands `SceneRenderer::Render` issues. -/
inductive Cmd where
  | PassBuffer_Update
  | BindViewport (viewport : Viewport)
  | OM_BindRTVAndDSV (rtv : Option View) (dsv : Option View)
  | Renderer_BindRTVAndDSV
  | DepthPass_Render
  | LBuffer_Update
  | LBuffer_BindToGraphicsPipeline
  | LBuffer_BindToComputePipeline
  | VariableShadingPass_Render
  | VariableShadingPass_RenderPostDeferred
  | GBuffer_BindPacking
  | GBuffer_BindUnpacking (slot : Nat)
  | GBuffer_BindRestore (slot : Nat)
  | GBufferPass_Render
  | DeferredShadingPass_Render
  | ConstantShadingPass_Render
  | VariableComponentPass_Render
  | ConstantComponentPass_Render
  | ShadingNormalPass_Render
  | WireframePass_Render
  | BoundingVolumePass_Render
  | SpritePass_Render
  deriving DecidableEq, Repr

end SceneRenderer

/-- The state `SceneRenderer::Render` works on: the maximum viewport
`m_viewport`, what it reads from `Renderer::Get()` (the depth buffer view and
whether MSAA is on), and the commands issued so far. -/
structure SceneRenderer where
  m_viewport : Viewport
  renderer_depth_buffer_dsv : Option View
  renderer_has_msaa : Bool
  issued : List SceneRenderer.Cmd

namespace SceneRenderer

def issue (r : SceneRenderer) (c : Cmd) : SceneRenderer :=
  { r with issued := r.issued ++ [c] }

/-- The body of `case RenderMode::Forward`, which `case
RenderMode::DepthAndForward` falls through to. -/
def Render_Forward (r : SceneRenderer) : SceneRenderer :=
  let r := r.issue Cmd.LBuffer_Update
  let r := r.issue Cmd.LBuffer_BindToGraphicsPipeline
  r.issue Cmd.VariableShadingPass_Render

/-- The body of `case RenderMode::Solid`, which `case
RenderMode::DepthAndSolid` falls through to. -/
def Render_Solid (r : SceneRenderer) : SceneRenderer :=
  let r := r.issue Cmd.LBuffer_Update
  let r := r.issue Cmd.LBuffer_BindToGraphicsPipeline
  r.issue Cmd.ConstantShadingPass_Render

/-- The statement `switch (settings->GetRenderMode())` of
`SceneRenderer::Render`. -/
def Render_mode (r : SceneRenderer) (mode : RenderMode) :
    Except AssertionFailure SceneRenderer :=
  match mode with
  | RenderMode.DepthAndForward =>
    let r := r.issue (Cmd.OM_BindRTVAndDSV none r.renderer_depth_buffer_dsv)
    let r := r.issue Cmd.DepthPass_Render
    let r := r.issue Cmd.Renderer_BindRTVAndDSV
    Except.ok r.Render_Forward
  | RenderMode.Forward => Except.ok r.Render_Forward
  | RenderMode.Deferred =>
    match Assert (!r.renderer_has_msaa) "!Renderer::Get()->HasMSAA()" with
    | Except.error e => Except.error e
    | Except.ok _ =>
      let r := r.issue Cmd.GBuffer_BindPacking
      let r := r.issue Cmd.GBufferPass_Render
      let r := r.issue (Cmd.GBuffer_BindUnpacking 3)
      let r := r.issue Cmd.LBuffer_Update
      let r := r.issue Cmd.LBuffer_BindToComputePipeline
      let r := r.issue Cmd.DeferredShadingPass_Render
      let r := r.issue (Cmd.GBuffer_BindRestore 3)
      let r := r.issue Cmd.LBuffer_BindToGraphicsPipeline
      Except.ok (r.issue Cmd.VariableShadingPass_RenderPostDeferred)
  | RenderMode.DepthAndSolid =>
    let r := r.issue (Cmd.OM_BindRTVAndDSV none r.renderer_depth_buffer_dsv)
    let r := r.issue Cmd.DepthPass_Render
    let r := r.issue Cmd.Renderer_BindRTVAndDSV
    Except.ok r.Render_Solid
  | RenderMode.Solid => Except.ok r.Render_Solid
  | RenderMode.DiffuseColor
  | RenderMode.DiffuseReflectivity
  | RenderMode.DiffuseReflectivityTexture
  | RenderMode.SpecularColor
  | RenderMode.SpecularReflectivity
  | RenderMode.SpecularReflectivityTexture
  | RenderMode.NormalTexture => Except.ok (r.issue Cmd.VariableComponentPass_Render)
  | RenderMode.UVTexture
  | RenderMode.Distance => Except.ok (r.issue Cmd.ConstantComponentPass_Render)
  | RenderMode.ShadingNormal
  | RenderMode.TSNMShadingNormal => Except.ok (r.issue Cmd.ShadingNormalPass_Render)

/-- The two statements under `// RenderLayer` of the loop body. -/
def Render_layers (r : SceneRenderer) (settings : CameraSettings) : SceneRenderer :=
  let r :=
    if settings.HasRenderLayer RenderLayer.Wireframe then r.issue Cmd.WireframePass_Render
    else r
  if settings.HasRenderLayer RenderLayer.AABB then r.issue Cmd.BoundingVolumePass_Render
  else r

/-- The body of the loop over the cameras of the pass buffer. -/
def Render_node (r : SceneRenderer) (node : CameraNode) :
    Except AssertionFailure SceneRenderer :=
  let r := r.issue (Cmd.BindViewport node.GetViewport)
  let settings := node.GetSettings
  match r.Render_mode settings.GetRenderMode with
  | Except.error e => Except.error e
  | Except.ok r => Except.ok (r.Render_layers settings)

/-- The loop over the cameras of the pass buffer. -/
def Render_nodes : List CameraNode → SceneRenderer → Except AssertionFailure SceneRenderer
  | [], r => Except.ok r
  | node :: nodes, r =>
    match r.Render_node node with
    | Except.error e => Except.error e
    | Except.ok r => Render_nodes nodes r

/-- The function `SceneRenderer::Render`; `cameras` are the camera nodes the
update of the pass buffer collects from the scene. -/
def Render (r : SceneRenderer) (cameras : List CameraNode) :
    Except AssertionFailure SceneRenderer :=
  let r := r.issue Cmd.PassBuffer_Update
  match Render_nodes cameras r with
  | Except.error e => Except.error e
  | Except.ok r =>
    let r := r.issue (Cmd.BindViewport r.m_viewport)
    Except.ok (r.issue Cmd.SpritePass_Render)

end SceneRenderer

/-! ## Closed forms of a successful setup

What `SetupBuffer`, `SetupDepthBuffer` and `SetupBuffers` return when every
device call succeeds, as a function of the state before the call.  They are
used to reason about a successful setup only. -/

namespace OutputManager

/-- The texture descriptor `SetupBuffer` hands to `CreateTexture2D`. -/
def SetupBuffer_desc (d : Device) (width height nb_samples : Nat) (format : DXGI_FORMAT)
    (rtv : Option RTVIndex) (uav : Option UAVIndex) : TextureDesc :=
  { Width := width, Height := height, MipLevels := 1, ArraySize := 1, Format := format,
    SampleDesc_Count := nb_samples,
    SampleDesc_Quality :=
      if 1 ≠ nb_samples then (d.quality_levels d.nb_calls - 1) % U32_MOD else 0,
    BIND_SHADER_RESOURCE := true,
    BIND_RENDER_TARGET := rtv.isSome,
    BIND_UNORDERED_ACCESS := uav.isSome,
    BIND_DEPTH_STENCIL := false }

/-- The manager `SetupBuffer` returns when all its device calls succeed. -/
def SetupBuffer_done (om : OutputManager) (width height nb_samples : Nat) (format : DXGI_FORMAT)
    (srv : SRVIndex) (rtv : Option RTVIndex) (uav : Option UAVIndex) : OutputManager :=
  let d := om.m_device
  let texture := d.textures.length
  let nb_check : Nat := if 1 ≠ nb_samples then 1 else 0
  let nb_rtv : Nat := if rtv.isSome then 1 else 0
  let nb_uav : Nat := if uav.isSome then 1 else 0
  { om with
    m_device :=
      { d with
        textures := d.textures ++ [SetupBuffer_desc d width height nb_samples format rtv uav],
        nb_views := d.nb_views + 1 + nb_rtv + nb_uav,
        nb_calls := d.nb_calls + nb_check + 2 + nb_rtv + nb_uav },
    m_srvs := fun i =>
      if i = srv then some { id := d.nb_views, texture := texture, kind := ViewKind.SRV }
      else om.m_srvs i,
    m_rtvs := fun i =>
      if some i = rtv then
        some { id := d.nb_views + 1, texture := texture, kind := ViewKind.RTV }
      else om.m_rtvs i,
    m_uavs := fun i =>
      if some i = uav then
        some { id := d.nb_views + 1 + nb_rtv, texture := texture, kind := ViewKind.UAV }
      else om.m_uavs i }

/-- The texture descriptor `SetupDepthBuffer` hands to `CreateTexture2D`. -/
def SetupDepthBuffer_desc (d : Device) (width height nb_samples : Nat) : TextureDesc :=
  { Width := width, Height := height, MipLevels := 1, ArraySize := 1,
    Format := DXGI_FORMAT.R32_TYPELESS,
    SampleDesc_Count := nb_samples,
    SampleDesc_Quality :=
      if 1 ≠ nb_samples then (d.quality_levels d.nb_calls - 1) % U32_MOD else 0,
    BIND_SHADER_RESOURCE := true,
    BIND_RENDER_TARGET := false,
    BIND_UNORDERED_ACCESS := false,
    BIND_DEPTH_STENCIL := true }

/-- The manager `SetupDepthBuffer` returns when all its device calls succeed. -/
def SetupDepthBuffer_done (om : OutputManager) (width height nb_samples : Nat) :
    OutputManager :=
  let d := om.m_device
  let texture := d.textures.length
  let nb_check : Nat := if 1 ≠ nb_samples then 1 else 0
  { om with
    m_device :=
      { d with
        textures := d.textures ++ [SetupDepthBuffer_desc d width height nb_samples],
        nb_views := d.nb_views + 2,
        nb_calls := d.nb_calls + nb_check + 3 },
    m_srvs := fun i =>
      if i = SRVIndex.GBuffer_Depth then
        some { id := d.nb_views, texture := texture, kind := ViewKind.SRV }
      else om.m_srvs i,
    m_dsv := some { id := d.nb_views + 1, texture := texture, kind := ViewKind.DSV } }

/-- The manager `SetupBuffers` returns when all its device calls succeed. -/
def SetupBuffers_done (om : OutputManager) : OutputManager :=
  let width := om.m_display_configuration.GetDisplayWidth
  let height := om.m_display_configuration.GetDisplayHeight
  let s := SetupBuffers_switch om.m_display_configuration.GetAADescriptor width height
    om.m_msaa om.m_ssaa
  let om := { om with m_msaa := s.m_msaa, m_ssaa := s.m_ssaa }
  let om := om.SetupDepthBuffer_done s.ss_width s.ss_height s.nb_samples
  let om := om.SetupBuffer_done s.ss_width s.ss_height s.nb_samples
    DXGI_FORMAT.R8G8B8A8_UNORM_SRGB
    SRVIndex.GBuffer_BaseColor (some RTVIndex.GBuffer_BaseColor) none
  let om := om.SetupBuffer_done s.ss_width s.ss_height s.nb_samples DXGI_FORMAT.R8G8B8A8_UNORM
    SRVIndex.GBuffer_Material (some RTVIndex.GBuffer_Material) none
  let om := om.SetupBuffer_done s.ss_width s.ss_height s.nb_samples DXGI_FORMAT.R11G11B10_FLOAT
    SRVIndex.GBuffer_Normal (some RTVIndex.GBuffer_Normal) none
  let om :=
    if om.m_msaa then
      om.SetupBuffer_done s.ss_width s.ss_height s.nb_samples DXGI_FORMAT.R16G16B16A16_FLOAT
        SRVIndex.HDR (some RTVIndex.HDR) none
    else
      om.SetupBuffer_done s.ss_width s.ss_height 1 DXGI_FORMAT.R16G16B16A16_FLOAT
        SRVIndex.HDR (some RTVIndex.HDR) (some UAVIndex.HDR)
  let om :=
    if s.aa then
      om.SetupBuffer_done width height 1 DXGI_FORMAT.R16G16B16A16_FLOAT
        SRVIndex.PostProcessing_HDR0 (some RTVIndex.PostProcessing_HDR0)
        (some UAVIndex.PostProcessing_HDR0)
    else
      ((om.setSRV SRVIndex.PostProcessing_HDR0 (om.m_srvs SRVIndex.HDR)).setRTV
        RTVIndex.PostProcessing_HDR0 (om.m_rtvs RTVIndex.HDR)).setUAV
        UAVIndex.PostProcessing_HDR0 (om.m_uavs UAVIndex.HDR)
  let om := om.SetupBuffer_done width height 1 DXGI_FORMAT.R16G16B16A16_FLOAT
    SRVIndex.PostProcessing_HDR1 (some RTVIndex.PostProcessing_HDR1)
    (some UAVIndex.PostProcessing_HDR1)
  if om.m_msaa || om.m_ssaa then
    (om.SetupBuffer_done width height 1 DXGI_FORMAT.R32_FLOAT
      SRVIndex.PostProcessing_Depth none (some UAVIndex.PostProcessing_Depth)).SetupBuffer_done
      width height 1 DXGI_FORMAT.R11G11B10_FLOAT
      SRVIndex.PostProcessing_Normal none (some UAVIndex.PostProcessing_Normal)
  else
    (om.setSRV SRVIndex.PostProcessing_Depth (om.m_srvs SRVIndex.GBuffer_Depth)).setSRV
      SRVIndex.PostProcessing_Normal (om.m_srvs SRVIndex.GBuffer_Normal)

end OutputManager

/-! ## Closed forms of the command sequences of Renderer -/

namespace Renderer

/-- The commands of the `switch` on the render mode. -/
def mode_cmds (uses_msaa : Bool) (camera : Camera) : List Cmd :=
  let ss := camera.GetSSViewport
  let brdf := camera.GetSettings.GetBRDF
  let mode := camera.GetSettings.GetRenderMode
  match mode with
  | RenderMode.Forward =>
    [Cmd.LBufferPass_Render, Cmd.BindViewport ss,
     Cmd.OutputManager OutputManagerCall.BindBeginForward,
     Cmd.VariableShadingPass_BindFixedState brdf, Cmd.VariableShadingPass_Render,
     Cmd.SkyPass_BindFixedState, Cmd.SkyPass_Render,
     Cmd.VariableShadingPass_BindFixedState brdf, Cmd.VariableShadingPass_RenderTransparent]
  | RenderMode.Deferred =>
    [Cmd.LBufferPass_Render, Cmd.BindViewport ss,
     Cmd.OutputManager OutputManagerCall.BindBeginGBuffer,
     Cmd.GBufferPass_BindFixedState, Cmd.GBufferPass_Render,
     Cmd.OutputManager OutputManagerCall.BindEndGBuffer,
     Cmd.OutputManager OutputManagerCall.BindBeginDeferred] ++
    (if uses_msaa then
      [Cmd.DeferredShadingPass_BindFixedState brdf false, Cmd.DeferredShadingPass_Render]
     else
      [Cmd.DeferredShadingPass_BindFixedState brdf true,
       Cmd.DeferredShadingPass_Dispatch ss]) ++
    [Cmd.OutputManager OutputManagerCall.BindEndDeferred,
     Cmd.OutputManager OutputManagerCall.BindBeginForward,
     Cmd.VariableShadingPass_BindFixedState brdf, Cmd.VariableShadingPass_RenderEmissive,
     Cmd.SkyPass_BindFixedState, Cmd.SkyPass_Render,
     Cmd.VariableShadingPass_BindFixedState brdf, Cmd.VariableShadingPass_RenderTransparent]
  | RenderMode.Solid =>
    [Cmd.LBufferPass_Render, Cmd.BindViewport ss,
     Cmd.OutputManager OutputManagerCall.BindBeginForward,
     Cmd.ConstantShadingPass_BindFixedState, Cmd.ConstantShadingPass_Render]
  | RenderMode.BaseColor
  | RenderMode.BaseColorCoefficient
  | RenderMode.BaseColorTexture
  | RenderMode.Material
  | RenderMode.MaterialCoefficient
  | RenderMode.MaterialTexture
  | RenderMode.NormalTexture =>
    [Cmd.BindViewport ss, Cmd.OutputManager OutputManagerCall.BindBeginForward,
     Cmd.VariableComponentPass_BindFixedState mode, Cmd.VariableComponentPass_Render]
  | RenderMode.UVTexture
  | RenderMode.Distance =>
    [Cmd.BindViewport ss, Cmd.OutputManager OutputManagerCall.BindBeginForward,
     Cmd.ConstantComponentPass_BindFixedState mode, Cmd.ConstantComponentPass_Render]
  | RenderMode.ShadingNormal
  | RenderMode.TSNMShadingNormal =>
    [Cmd.BindViewport ss, Cmd.OutputManager OutputManagerCall.BindBeginForward,
     Cmd.ShadingNormalPass_BindFixedState mode, Cmd.ShadingNormalPass_Render]
  | RenderMode.None =>
    [Cmd.BindViewport ss, Cmd.OutputManager OutputManagerCall.BindBeginForward]

/-- The commands of the render layers. -/
def layers_cmds (camera : Camera) : List Cmd :=
  (if camera.GetSettings.ContainsRenderLayer RenderLayer.Wireframe then
    [Cmd.WireframePass_BindFixedState, Cmd.WireframePass_Render] else []) ++
  (if camera.GetSettings.ContainsRenderLayer RenderLayer.AABB then
    [Cmd.BoundingVolumePass_BindFixedState, Cmd.BoundingVolumePass_Render] else [])

/-- The commands of `ExecuteAAPipeline`. -/
def aa_cmds (desc : AADescriptor) (camera : Camera) : List Cmd :=
  let ss := camera.GetSSViewport
  match desc with
  | AADescriptor.None => []
  | AADescriptor.FXAA =>
    [Cmd.OutputManager OutputManagerCall.BindBeginResolve,
     Cmd.AAPass_DispatchAAPreprocess ss AADescriptor.FXAA,
     Cmd.OutputManager OutputManagerCall.BindEndResolve,
     Cmd.OutputManager OutputManagerCall.BindPingPong,
     Cmd.AAPass_DispatchAA ss AADescriptor.FXAA]
  | _ =>
    [Cmd.OutputManager OutputManagerCall.BindBeginResolve,
     Cmd.AAPass_DispatchAA ss desc,
     Cmd.OutputManager OutputManagerCall.BindEndResolve]

/-- The commands from `BindBeginPostProcessing` to the back buffer pass. -/
def postprocessing_cmds (camera : Camera) : List Cmd :=
  [Cmd.OutputManager OutputManagerCall.BindBeginPostProcessing,
   Cmd.BindViewport camera.GetViewport] ++
  (if camera.GetLens.HasFiniteAperture then
    [Cmd.OutputManager OutputManagerCall.BindPingPong,
     Cmd.DOFPass_Dispatch camera.GetViewport] else []) ++
  [Cmd.OutputManager OutputManagerCall.BindEnd,
   Cmd.BackBufferPass_BindFixedState, Cmd.BackBufferPass_Render]

/-- The commands before `BindBeginPostProcessing` for an active camera. -/
def scene_cmds (uses_msaa : Bool) (desc : AADescriptor) (camera : Camera) : List Cmd :=
  [Cmd.OutputManager OutputManagerCall.BindBegin, Cmd.BindCameraBuffer camera] ++
  mode_cmds uses_msaa camera ++ layers_cmds camera ++
  [Cmd.OutputManager OutputManagerCall.BindEndForward] ++ aa_cmds desc camera

/-- The commands issued for one camera. -/
def camera_cmds (uses_msaa : Bool) (desc : AADescriptor) (camera : Camera) : List Cmd :=
  if State.Active ≠ camera.GetState then []
  else scene_cmds uses_msaa desc camera ++ postprocessing_cmds camera

end Renderer

/-- The command is a depth-of-field dispatch. -/
def Cmd.isDOFDispatch : Cmd → Bool
  | Cmd.DOFPass_Dispatch _ => true
  | _ => false

/-- The command is a deferred shading dispatch. -/
def Cmd.isDeferredDispatch : Cmd → Bool
  | Cmd.DeferredShadingPass_Dispatch _ => true
  | _ => false

/-- The command belongs to one of the two overlay passes (wireframe, bounding
volume). -/
def Cmd.isOverlay : Cmd → Bool
  | Cmd.WireframePass_BindFixedState => true
  | Cmd.WireframePass_Render => true
  | Cmd.BoundingVolumePass_BindFixedState => true
  | Cmd.BoundingVolumePass_Render => true
  | _ => false

/-- The command belongs to the sprite pass. -/
def Cmd.isSpritePass : Cmd → Bool
  | Cmd.SpritePass_BindFixedState => true
  | Cmd.SpritePass_Render => true
  | _ => false

/-! ## Vocabulary of the statements -/

/-- The super-sampling factor the spec attaches to an AA descriptor: `N` for
`SSAA_Nx`, no multiplier otherwise. -/
def AADescriptor.ssaa_factor : AADescriptor → Nat
  | AADescriptor.SSAA_2x => 2
  | AADescriptor.SSAA_3x => 3
  | AADescriptor.SSAA_4x => 4
  | _ => 1

/-- The sample count the spec attaches to an AA descriptor: `N` for `MSAA_Nx`,
one sample otherwise. -/
def AADescriptor.msaa_samples : AADescriptor → Nat
  | AADescriptor.MSAA_2x => 2
  | AADescriptor.MSAA_4x => 4
  | AADescriptor.MSAA_8x => 8
  | _ => 1

/-- The descriptor is one of `MSAA_2x`, `MSAA_4x`, `MSAA_8x`. -/
def AADescriptor.isMSAA : AADescriptor → Bool
  | AADescriptor.MSAA_2x => true
  | AADescriptor.MSAA_4x => true
  | AADescriptor.MSAA_8x => true
  | _ => false

/-- The descriptor is one of `SSAA_2x`, `SSAA_3x`, `SSAA_4x`. -/
def AADescriptor.isSSAA : AADescriptor → Bool
  | AADescriptor.SSAA_2x => true
  | AADescriptor.SSAA_3x => true
  | AADescriptor.SSAA_4x => true
  | _ => false

/-- Width, height and sample count of a texture. -/
def TextureDesc.extent (t : TextureDesc) : Nat × Nat × Nat :=
  (t.Width, t.Height, t.SampleDesc_Count)

/-- The textures the manager requested from the device during its setup: those
the device holds beyond the ones it held before. -/
def OutputManager.requested (device : Device) (om : OutputManager) : List TextureDesc :=
  om.m_device.textures.drop device.textures.length

/-- A display configuration of 1280 by 720 with the given AA descriptor. -/
def example_configuration (aa : AADescriptor) : DisplayConfiguration :=
  { m_display_width := 1280, m_display_height := 720, m_aa_desc := aa,
    m_uses_msaa := aa.isMSAA }

/-- A swap chain whose back buffer view is not one of the views of the
reliable device. -/
def example_swap_chain : SwapChain :=
  { m_rtv := some { id := 1000, texture := 1000, kind := ViewKind.RTV } }

/-- The manager set up on the reliable device for the example
configuration. -/
def example_manager (aa : AADescriptor) : OutputManager :=
  match OutputManager.create Device.reliable (example_configuration aa) example_swap_chain with
  | Except.ok om => om
  | Except.error _ =>
    OutputManager.initial Device.reliable (example_configuration aa) example_swap_chain

/-- A viewport for the examples. -/
def example_viewport : Viewport :=
  { m_top_left_x := 0, m_top_left_y := 0, m_width := 1280, m_height := 720 }

/-- A camera for the examples, with the given render mode and aperture
answer. -/
def example_camera (mode : RenderMode) (finite_aperture : Bool) : Camera :=
  { m_state := State.Active,
    m_settings := { m_render_mode := mode, m_brdf := { tag := 0 },
                    m_render_layers := [RenderLayer.Wireframe] },
    m_lens := { m_finite_aperture := finite_aperture },
    m_viewport := example_viewport,
    m_ss_viewport := example_viewport }

/-- Slot numbers for the examples. -/
def example_hlsl : HLSL :=
  { SLOT_SRV_BASE_COLOR := 4, SLOT_SRV_IMAGE := 8, SLOT_UAV_IMAGE := 0 }

/-- A renderer for the examples: nothing bound, nothing issued, the example
manager and configuration of the given AA descriptor. -/
def example_renderer (aa : AADescriptor) : Renderer :=
  { m_device_context := DeviceContext.empty,
    m_maximum_viewport := example_viewport,
    output_manager := example_manager aa,
    display_configuration := example_configuration aa,
    hlsl := example_hlsl,
    issued := [] }

/-- A display configuration whose width doubled does not fit in 32 bits. -/
def wide_configuration : DisplayConfiguration :=
  { m_display_width := 2147483648, m_display_height := 1,
    m_aa_desc := AADescriptor.SSAA_2x, m_uses_msaa := false }

/-- The manager set up on the reliable device for the wide configuration. -/
def wide_manager : OutputManager :=
  match OutputManager.create Device.reliable wide_configuration example_swap_chain with
  | Except.ok om => om
  | Except.error _ =>
    OutputManager.initial Device.reliable wide_configuration example_swap_chain

/-- The sequence of `n` calls that strictly alternates and starts with
`BeginFrame`: call number `i` (from 0) is `BeginFrame` iff `i` is even. -/
def RenderingManager.alternating (n : Nat) : List RenderingManager.FrameCall :=
  (List.range n).map
    (fun i => if i % 2 = 0 then RenderingManager.FrameCall.BeginFrame
              else RenderingManager.FrameCall.EndFrame)

/-- The only sequence of `n` calls that fails no assertion from a manager whose
flag is `flag`. -/
def RenderingManager.expected (flag : Bool) : Nat → List RenderingManager.FrameCall
  | 0 => []
  | n + 1 =>
    (if flag then RenderingManager.FrameCall.EndFrame
     else RenderingManager.FrameCall.BeginFrame) :: RenderingManager.expected (!flag) n

/-- The texture a view was created on, as the device of the manager holds
it. -/
def OutputManager.surface (om : OutputManager) (v : Option View) : Option TextureDesc :=
  match v with
  | some v => om.m_device.textures[v.texture]?
  | none => none

/-- A scene renderer for the examples, with nothing issued. -/
def example_scene_renderer : SceneRenderer :=
  { m_viewport := example_viewport,
    renderer_depth_buffer_dsv := some { id := 1001, texture := 1001, kind := ViewKind.DSV },
    renderer_has_msaa := false,
    issued := [] }

/-- A G-buffer for the examples: three colour surfaces and the depth
surface. -/
def example_gbuffer : GBuffer :=
  { m_dsv := some { id := 1, texture := 0, kind := ViewKind.DSV },
    m_rtvs := [some { id := 2, texture := 1, kind := ViewKind.RTV },
               some { id := 4, texture := 2, kind := ViewKind.RTV },
               some { id := 6, texture := 3, kind := ViewKind.RTV }],
    m_srvs := [some { id := 3, texture := 1, kind := ViewKind.SRV },
               some { id := 5, texture := 2, kind := ViewKind.SRV },
               some { id := 7, texture := 3, kind := ViewKind.SRV },
               some { id := 0, texture := 0, kind := ViewKind.SRV }] }

/-- The bindings `GBuffer` manages in a device context: the render targets, the
depth target, and the `GetNumberOfSRVs()` shader-input slots of the pixel stage
and of the compute stage from `SLOT_SRV_GBUFFER_START`. -/
def GBuffer.bindings (SLOT_SRV_GBUFFER_START : Nat) (g : GBuffer) (ctx : DeviceContext) :
    List (Option View) × Option View × List (Option View) × List (Option View) :=
  (ctx.om_rtvs, ctx.om_dsv,
   (List.range g.GetNumberOfSRVs).map (fun i => ctx.ps_srvs (SLOT_SRV_GBUFFER_START + i)),
   (List.range g.GetNumberOfSRVs).map (fun i => ctx.cs_srvs (SLOT_SRV_GBUFFER_START + i)))

/-! ## Feasibility of the device calls of a setup -/

namespace OutputManager

end OutputManager

/-! ## VSWriter

`VariableType`, `Variable`, the tokens `MAGE_VS_TOKEN_*` and the base class
`Writer` are declared in headers that are not among the sources at hand; they
are given here as far as `VSWriter::Write` uses them. -/

/-- A 32-bit float, kept as its bit pattern; no arithmetic is done on it. -/
structure F32 where
  bits : Nat
  deriving DecidableEq, Repr

/-- The value of a variable as the `static_cast` of the matching `case` reads
it: one constructor per enumerator of `VariableType`. -/
inductive VariableValue where
  | bool (value : Bool)
  | int (value : Int)
  | int2 (x y : Int)
  | int3 (x y z : Int)
  | float (value : F32)
  | float2 (x y : F32)
  | float3 (x y z : F32)
  | float4 (x y z w : F32)
  | color (x y z w : F32)
  | string (value : String)
  deriving DecidableEq, Repr

/-- A variable: its name and its typed value. -/
structure Variable where
  m_name : String
  m_value : VariableValue
  deriving DecidableEq, Repr

def Variable.GetName (var : Variable) : String := var.m_name

/-- An argument of `sprintf_s` after the format string. -/
inductive PrintfArg where
  | s (text : String)
  | d (value : Int)
  | f (value : F32)
  deriving DecidableEq, Repr

/-- The characters the C runtime writes for one argument: the string itself
for `%s`, the decimal digits for `%d`, and for `%f` the text `float_text`
gives, the rendering of a float being left to the runtime. -/
def PrintfArg.chars (float_text : F32 → String) : PrintfArg → List Char
  | PrintfArg.s text => text.data
  | PrintfArg.d value => (toString value).data
  | PrintfArg.f value => (float_text value).data

/-- The characters the C runtime writes for a format string: a conversion
(`%` and its letter) is replaced by the characters of the next argument, every
other character is copied. -/
def printf_chars (float_text : F32 → String) : List Char → List PrintfArg → List Char
  | [], _ => []
  | [c], _ => [c]
  | c :: d :: rest, [] => c :: printf_chars float_text (d :: rest) []
  | c :: d :: rest, arg :: args =>
    if c = '%' then arg.chars float_text ++ printf_chars float_text rest args
    else c :: printf_chars float_text (d :: rest) (arg :: args)

/-- A call of `sprintf_s` as `VSWriter::Write` makes it: the format string and
the arguments after it. -/
structure Line where
  format : String
  args : List PrintfArg
  deriving DecidableEq, Repr

/-- The text of the line. -/
def Line.text (float_text : F32 → String) (line : Line) : String :=
  String.mk (printf_chars float_text line.format.data line.args)

/-- The constant `MAX_PATH` of the Windows headers, the size of the array
`output`. -/
def MAX_PATH : Nat := 260

/-- The tokens of `vs_tokens.hpp`. -/
structure VSTokens where
  MAGE_VS_TOKEN_BOOL : String
  MAGE_VS_TOKEN_INT : String
  MAGE_VS_TOKEN_INT2 : String
  MAGE_VS_TOKEN_INT3 : String
  MAGE_VS_TOKEN_FLOAT : String
  MAGE_VS_TOKEN_FLOAT2 : String
  MAGE_VS_TOKEN_FLOAT3 : String
  MAGE_VS_TOKEN_FLOAT4 : String
  MAGE_VS_TOKEN_COLOR : String
  MAGE_VS_TOKEN_STRING : String

/-- The writer: its variable buffer and the lines written to the file so
far. -/
structure VSWriter where
  m_variable_buffer : List Variable
  written : List String
  deriving DecidableEq, Repr

/-- The invalid parameter handler of the C runtime was invoked, by a call of
`sprintf_s` whose text does not fit the buffer; `writer` is the writer at that
point. -/
structure InvalidParameter where
  writer : VSWriter
  deriving DecidableEq, Repr

namespace VSWriter

/-- Modelled from the spec: `Writer::WriteStringLine` of `writer.hpp`, which
appends one line to the file. -/
def WriteStringLine (writer : VSWriter) (output : String) : VSWriter :=
  { writer with written := writer.written ++ [output] }

/-- The `switch` of `VSWriter::Write` for one variable: the format string and
the arguments of the call of `sprintf_s` in the `case` of its type. -/
def format (tokens : VSTokens) (var : Variable) : Line :=
  let name := var.GetName
  match var.m_value with
  | VariableValue.bool value =>
    if value then
      { format := "%s %s true", args := [PrintfArg.s tokens.MAGE_VS_TOKEN_BOOL,
        PrintfArg.s name] }
    else
      { format := "%s %s false", args := [PrintfArg.s tokens.MAGE_VS_TOKEN_BOOL,
        PrintfArg.s name] }
  | VariableValue.int value =>
    { format := "%s %s %d", args := [PrintfArg.s tokens.MAGE_VS_TOKEN_INT,
      PrintfArg.s name, PrintfArg.d value] }
  | VariableValue.int2 x y =>
    { format := "%s %s %d %d", args := [PrintfArg.s tokens.MAGE_VS_TOKEN_INT2,
      PrintfArg.s name, PrintfArg.d x, PrintfArg.d y] }
  | VariableValue.int3 x y z =>
    { format := "%s %s %d %d %d", args := [PrintfArg.s tokens.MAGE_VS_TOKEN_INT3,
      PrintfArg.s name, PrintfArg.d x, PrintfArg.d y, PrintfArg.d z] }
  | VariableValue.float value =>
    { format := "%s %s %f", args := [PrintfArg.s tokens.MAGE_VS_TOKEN_FLOAT,
      PrintfArg.s name, PrintfArg.f value] }
  | VariableValue.float2 x y =>
    { format := "%s %s %f %f", args := [PrintfArg.s tokens.MAGE_VS_TOKEN_FLOAT2,
      PrintfArg.s name, PrintfArg.f x, PrintfArg.f y] }
  | VariableValue.float3 x y z =>
    { format := "%s %s %f %f %f", args := [PrintfArg.s tokens.MAGE_VS_TOKEN_FLOAT3,
      PrintfArg.s name, PrintfArg.f x, PrintfArg.f y, PrintfArg.f z] }
  | VariableValue.float4 x y z w =>
    { format := "%s %s %f %f %f %f", args := [PrintfArg.s tokens.MAGE_VS_TOKEN_FLOAT4,
      PrintfArg.s name, PrintfArg.f x, PrintfArg.f y, PrintfArg.f z, PrintfArg.f w] }
  | VariableValue.color x y z w =>
    { format := "%s %s %f %f %f %f", args := [PrintfArg.s tokens.MAGE_VS_TOKEN_COLOR,
      PrintfArg.s name, PrintfArg.f x, PrintfArg.f y, PrintfArg.f z, PrintfArg.f w] }
  | VariableValue.string value =>
    { format := "%s %s \"%s\"", args := [PrintfArg.s tokens.MAGE_VS_TOKEN_STRING,
      PrintfArg.s name, PrintfArg.s value] }

/-- The call `sprintf_s(output, output_count, ...)` of the C runtime: the text
is left in `output` when it fits there together with its terminating null
character; otherwise the runtime invokes the invalid parameter handler, which
is `none` here. -/
def sprintf_s (float_text : F32 → String) (output_count : Nat) (line : Line) :
    Option String :=
  if (line.text float_text).length + 1 ≤ output_count then some (line.text float_text)
  else none

/-- The loop of `VSWriter::Write` over the variables still to visit: the line
of the variable is formatted into `output`, an array of `MAX_PATH` characters,
and written; a line that does not fit ends the loop in the invalid parameter
handler. -/
def Write_loop (float_text : F32 → String) (tokens : VSTokens) :
    List Variable → VSWriter → Except InvalidParameter VSWriter
  | [], writer => Except.ok writer
  | var :: rest, writer =>
    match sprintf_s float_text MAX_PATH (format tokens var) with
    | some output => Write_loop float_text tokens rest (writer.WriteStringLine output)
    | none => Except.error { writer := writer }

/-- The function `VSWriter::Write`. -/
def Write (float_text : F32 → String) (tokens : VSTokens) (writer : VSWriter) :
    Except InvalidParameter VSWriter :=
  Write_loop float_text tokens writer.m_variable_buffer writer

end VSWriter

/-- The line of the variable fits the array `output`. -/
def Variable.fits (float_text : F32 → String) (tokens : VSTokens) (var : Variable) : Bool :=
  decide (((VSWriter.format tokens var).text float_text).length < MAX_PATH)

/-- An axis-aligned bounding box, an opaque value. -/
structure AABB where
  tag : Nat
  deriving DecidableEq, Repr

/-- A bounding sphere, an opaque value. -/
structure BS where
  tag : Nat
  deriving DecidableEq, Repr

/-- The shadow behaviour of a model, an opaque value. -/
structure ShadowBehavior where
  tag : Nat
  deriving DecidableEq, Repr

/-- Modelled from the spec: a material, a value copied by its copy
constructor `Material(const Material &)`. -/
structure Material where
  value : Nat
  deriving DecidableEq, Repr

/-- The free store as far as `Model` uses it: the materials allocated so far
(a material is named by its position) and the use counts of the shared
meshes. -/
structure Heap where
  materials : List Material
  mesh_use_count : Nat → Nat

/-- Modelled from the spec: `MakeUnique< Material >(material)` of
`allocation.hpp`, a fresh allocation holding a copy of the argument. -/
def Heap.MakeUnique_Material (heap : Heap) (material : Material) : Heap × Nat :=
  ({ heap with materials := heap.materials ++ [material] }, heap.materials.length)

/-- Modelled from the spec: the copy of a `SharedPtr`, which names the same
object and raises its use count. -/
def Heap.SharedPtr_copy (heap : Heap) (p : Nat) : Heap × Nat :=
  ({ heap with mesh_use_count :=
      fun q => if q = p then heap.mesh_use_count q + 1 else heap.mesh_use_count q }, p)

/-- Modelled from the spec: a write to the material at an address, as done
through the pointer `Model::GetMaterial()` returns. -/
def Heap.WriteMaterial (heap : Heap) (address : Nat) (material : Material) : Heap :=
  { heap with materials := heap.materials.set address material }

/-- The members of `Model`. -/
structure Model where
  m_mesh : Nat
  m_start_index : Nat
  m_nb_indices : Nat
  m_aabb : AABB
  m_bs : BS
  m_material : Nat
  m_shadow_behavior : ShadowBehavior
  deriving DecidableEq, Repr

/-- The copy constructor `Model::Model(const Model &)`; it has no result when
`*model.m_material` reads no material. -/
def Model.copy (heap : Heap) (model : Model) : Option (Heap × Model) :=
  let (heap, m_mesh) := heap.SharedPtr_copy model.m_mesh
  match heap.materials[model.m_material]? with
  | none => none
  | some material =>
    let (heap, m_material) := heap.MakeUnique_Material material
    some (heap,
      { m_mesh := m_mesh,
        m_start_index := model.m_start_index, m_nb_indices := model.m_nb_indices,
        m_aabb := model.m_aabb, m_bs := model.m_bs,
        m_material := m_material,
        m_shadow_behavior := model.m_shadow_behavior })

/-- A free store with two materials and a model owning the second. -/
def example_heap : Heap :=
  { materials := [{ value := 7 }, { value := 9 }], mesh_use_count := fun _ => 1 }

/-- A model of the example free store. -/
def example_model : Model :=
  { m_mesh := 3, m_start_index := 0, m_nb_indices := 36, m_aabb := { tag := 1 },
    m_bs := { tag := 2 }, m_material := 1, m_shadow_behavior := { tag := 0 } }

/-! ## Vocabulary of the statements on the calls of one camera -/

/-- The call on the output manager a command makes, if it is one. -/
def Cmd.outputManagerCall : Cmd → Option OutputManagerCall
  | Cmd.OutputManager call => some call
  | _ => none

/-- The four phases `OutputManager` opens with `BindBeginX` and closes with
`BindEndX`. -/
inductive Phase where
  | GBuffer
  | Deferred
  | Forward
  | Resolve
  deriving DecidableEq, Repr

/-- The phase a call opens. -/
def OutputManagerCall.opens : OutputManagerCall → Option Phase
  | OutputManagerCall.BindBeginGBuffer => some Phase.GBuffer
  | OutputManagerCall.BindBeginDeferred => some Phase.Deferred
  | OutputManagerCall.BindBeginForward => some Phase.Forward
  | OutputManagerCall.BindBeginResolve => some Phase.Resolve
  | _ => none

/-- The phase a call closes. -/
def OutputManagerCall.closes : OutputManagerCall → Option Phase
  | OutputManagerCall.BindEndGBuffer => some Phase.GBuffer
  | OutputManagerCall.BindEndDeferred => some Phase.Deferred
  | OutputManagerCall.BindEndForward => some Phase.Forward
  | OutputManagerCall.BindEndResolve => some Phase.Resolve
  | _ => none

/-- A sequence of calls is well bracketed from the phase `current` (none when
no phase is open): a `BindBeginX` comes only when no phase is open, a
`BindEndX` only when `X` is the open phase, every other call only when no phase
is open, and no phase is open at the end. -/
def OutputManagerCall.bracketed : Option Phase → List OutputManagerCall → Bool
  | current, [] => current.isNone
  | current, call :: calls =>
    match call.opens, call.closes with
    | some p, _ => current.isNone && OutputManagerCall.bracketed (some p) calls
    | none, some p => decide (current = some p) && OutputManagerCall.bracketed none calls
    | none, none => current.isNone && OutputManagerCall.bracketed none calls

/-- The command is a draw or a dispatch. -/
def Cmd.isDrawOrDispatch (c : Cmd) : Bool :=
  c.isDraw || c.isDispatch

/-- The command is `BindBegin` or `BindEnd`. -/
def Cmd.isBracket : Cmd → Bool
  | Cmd.OutputManager OutputManagerCall.BindBegin => true
  | Cmd.OutputManager OutputManagerCall.BindEnd => true
  | _ => false

/-! ## Replaying the commands of Renderer

The binding state in which a command of `Renderer` takes effect is determined
by the commands issued before it: an output manager call changes the manager
and the device context, every other command leaves both alone. -/

namespace Renderer

/-- The manager and the device context after one command. -/
def step (hlsl : HLSL) (s : OutputManager × DeviceContext) (c : Cmd) :
    OutputManager × DeviceContext :=
  match c.outputManagerCall with
  | some call => call.run hlsl s.1 s.2
  | none => s

/-- The manager and the device context after a sequence of commands. -/
def exec (hlsl : HLSL) (cs : List Cmd) (s : OutputManager × DeviceContext) :
    OutputManager × DeviceContext :=
  cs.foldl (step hlsl) s

/-- The events of a sequence of commands: each command with the binding state
in which it takes effect. -/
def replay (hlsl : HLSL) : List Cmd → OutputManager × DeviceContext → List Event
  | [], _ => []
  | c :: cs, s => { cmd := c, ctx := (step hlsl s c).2 } :: replay hlsl cs (step hlsl s c)

/-- The renderer `r2` is what `r1` becomes by issuing the commands `cs`. -/
structure Runs (r1 r2 : Renderer) (cs : List Cmd) : Prop where
  issued_eq :
    r2.issued = r1.issued ++ replay r1.hlsl cs (r1.output_manager, r1.m_device_context)
  state_eq :
    (r2.output_manager, r2.m_device_context)
      = exec r1.hlsl cs (r1.output_manager, r1.m_device_context)
  hlsl_eq : r2.hlsl = r1.hlsl
  display_configuration_eq : r2.display_configuration = r1.display_configuration

end Renderer

/-- The views bound as shader read inputs in the slots the output manager
manages: the four G-buffer slots and the image slot of the pixel stage and of
the compute stage. -/
def DeviceContext.reads (hlsl : HLSL) (ctx : DeviceContext) : List (Option View) :=
  [ctx.ps_srvs hlsl.SLOT_SRV_BASE_COLOR, ctx.ps_srvs hlsl.SLOT_SRV_MATERIAL,
   ctx.ps_srvs hlsl.SLOT_SRV_NORMAL, ctx.ps_srvs hlsl.SLOT_SRV_DEPTH,
   ctx.ps_srvs hlsl.SLOT_SRV_IMAGE,
   ctx.cs_srvs hlsl.SLOT_SRV_BASE_COLOR, ctx.cs_srvs hlsl.SLOT_SRV_MATERIAL,
   ctx.cs_srvs hlsl.SLOT_SRV_NORMAL, ctx.cs_srvs hlsl.SLOT_SRV_DEPTH,
   ctx.cs_srvs hlsl.SLOT_SRV_IMAGE]

/-- The views bound in the three compute read-write slots the output manager
manages. -/
def DeviceContext.unordered (hlsl : HLSL) (ctx : DeviceContext) : List (Option View) :=
  [ctx.cs_uavs hlsl.SLOT_UAV_IMAGE, ctx.cs_uavs hlsl.SLOT_UAV_NORMAL,
   ctx.cs_uavs hlsl.SLOT_UAV_DEPTH]

/-- The views bound as write targets: the render targets, the depth target and
the three compute read-write slots. -/
def DeviceContext.writes (hlsl : HLSL) (ctx : DeviceContext) : List (Option View) :=
  ctx.om_rtvs ++ [ctx.om_dsv] ++ ctx.unordered hlsl

/-- The textures of the views of a list that are not null. -/
def textures_of (views : List (Option View)) : List Nat :=
  views.filterMap (fun v => v.map View.texture)

/-- No texture is bound both as a write target and as a shader read input in
the managed slots. -/
def DeviceContext.hazard_free (hlsl : HLSL) (ctx : DeviceContext) : Bool :=
  (textures_of (ctx.writes hlsl)).all (fun t => !(textures_of (ctx.reads hlsl)).contains t)

/-- No view is bound in the three managed compute read-write slots. -/
def DeviceContext.unordered_idle (hlsl : HLSL) (ctx : DeviceContext) : Prop :=
  ctx.unordered hlsl = [none, none, none]

/-- No view is bound in the managed read slots nor in the managed compute
read-write slots. -/
def DeviceContext.quiet (hlsl : HLSL) (ctx : DeviceContext) : Prop :=
  ctx.reads hlsl = [none, none, none, none, none, none, none, none, none, none] ∧
  ctx.unordered hlsl = [none, none, none]

/-- The command leaves the managed read slots and compute read-write slots
alone: every command but the output manager calls that bind them. -/
def Cmd.keeps_slots : Cmd → Bool
  | Cmd.OutputManager OutputManagerCall.BindBeginGBuffer => true
  | Cmd.OutputManager OutputManagerCall.BindEndGBuffer => true
  | Cmd.OutputManager OutputManagerCall.BindBeginForward => true
  | Cmd.OutputManager OutputManagerCall.BindEndForward => true
  | Cmd.OutputManager _ => false
  | _ => true

/-- The command is a resolve, anti-aliasing or depth-of-field dispatch. -/
def Cmd.isPostProcessingDispatch : Cmd → Bool
  | Cmd.AAPass_DispatchAAPreprocess _ _ => true
  | Cmd.AAPass_DispatchAA _ _ => true
  | Cmd.DOFPass_Dispatch _ => true
  | _ => false

/-- The command is `BindBegin` or `BindPingPong`, the two calls that write the
ping-pong flag. -/
def Cmd.writes_flag : Cmd → Bool
  | Cmd.OutputManager OutputManagerCall.BindBegin => true
  | Cmd.OutputManager OutputManagerCall.BindPingPong => true
  | _ => false

/-- The command is the draw of the back buffer pass. -/
def Cmd.isBackBufferRender : Cmd → Bool
  | Cmd.BackBufferPass_Render => true
  | _ => false

/-- The event is a draw or a dispatch before the back buffer pass. -/
def Event.isChecked (e : Event) : Bool :=
  e.cmd.isDrawOrDispatch && !e.cmd.isBackBufferRender

/-- The textures of the read views of the manager, in the order `HDR`, G-buffer
base colour, material, normal, depth, `PostProcessing_HDR0`,
`PostProcessing_HDR1`, `PostProcessing_Normal`, `PostProcessing_Depth`. -/
def OutputManager.read_textures (om : OutputManager) : List (Option Nat) :=
  [SRVIndex.HDR, SRVIndex.GBuffer_BaseColor, SRVIndex.GBuffer_Material,
   SRVIndex.GBuffer_Normal, SRVIndex.GBuffer_Depth, SRVIndex.PostProcessing_HDR0,
   SRVIndex.PostProcessing_HDR1, SRVIndex.PostProcessing_Normal,
   SRVIndex.PostProcessing_Depth].map (fun i => (om.GetSRV i).map View.texture)

/-- The textures of the write views of the manager: the write views of `HDR`
and of G-buffer base colour, material and normal, the depth view, and the
compute-write views of `HDR`, `PostProcessing_HDR0`, `PostProcessing_HDR1`,
`PostProcessing_Normal` and `PostProcessing_Depth`. -/
def OutputManager.write_textures (om : OutputManager) : List (Option Nat) :=
  [RTVIndex.HDR, RTVIndex.GBuffer_BaseColor, RTVIndex.GBuffer_Material,
   RTVIndex.GBuffer_Normal].map (fun i => (om.GetRTV i).map View.texture) ++
  [om.m_dsv.map View.texture] ++
  [UAVIndex.HDR, UAVIndex.PostProcessing_HDR0, UAVIndex.PostProcessing_HDR1,
   UAVIndex.PostProcessing_Normal, UAVIndex.PostProcessing_Depth].map
    (fun i => (om.GetUAV i).map View.texture)

/-- The event passes the hazard check: at a draw or dispatch before the back
buffer pass no texture is bound both as a write target and as a read input in
the managed slots, and at the draw of the back buffer pass the only write
target bound is the back buffer. -/
def Event.safe (hlsl : HLSL) (back_buffer : Option View) (e : Event) : Bool :=
  (!e.isChecked || e.ctx.hazard_free hlsl) &&
  (!e.cmd.isBackBufferRender ||
    decide (e.ctx.writes hlsl = [back_buffer, none, none, none, none]))

/-- The command leaves the managed slots alone and is not the draw of the back
buffer pass. -/
def Cmd.isPlain (c : Cmd) : Bool :=
  c.keeps_slots && !c.isBackBufferRender

/-! # Theorems -/

/-! ## Inversion of a successful setup -/

namespace OutputManager

theorem ite_twice {α : Type} (c : Prop) [Decidable c] (a b d : α) :
    (if c then a else if c then b else d) = if c then a else d := by
  split <;> simp [*]

theorem sampleQuality_ok {d d2 : Device} {desc desc2 : TextureDesc} {nb_samples : Nat}
    (h : sampleQuality d desc nb_samples = Except.ok (d2, desc2)) :
    d2 = { d with nb_calls := d.nb_calls + (if 1 ≠ nb_samples then 1 else 0) } ∧
    desc2 = { desc with SampleDesc_Quality :=
      if 1 ≠ nb_samples then (d.quality_levels d.nb_calls - 1) % U32_MOD
      else desc.SampleDesc_Quality } := by
  unfold sampleQuality at h
  by_cases hn : 1 = nb_samples
  · simp [hn] at h
    simp [hn, h.1.symm, h.2.symm]
  · cases hs : d.succeeds d.nb_calls
    · simp [hn, hs, Device.CheckMultisampleQualityLevels, ThrowIfFailed] at h
    · cases hq : (0 != d.quality_levels d.nb_calls)
      · simp [hn, hs, hq, Device.CheckMultisampleQualityLevels, ThrowIfFailed] at h
      · simp [hn, hs, hq, Device.CheckMultisampleQualityLevels, ThrowIfFailed] at h
        simp [hn, h.1.symm, h.2.symm]

theorem SetupBuffer_rtv_ok {om om2 : OutputManager} {texture : Nat} {rtv : Option RTVIndex}
    (h : SetupBuffer_rtv om texture rtv = Except.ok om2) :
    om2 = { om with
      m_device := { om.m_device with
        nb_views := om.m_device.nb_views + (if rtv.isSome then 1 else 0),
        nb_calls := om.m_device.nb_calls + (if rtv.isSome then 1 else 0) },
      m_rtvs := fun i =>
        if some i = rtv then
          some { id := om.m_device.nb_views, texture := texture, kind := ViewKind.RTV }
        else om.m_rtvs i } := by
  cases rtv with
  | none =>
    simp [SetupBuffer_rtv] at h
    simp [← h]
  | some r =>
    simp only [SetupBuffer_rtv, Device.CreateView, ThrowIfFailed] at h
    cases hs : om.m_device.succeeds om.m_device.nb_calls
    · simp [hs] at h
    · simp [hs, setRTV] at h
      simp [← h]

theorem SetupBuffer_uav_ok {om om2 : OutputManager} {texture : Nat} {uav : Option UAVIndex}
    (h : SetupBuffer_uav om texture uav = Except.ok om2) :
    om2 = { om with
      m_device := { om.m_device with
        nb_views := om.m_device.nb_views + (if uav.isSome then 1 else 0),
        nb_calls := om.m_device.nb_calls + (if uav.isSome then 1 else 0) },
      m_uavs := fun i =>
        if some i = uav then
          some { id := om.m_device.nb_views, texture := texture, kind := ViewKind.UAV }
        else om.m_uavs i } := by
  cases uav with
  | none =>
    simp [SetupBuffer_uav] at h
    simp [← h]
  | some r =>
    simp only [SetupBuffer_uav, Device.CreateView, ThrowIfFailed] at h
    cases hs : om.m_device.succeeds om.m_device.nb_calls
    · simp [hs] at h
    · simp [hs, setUAV] at h
      simp [← h]

theorem releaseSlots_device (om : OutputManager) (srv : SRVIndex) (rtv : Option RTVIndex)
    (uav : Option UAVIndex) : (om.releaseSlots srv rtv uav).m_device = om.m_device := by
  cases rtv <;> cases uav <;> rfl

theorem SetupBuffer_ok {om om2 : OutputManager} {width height nb_samples : Nat}
    {format : DXGI_FORMAT} {srv : SRVIndex} {rtv : Option RTVIndex} {uav : Option UAVIndex}
    (h : om.SetupBuffer width height nb_samples format srv rtv uav = Except.ok om2) :
    om2 = om.SetupBuffer_done width height nb_samples format srv rtv uav := by
  unfold SetupBuffer at h
  simp only [releaseSlots_device] at h
  split at h
  · simp at h
  · rename_i d1 desc1 hq
    obtain ⟨hd1, hdesc1⟩ := sampleQuality_ok hq
    cases hs1 : d1.succeeds d1.nb_calls
    · simp [Device.CreateTexture2D, hs1, ThrowIfFailed] at h
    · cases hs2 : d1.succeeds (d1.nb_calls + 1)
      · simp [Device.CreateTexture2D, Device.CreateView, hs1, hs2, ThrowIfFailed] at h
      · simp only [Device.CreateTexture2D, Device.CreateView, hs1, hs2, ThrowIfFailed,
          if_true] at h
        split at h
        · simp at h
        · rename_i om3 hr
          have h3 := SetupBuffer_rtv_ok hr
          have h4 := SetupBuffer_uav_ok h
          clear hr h hq hs1 hs2
          subst h4 h3 hd1 hdesc1
          cases rtv <;> cases uav <;>
            simp [SetupBuffer_done, SetupBuffer_desc, releaseSlots, setSRV, setRTV, setUAV,
              Nat.add_assoc, ite_twice]

theorem SetupDepthBuffer_ok {om om2 : OutputManager} {width height nb_samples : Nat}
    (h : om.SetupDepthBuffer width height nb_samples = Except.ok om2) :
    om2 = om.SetupDepthBuffer_done width height nb_samples := by
  unfold SetupDepthBuffer at h
  simp only at h
  split at h
  · simp at h
  · rename_i d1 desc1 hq
    obtain ⟨hd1, hdesc1⟩ := sampleQuality_ok hq
    cases hs1 : d1.succeeds d1.nb_calls
    · simp [Device.CreateTexture2D, hs1, ThrowIfFailed] at h
    · cases hs2 : d1.succeeds (d1.nb_calls + 1)
      · simp [Device.CreateTexture2D, Device.CreateView, hs1, hs2, ThrowIfFailed] at h
      · cases hs3 : d1.succeeds (d1.nb_calls + 1 + 1)
        · simp [Device.CreateTexture2D, Device.CreateView, hs1, hs2, hs3, ThrowIfFailed,
            setSRV] at h
        · simp [Device.CreateTexture2D, Device.CreateView, hs1, hs2, hs3, ThrowIfFailed,
            setSRV] at h
          clear hq hs1 hs2 hs3
          subst h hd1 hdesc1
          simp [SetupDepthBuffer_done, SetupDepthBuffer_desc, Nat.add_assoc, ite_twice]

theorem SetupBuffers_ok {om om2 : OutputManager} (h : om.SetupBuffers = Except.ok om2) :
    om2 = om.SetupBuffers_done := by
  unfold SetupBuffers at h
  simp only at h
  split at h
  · simp at h
  rename_i om_a ha
  split at h
  · simp at h
  rename_i om_b hb
  split at h
  · simp at h
  rename_i om_c hc
  split at h
  · simp at h
  rename_i om_d hd
  split at h
  · simp at h
  rename_i om_e he
  split at h
  · simp at h
  rename_i om_f hf
  split at h
  · simp at h
  rename_i om_g hg
  have ha2 := SetupDepthBuffer_ok ha
  have hb2 := SetupBuffer_ok hb
  have hc2 := SetupBuffer_ok hc
  have hd2 := SetupBuffer_ok hd
  have hg2 := SetupBuffer_ok hg
  have he2 : om_e =
      if om_d.m_msaa then
        om_d.SetupBuffer_done (SetupBuffers_switch om.m_display_configuration.GetAADescriptor
          om.m_display_configuration.GetDisplayWidth
          om.m_display_configuration.GetDisplayHeight om.m_msaa om.m_ssaa).ss_width
          (SetupBuffers_switch om.m_display_configuration.GetAADescriptor
          om.m_display_configuration.GetDisplayWidth
          om.m_display_configuration.GetDisplayHeight om.m_msaa om.m_ssaa).ss_height
          (SetupBuffers_switch om.m_display_configuration.GetAADescriptor
          om.m_display_configuration.GetDisplayWidth
          om.m_display_configuration.GetDisplayHeight om.m_msaa om.m_ssaa).nb_samples DXGI_FORMAT.R16G16B16A16_FLOAT
          SRVIndex.HDR (some RTVIndex.HDR) none
      else
        om_d.SetupBuffer_done (SetupBuffers_switch om.m_display_configuration.GetAADescriptor
          om.m_display_configuration.GetDisplayWidth
          om.m_display_configuration.GetDisplayHeight om.m_msaa om.m_ssaa).ss_width
          (SetupBuffers_switch om.m_display_configuration.GetAADescriptor
          om.m_display_configuration.GetDisplayWidth
          om.m_display_configuration.GetDisplayHeight om.m_msaa om.m_ssaa).ss_height 1 DXGI_FORMAT.R16G16B16A16_FLOAT
          SRVIndex.HDR (some RTVIndex.HDR) (some UAVIndex.HDR) := by
    unfold SetupBuffers_hdr at he
    split at he
    · rename_i hm
      rw [if_pos hm]
      exact SetupBuffer_ok he
    · rename_i hm
      rw [if_neg hm]
      exact SetupBuffer_ok he
  have hf2 : om_f =
      if (SetupBuffers_switch om.m_display_configuration.GetAADescriptor
          om.m_display_configuration.GetDisplayWidth
          om.m_display_configuration.GetDisplayHeight om.m_msaa om.m_ssaa).aa then
        om_e.SetupBuffer_done om.m_display_configuration.GetDisplayWidth
          om.m_display_configuration.GetDisplayHeight 1 DXGI_FORMAT.R16G16B16A16_FLOAT
          SRVIndex.PostProcessing_HDR0 (some RTVIndex.PostProcessing_HDR0)
          (some UAVIndex.PostProcessing_HDR0)
      else
        ((om_e.setSRV SRVIndex.PostProcessing_HDR0 (om_e.m_srvs SRVIndex.HDR)).setRTV
          RTVIndex.PostProcessing_HDR0 (om_e.m_rtvs RTVIndex.HDR)).setUAV
          UAVIndex.PostProcessing_HDR0 (om_e.m_uavs UAVIndex.HDR) := by
    unfold SetupBuffers_hdr0 at hf
    split at hf
    · rename_i hm
      rw [if_pos hm]
      exact SetupBuffer_ok hf
    · rename_i hm
      rw [if_neg hm]
      simp only [Except.ok.injEq] at hf
      exact hf.symm
  have hh2 : om2 =
      if om_g.m_msaa || om_g.m_ssaa then
        (om_g.SetupBuffer_done om.m_display_configuration.GetDisplayWidth
          om.m_display_configuration.GetDisplayHeight 1 DXGI_FORMAT.R32_FLOAT
          SRVIndex.PostProcessing_Depth none
          (some UAVIndex.PostProcessing_Depth)).SetupBuffer_done
          om.m_display_configuration.GetDisplayWidth
          om.m_display_configuration.GetDisplayHeight 1 DXGI_FORMAT.R11G11B10_FLOAT
          SRVIndex.PostProcessing_Normal none (some UAVIndex.PostProcessing_Normal)
      else
        (om_g.setSRV SRVIndex.PostProcessing_Depth (om_g.m_srvs SRVIndex.GBuffer_Depth)).setSRV
          SRVIndex.PostProcessing_Normal (om_g.m_srvs SRVIndex.GBuffer_Normal) := by
    unfold SetupBuffers_postprocessing at h
    split at h
    · rename_i hm
      rw [if_pos hm]
      split at h
      · simp at h
      · rename_i om_h hh
        rw [SetupBuffer_ok h, SetupBuffer_ok hh]
    · rename_i hm
      rw [if_neg hm]
      simp only [Except.ok.injEq] at h
      exact h.symm
  rw [hh2, hg2, hf2, he2, hd2, hc2, hb2, ha2]
  rfl

/-! ### Projections of the closed forms -/

theorem SetupBuffer_done_srvs (om : OutputManager) (width height nb_samples : Nat)
    (format : DXGI_FORMAT) (srv : SRVIndex) (rtv : Option RTVIndex) (uav : Option UAVIndex)
    (i : SRVIndex) :
    (om.SetupBuffer_done width height nb_samples format srv rtv uav).m_srvs i =
      if i = srv then
        some { id := om.m_device.nb_views, texture := om.m_device.textures.length,
               kind := ViewKind.SRV }
      else om.m_srvs i := rfl

theorem SetupBuffer_done_rtvs (om : OutputManager) (width height nb_samples : Nat)
    (format : DXGI_FORMAT) (srv : SRVIndex) (rtv : Option RTVIndex) (uav : Option UAVIndex)
    (i : RTVIndex) :
    (om.SetupBuffer_done width height nb_samples format srv rtv uav).m_rtvs i =
      if some i = rtv then
        some { id := om.m_device.nb_views + 1, texture := om.m_device.textures.length,
               kind := ViewKind.RTV }
      else om.m_rtvs i := rfl

theorem SetupBuffer_done_uavs (om : OutputManager) (width height nb_samples : Nat)
    (format : DXGI_FORMAT) (srv : SRVIndex) (rtv : Option RTVIndex) (uav : Option UAVIndex)
    (i : UAVIndex) :
    (om.SetupBuffer_done width height nb_samples format srv rtv uav).m_uavs i =
      if some i = uav then
        some { id := om.m_device.nb_views + 1 + (if rtv.isSome then 1 else 0),
               texture := om.m_device.textures.length, kind := ViewKind.UAV }
      else om.m_uavs i := rfl

theorem SetupBuffer_done_textures (om : OutputManager) (width height nb_samples : Nat)
    (format : DXGI_FORMAT) (srv : SRVIndex) (rtv : Option RTVIndex) (uav : Option UAVIndex) :
    (om.SetupBuffer_done width height nb_samples format srv rtv uav).m_device.textures =
      om.m_device.textures ++
        [SetupBuffer_desc om.m_device width height nb_samples format rtv uav] := rfl

theorem SetupBuffer_done_nb_views (om : OutputManager) (width height nb_samples : Nat)
    (format : DXGI_FORMAT) (srv : SRVIndex) (rtv : Option RTVIndex) (uav : Option UAVIndex) :
    (om.SetupBuffer_done width height nb_samples format srv rtv uav).m_device.nb_views =
      om.m_device.nb_views + 1 + (if rtv.isSome then 1 else 0)
        + (if uav.isSome then 1 else 0) := rfl

theorem SetupBuffer_done_msaa (om : OutputManager) (width height nb_samples : Nat)
    (format : DXGI_FORMAT) (srv : SRVIndex) (rtv : Option RTVIndex) (uav : Option UAVIndex) :
    (om.SetupBuffer_done width height nb_samples format srv rtv uav).m_msaa = om.m_msaa := rfl

theorem SetupBuffer_done_ssaa (om : OutputManager) (width height nb_samples : Nat)
    (format : DXGI_FORMAT) (srv : SRVIndex) (rtv : Option RTVIndex) (uav : Option UAVIndex) :
    (om.SetupBuffer_done width height nb_samples format srv rtv uav).m_ssaa = om.m_ssaa := rfl

theorem SetupBuffer_done_dsv (om : OutputManager) (width height nb_samples : Nat)
    (format : DXGI_FORMAT) (srv : SRVIndex) (rtv : Option RTVIndex) (uav : Option UAVIndex) :
    (om.SetupBuffer_done width height nb_samples format srv rtv uav).m_dsv = om.m_dsv := rfl

theorem SetupBuffer_done_swap_chain (om : OutputManager) (width height nb_samples : Nat)
    (format : DXGI_FORMAT) (srv : SRVIndex) (rtv : Option RTVIndex) (uav : Option UAVIndex) :
    (om.SetupBuffer_done width height nb_samples format srv rtv uav).m_swap_chain
      = om.m_swap_chain := rfl

theorem SetupBuffer_desc_extent (d : Device) (width height nb_samples : Nat)
    (format : DXGI_FORMAT) (rtv : Option RTVIndex) (uav : Option UAVIndex) :
    (SetupBuffer_desc d width height nb_samples format rtv uav).extent
      = (width, height, nb_samples) := rfl

theorem SetupBuffer_desc_depth_stencil (d : Device) (width height nb_samples : Nat)
    (format : DXGI_FORMAT) (rtv : Option RTVIndex) (uav : Option UAVIndex) :
    (SetupBuffer_desc d width height nb_samples format rtv uav).BIND_DEPTH_STENCIL
      = false := rfl

theorem SetupDepthBuffer_done_srvs (om : OutputManager) (width height nb_samples : Nat)
    (i : SRVIndex) :
    (om.SetupDepthBuffer_done width height nb_samples).m_srvs i =
      if i = SRVIndex.GBuffer_Depth then
        some { id := om.m_device.nb_views, texture := om.m_device.textures.length,
               kind := ViewKind.SRV }
      else om.m_srvs i := rfl

theorem SetupDepthBuffer_done_rtvs (om : OutputManager) (width height nb_samples : Nat) :
    (om.SetupDepthBuffer_done width height nb_samples).m_rtvs = om.m_rtvs := rfl

theorem SetupDepthBuffer_done_uavs (om : OutputManager) (width height nb_samples : Nat) :
    (om.SetupDepthBuffer_done width height nb_samples).m_uavs = om.m_uavs := rfl

theorem SetupDepthBuffer_done_dsv (om : OutputManager) (width height nb_samples : Nat) :
    (om.SetupDepthBuffer_done width height nb_samples).m_dsv =
      some { id := om.m_device.nb_views + 1, texture := om.m_device.textures.length,
             kind := ViewKind.DSV } := rfl

theorem SetupDepthBuffer_done_textures (om : OutputManager) (width height nb_samples : Nat) :
    (om.SetupDepthBuffer_done width height nb_samples).m_device.textures =
      om.m_device.textures ++ [SetupDepthBuffer_desc om.m_device width height nb_samples] :=
  rfl

theorem SetupDepthBuffer_done_nb_views (om : OutputManager) (width height nb_samples : Nat) :
    (om.SetupDepthBuffer_done width height nb_samples).m_device.nb_views =
      om.m_device.nb_views + 2 := rfl

theorem SetupDepthBuffer_done_msaa (om : OutputManager) (width height nb_samples : Nat) :
    (om.SetupDepthBuffer_done width height nb_samples).m_msaa = om.m_msaa := rfl

theorem SetupDepthBuffer_done_ssaa (om : OutputManager) (width height nb_samples : Nat) :
    (om.SetupDepthBuffer_done width height nb_samples).m_ssaa = om.m_ssaa := rfl

theorem SetupDepthBuffer_done_swap_chain (om : OutputManager) (width height nb_samples : Nat) :
    (om.SetupDepthBuffer_done width height nb_samples).m_swap_chain = om.m_swap_chain := rfl

theorem SetupDepthBuffer_desc_extent (d : Device) (width height nb_samples : Nat) :
    (SetupDepthBuffer_desc d width height nb_samples).extent
      = (width, height, nb_samples) := rfl

theorem SetupDepthBuffer_desc_depth_stencil (d : Device) (width height nb_samples : Nat) :
    (SetupDepthBuffer_desc d width height nb_samples).BIND_DEPTH_STENCIL = true := rfl

theorem create_ok {device : Device} {display_configuration : DisplayConfiguration}
    {swap_chain : SwapChain} {om : OutputManager}
    (h : create device display_configuration swap_chain = Except.ok om) :
    om = (initial device display_configuration swap_chain).SetupBuffers_done :=
  SetupBuffers_ok h

end OutputManager

/-! ## Ping-pong of the post-processing HDR surfaces -/

namespace OutputManager

theorem bindSlots_self (slots : Nat → Option View) (slot : Nat) (v : Option View) :
    bindSlots slots slot 1 [v] slot = v := by
  simp [bindSlots]

theorem BindPingPong_tables (hlsl : HLSL) (om : OutputManager) (ctx : DeviceContext) :
    (BindPingPong hlsl om ctx).1 = { om with m_hdr0_to_hdr1 := !om.m_hdr0_to_hdr1 } := by
  simp [BindPingPong]

theorem BindPingPong_times_manager (hlsl : HLSL) (n : Nat) (s : OutputManager × DeviceContext) :
    (BindPingPong_times hlsl n s).1 =
      { s.1 with m_hdr0_to_hdr1 := if n % 2 = 0 then s.1.m_hdr0_to_hdr1
                                    else !s.1.m_hdr0_to_hdr1 } := by
  induction n with
  | zero => simp [BindPingPong_times]
  | succ n ih =>
    simp only [BindPingPong_times, BindPingPong_tables, ih]
    rcases Nat.mod_two_eq_zero_or_one n with h | h
    · have h2 : (n + 1) % 2 = 1 := by omega
      simp [h, h2]
    · have h2 : (n + 1) % 2 = 0 := by omega
      simp [h, h2]

theorem BindPingPong_srv (hlsl : HLSL) (om : OutputManager) (ctx : DeviceContext) :
    (BindPingPong hlsl om ctx).2.cs_srvs hlsl.SLOT_SRV_IMAGE =
      if om.m_hdr0_to_hdr1 then om.GetSRV SRVIndex.PostProcessing_HDR0
      else om.GetSRV SRVIndex.PostProcessing_HDR1 := by
  cases h : om.m_hdr0_to_hdr1 <;>
    simp [BindPingPong, h, Pipeline.CS.BindSRV, Pipeline.CS.BindSRVs, Pipeline.CS.BindUAV,
      Pipeline.CS.BindUAVs, bindSlots]

theorem BindPingPong_uav (hlsl : HLSL) (om : OutputManager) (ctx : DeviceContext) :
    (BindPingPong hlsl om ctx).2.cs_uavs hlsl.SLOT_UAV_IMAGE =
      if om.m_hdr0_to_hdr1 then om.GetUAV UAVIndex.PostProcessing_HDR1
      else om.GetUAV UAVIndex.PostProcessing_HDR0 := by
  cases h : om.m_hdr0_to_hdr1 <;>
    simp [BindPingPong, h, Pipeline.CS.BindSRV, Pipeline.CS.BindSRVs, Pipeline.CS.BindUAV,
      Pipeline.CS.BindUAVs, bindSlots]

theorem BindBegin_manager (hlsl : HLSL) (om : OutputManager) (ctx : DeviceContext) :
    (BindBegin hlsl om ctx).1 = { om with m_hdr0_to_hdr1 := true } := by
  simp [BindBegin]

/-- C1: starting from the state left by `BindBegin`, after `N` calls of
`BindPingPong` the flag says "HDR0 is source" iff `N` is even; and call number
`k + 1` leaves `PostProcessing_HDR0` bound as compute read input and
`PostProcessing_HDR1` as compute read-write target when `k + 1` is odd, and the
two swapped when `k + 1` is even. -/
theorem BindPingPong_strictly_alternates (hlsl : HLSL) (om : OutputManager)
    (ctx : DeviceContext) :
    (∀ N : Nat,
      ((BindPingPong_times hlsl N (BindBegin hlsl om ctx)).1.m_hdr0_to_hdr1 = true
        ↔ N % 2 = 0)) ∧
    (∀ k : Nat,
      (BindPingPong_times hlsl (k + 1) (BindBegin hlsl om ctx)).2.cs_srvs hlsl.SLOT_SRV_IMAGE
        = (if (k + 1) % 2 = 1 then om.GetSRV SRVIndex.PostProcessing_HDR0
           else om.GetSRV SRVIndex.PostProcessing_HDR1) ∧
      (BindPingPong_times hlsl (k + 1) (BindBegin hlsl om ctx)).2.cs_uavs hlsl.SLOT_UAV_IMAGE
        = (if (k + 1) % 2 = 1 then om.GetUAV UAVIndex.PostProcessing_HDR1
           else om.GetUAV UAVIndex.PostProcessing_HDR0)) := by
  constructor
  · intro N
    rw [BindPingPong_times_manager, BindBegin_manager]
    by_cases h : N % 2 = 0 <;> simp [h]
  · intro k
    have hstep : BindPingPong_times hlsl (k + 1) (BindBegin hlsl om ctx) =
        BindPingPong hlsl (BindPingPong_times hlsl k (BindBegin hlsl om ctx)).1
          (BindPingPong_times hlsl k (BindBegin hlsl om ctx)).2 := rfl
    rw [hstep, BindPingPong_srv, BindPingPong_uav, BindPingPong_times_manager,
      BindBegin_manager]
    rcases Nat.mod_two_eq_zero_or_one k with h | h
    · have h2 : (k + 1) % 2 = 1 := by omega
      simp [h, h2, GetSRV, GetUAV]
    · have h2 : (k + 1) % 2 = 0 := by omega
      simp [h, h2, GetSRV, GetUAV]

/-- C3: `BindBegin` leaves the ping-pong flag at "HDR0 is source" whatever the
flag was before, in particular after any number of `BindPingPong` calls. -/
theorem BindBegin_resets_flag (hlsl : HLSL) (om : OutputManager) (ctx : DeviceContext) :
    (BindBegin hlsl om ctx).1.m_hdr0_to_hdr1 = true ∧
    (∀ n : Nat,
      (BindBegin hlsl (BindPingPong_times hlsl n (om, ctx)).1
        (BindPingPong_times hlsl n (om, ctx)).2).1.m_hdr0_to_hdr1 = true) := by
  constructor
  · simp [BindBegin]
  · intro n
    simp [BindBegin]

end OutputManager

/-! ## Surfaces of a successful setup -/

namespace OutputManager

/-- C2: whatever value the ping-pong flag of the manager had before (the
manager of a successful setup, used or not), after `BindBegin` and `N` calls of
`BindPingPong`, `BindEnd` binds to the pixel-shader image slot the read view
of `PostProcessing_HDR0` for even
`N` and of `PostProcessing_HDR1` for odd `N`; for `N ≥ 1` that is the surface
whose compute-write view call `N` of `BindPingPong` left bound, the read view
and that compute-write view being views of one allocation; `BindEnd` binds the
back buffer alone as render target, no depth target, and unbinds the compute
image write target; and the surface chosen depends on the flag only. -/
theorem BindEnd_composites_last_written (hlsl : HLSL) (device : Device)
    (display_configuration : DisplayConfiguration) (swap_chain : SwapChain)
    (om : OutputManager) (flag : Bool) (ctx : DeviceContext) (N : Nat)
    (h : create device display_configuration swap_chain = Except.ok om) :
    ((BindEnd hlsl (BindPingPong_times hlsl N
          (BindBegin hlsl { om with m_hdr0_to_hdr1 := flag } ctx)).1
        (BindPingPong_times hlsl N
          (BindBegin hlsl { om with m_hdr0_to_hdr1 := flag } ctx)).2).2.ps_srvs hlsl.SLOT_SRV_IMAGE
      = om.GetSRV (if N % 2 = 0 then SRVIndex.PostProcessing_HDR0
                   else SRVIndex.PostProcessing_HDR1)) ∧
    (N ≠ 0 →
      (BindPingPong_times hlsl N
          (BindBegin hlsl { om with m_hdr0_to_hdr1 := flag } ctx)).2.cs_uavs hlsl.SLOT_UAV_IMAGE
        = om.GetUAV (if N % 2 = 0 then UAVIndex.PostProcessing_HDR0
                     else UAVIndex.PostProcessing_HDR1)) ∧
    (∃ srv uav : View,
      om.GetSRV (if N % 2 = 0 then SRVIndex.PostProcessing_HDR0
                 else SRVIndex.PostProcessing_HDR1) = some srv ∧
      om.GetUAV (if N % 2 = 0 then UAVIndex.PostProcessing_HDR0
                 else UAVIndex.PostProcessing_HDR1) = some uav ∧
      srv.texture = uav.texture) ∧
    ((BindEnd hlsl (BindPingPong_times hlsl N
          (BindBegin hlsl { om with m_hdr0_to_hdr1 := flag } ctx)).1
        (BindPingPong_times hlsl N
          (BindBegin hlsl { om with m_hdr0_to_hdr1 := flag } ctx)).2).2.om_rtvs
      = [swap_chain.GetRTV]) ∧
    ((BindEnd hlsl (BindPingPong_times hlsl N
          (BindBegin hlsl { om with m_hdr0_to_hdr1 := flag } ctx)).1
        (BindPingPong_times hlsl N
          (BindBegin hlsl { om with m_hdr0_to_hdr1 := flag } ctx)).2).2.om_dsv = none) ∧
    ((BindEnd hlsl (BindPingPong_times hlsl N
          (BindBegin hlsl { om with m_hdr0_to_hdr1 := flag } ctx)).1
        (BindPingPong_times hlsl N
          (BindBegin hlsl { om with m_hdr0_to_hdr1 := flag } ctx)).2).2.cs_uavs hlsl.SLOT_UAV_IMAGE
      = none) ∧
    (∀ (om1 : OutputManager) (ctx1 : DeviceContext),
      (BindEnd hlsl om1 ctx1).2.ps_srvs hlsl.SLOT_SRV_IMAGE
        = if om1.m_hdr0_to_hdr1 then om1.GetSRV SRVIndex.PostProcessing_HDR0
          else om1.GetSRV SRVIndex.PostProcessing_HDR1) := by
  have hflag : ∀ (om1 : OutputManager) (ctx1 : DeviceContext),
      (BindEnd hlsl om1 ctx1).2.ps_srvs hlsl.SLOT_SRV_IMAGE
        = if om1.m_hdr0_to_hdr1 then om1.GetSRV SRVIndex.PostProcessing_HDR0
          else om1.GetSRV SRVIndex.PostProcessing_HDR1 := by
    intro om1 ctx1
    cases hb : om1.m_hdr0_to_hdr1 <;>
      simp [BindEnd, hb, Pipeline.PS.BindSRV, Pipeline.PS.BindSRVs, bindSlots]
  have hrest : ∀ (om1 : OutputManager) (ctx1 : DeviceContext),
      (BindEnd hlsl om1 ctx1).2.om_rtvs = [om1.m_swap_chain.GetRTV] ∧
      (BindEnd hlsl om1 ctx1).2.om_dsv = none ∧
      (BindEnd hlsl om1 ctx1).2.cs_uavs hlsl.SLOT_UAV_IMAGE = none := by
    intro om1 ctx1
    cases hb : om1.m_hdr0_to_hdr1 <;>
      simp [BindEnd, hb, Pipeline.PS.BindSRV, Pipeline.PS.BindSRVs, Pipeline.CS.BindUAV,
        Pipeline.CS.BindUAVs, Pipeline.OM.BindRTVAndDSV, Pipeline.OM.BindRTVsAndDSV, bindSlots]
  have hom := BindPingPong_times_manager hlsl N
    (BindBegin hlsl { om with m_hdr0_to_hdr1 := flag } ctx)
  rw [BindBegin_manager] at hom
  have hsc : om.m_swap_chain = swap_chain := by
    rw [create_ok h]
    rcases display_configuration with ⟨w, ht, aa, um⟩
    cases aa <;> rfl
  refine ⟨?_, ?_, ?_, ?_, ?_, ?_, hflag⟩
  · rw [hflag, hom]
    by_cases hN : N % 2 = 0 <;> simp [hN, GetSRV]
  · intro hN0
    obtain ⟨k, rfl⟩ := Nat.exists_eq_succ_of_ne_zero hN0
    have hstep : BindPingPong_times hlsl (k + 1)
        (BindBegin hlsl { om with m_hdr0_to_hdr1 := flag } ctx) =
        BindPingPong hlsl (BindPingPong_times hlsl k
            (BindBegin hlsl { om with m_hdr0_to_hdr1 := flag } ctx)).1
          (BindPingPong_times hlsl k
            (BindBegin hlsl { om with m_hdr0_to_hdr1 := flag } ctx)).2 := rfl
    rw [hstep, BindPingPong_uav, BindPingPong_times_manager, BindBegin_manager]
    rcases Nat.mod_two_eq_zero_or_one k with h2 | h2
    · have h3 : (k + 1) % 2 = 1 := by omega
      simp [h2, h3, GetUAV]
    · have h3 : (k + 1) % 2 = 0 := by omega
      simp [h2, h3, GetUAV]
  · rw [create_ok h]
    rcases display_configuration with ⟨w, ht, aa, um⟩
    by_cases hN : N % 2 = 0 <;> cases aa <;>
      simp [hN, GetSRV, GetUAV, SetupBuffers_done, SetupBuffers_switch, initial, setSRV,
        setRTV, setUAV, DisplayConfiguration.GetAADescriptor, SetupBuffer_done_srvs,
        SetupBuffer_done_uavs, SetupBuffer_done_textures, SetupBuffer_done_nb_views,
        SetupBuffer_done_msaa, SetupBuffer_done_ssaa, SetupDepthBuffer_done_srvs,
        SetupDepthBuffer_done_uavs, SetupDepthBuffer_done_textures,
        SetupDepthBuffer_done_nb_views, SetupDepthBuffer_done_msaa,
        SetupDepthBuffer_done_ssaa]
  · rw [(hrest _ _).1, hom, hsc]
  · exact (hrest _ _).2.1
  · exact (hrest _ _).2.2

theorem BindEnd_composites_last_written_witness :
    create Device.reliable (example_configuration AADescriptor.FXAA) example_swap_chain
      = Except.ok (example_manager AADescriptor.FXAA) ∧
    (BindEnd example_hlsl
        (BindPingPong_times example_hlsl 0
          (BindBegin example_hlsl
            { example_manager AADescriptor.FXAA with m_hdr0_to_hdr1 := false }
            DeviceContext.empty)).1
        (BindPingPong_times example_hlsl 0
          (BindBegin example_hlsl
            { example_manager AADescriptor.FXAA with m_hdr0_to_hdr1 := false }
            DeviceContext.empty)).2
      ).2.ps_srvs example_hlsl.SLOT_SRV_IMAGE
      = (example_manager AADescriptor.FXAA).GetSRV SRVIndex.PostProcessing_HDR0 :=
  ⟨rfl, (BindEnd_composites_last_written example_hlsl Device.reliable
    (example_configuration AADescriptor.FXAA) example_swap_chain
    (example_manager AADescriptor.FXAA) false DeviceContext.empty 0 rfl).1⟩

/-- C4 as the code has it: a successful setup requests first the depth surface
and then the three G-buffer colour surfaces (base colour, material, normal),
these four being the textures the G-buffer views and the depth view are
created on and the depth surface the only one with the depth-stencil flag;
all four have the same extent: width and height are the display width and
height times the SSAA factor reduced modulo `2 ^ 32` (the product itself when
it fits in 32 bits), with 1 sample, for `SSAA_Nx`; the display width and
height with `N` samples for `MSAA_Nx`; the display width and height with 1
sample for `None` and `FXAA`. -/
theorem SetupBuffers_gbuffer_extents (device : Device)
    (display_configuration : DisplayConfiguration) (swap_chain : SwapChain)
    (om : OutputManager)
    (hw : display_configuration.m_display_width < U32_MOD)
    (hh : display_configuration.m_display_height < U32_MOD)
    (h : create device display_configuration swap_chain = Except.ok om) :
    ((om.requested device).map TextureDesc.extent).take 4
      = List.replicate 4
          ((display_configuration.m_aa_desc.ssaa_factor
              * display_configuration.m_display_width) % U32_MOD,
           (display_configuration.m_aa_desc.ssaa_factor
              * display_configuration.m_display_height) % U32_MOD,
           display_configuration.m_aa_desc.msaa_samples) ∧
    ((om.requested device).filter (fun t => t.BIND_DEPTH_STENCIL)).length = 1 ∧
    (om.m_dsv.map View.texture = some device.textures.length ∧
      (om.GetSRV SRVIndex.GBuffer_Depth).map View.texture = some device.textures.length) ∧
    ((om.GetRTV RTVIndex.GBuffer_BaseColor).map View.texture
        = some (device.textures.length + 1) ∧
      (om.GetSRV SRVIndex.GBuffer_BaseColor).map View.texture
        = some (device.textures.length + 1)) ∧
    ((om.GetRTV RTVIndex.GBuffer_Material).map View.texture
        = some (device.textures.length + 2) ∧
      (om.GetSRV SRVIndex.GBuffer_Material).map View.texture
        = some (device.textures.length + 2)) ∧
    ((om.GetRTV RTVIndex.GBuffer_Normal).map View.texture
        = some (device.textures.length + 3) ∧
      (om.GetSRV SRVIndex.GBuffer_Normal).map View.texture
        = some (device.textures.length + 3)) ∧
    (display_configuration.m_aa_desc.ssaa_factor * display_configuration.m_display_width
        < U32_MOD →
      (display_configuration.m_aa_desc.ssaa_factor * display_configuration.m_display_width)
        % U32_MOD
      = display_configuration.m_aa_desc.ssaa_factor * display_configuration.m_display_width) ∧
    (display_configuration.m_aa_desc.ssaa_factor * display_configuration.m_display_height
        < U32_MOD →
      (display_configuration.m_aa_desc.ssaa_factor * display_configuration.m_display_height)
        % U32_MOD
      = display_configuration.m_aa_desc.ssaa_factor * display_configuration.m_display_height) := by
  rw [create_ok h]
  rcases display_configuration with ⟨w, ht, aa, um⟩
  simp only at hw hh
  have hw1 : w % U32_MOD = w := Nat.mod_eq_of_lt hw
  have hh1 : ht % U32_MOD = ht := Nat.mod_eq_of_lt hh
  refine ⟨?_, ?_, ?_, ?_, ?_, ?_, fun hlt => Nat.mod_eq_of_lt hlt,
    fun hlt => Nat.mod_eq_of_lt hlt⟩
  all_goals
    cases aa <;>
      simp [requested, GetSRV, GetRTV, SetupBuffers_done, SetupBuffers_switch, initial, setSRV,
        setRTV, setUAV, DisplayConfiguration.GetAADescriptor,
        DisplayConfiguration.GetDisplayWidth, DisplayConfiguration.GetDisplayHeight,
        SetupBuffer_done_srvs, SetupBuffer_done_rtvs,
        SetupBuffer_done_uavs, SetupBuffer_done_textures, SetupBuffer_done_nb_views,
        SetupBuffer_done_msaa, SetupBuffer_done_ssaa, SetupBuffer_done_dsv,
        SetupDepthBuffer_done_srvs, SetupDepthBuffer_done_rtvs, SetupDepthBuffer_done_dsv,
        SetupDepthBuffer_done_uavs, SetupDepthBuffer_done_textures,
        SetupDepthBuffer_done_nb_views, SetupDepthBuffer_done_msaa,
        SetupDepthBuffer_done_ssaa, SetupBuffer_desc_extent, SetupDepthBuffer_desc_extent,
        SetupBuffer_desc_depth_stencil, SetupDepthBuffer_desc_depth_stencil,
        AADescriptor.ssaa_factor, AADescriptor.msaa_samples, hw1, hh1, Nat.mul_comm]

theorem SetupBuffers_gbuffer_extents_witness :
    ((example_configuration AADescriptor.SSAA_2x).m_display_width < U32_MOD ∧
      (example_configuration AADescriptor.SSAA_2x).m_display_height < U32_MOD ∧
      create Device.reliable (example_configuration AADescriptor.SSAA_2x) example_swap_chain
        = Except.ok (example_manager AADescriptor.SSAA_2x)) ∧
    (((example_manager AADescriptor.SSAA_2x).requested Device.reliable).map
        TextureDesc.extent).take 4
      = List.replicate 4 (2560, 1440, 1) :=
  ⟨⟨by decide, by decide, rfl⟩,
    (SetupBuffers_gbuffer_extents Device.reliable (example_configuration AADescriptor.SSAA_2x)
      example_swap_chain (example_manager AADescriptor.SSAA_2x) (by decide) (by decide)
      rfl).1⟩

/-- C4, counterexample: for `SSAA_2x` and a display width of `2 ^ 31` the setup
succeeds and the depth and G-buffer surfaces are requested with width 0, not
with twice the display width. -/
theorem SetupBuffers_SSAA_extent_wraps :
    create Device.reliable wide_configuration example_swap_chain = Except.ok wide_manager ∧
    ((wide_manager.requested Device.reliable).map TextureDesc.extent).take 4
      = List.replicate 4 (0, 2, 1) ∧
    ((wide_manager.requested Device.reliable).map TextureDesc.extent).take 4
      ≠ List.replicate 4
          (AADescriptor.SSAA_2x.ssaa_factor * wide_configuration.m_display_width,
           AADescriptor.SSAA_2x.ssaa_factor * wide_configuration.m_display_height,
           1) :=
  ⟨rfl, by decide, by decide⟩

/-- C5: after a successful setup with AA `None` the read view, write view and
compute-write view stored for `PostProcessing_HDR0` are the very views stored
for `HDR`, none of them null, and the six textures requested are those of the
depth buffer, the three G-buffer channels, `HDR` and `PostProcessing_HDR1`, so
none is allocated for `PostProcessing_HDR0`; with any other AA descriptor the
three views of `PostProcessing_HDR0` are views of an allocation of its own,
requested after that of `HDR`, and differ from the views of `HDR`. -/
theorem PostProcessing_HDR0_aliases_HDR (device : Device)
    (display_configuration : DisplayConfiguration) (swap_chain : SwapChain)
    (om : OutputManager)
    (h : create device display_configuration swap_chain = Except.ok om) :
    (display_configuration.m_aa_desc = AADescriptor.None →
      om.GetSRV SRVIndex.PostProcessing_HDR0 = om.GetSRV SRVIndex.HDR ∧
      om.GetRTV RTVIndex.PostProcessing_HDR0 = om.GetRTV RTVIndex.HDR ∧
      om.GetUAV UAVIndex.PostProcessing_HDR0 = om.GetUAV UAVIndex.HDR ∧
      (om.GetSRV SRVIndex.HDR).isSome = true ∧
      (om.GetRTV RTVIndex.HDR).isSome = true ∧
      (om.GetUAV UAVIndex.HDR).isSome = true ∧
      (om.requested device).length = 6 ∧
      (om.GetSRV SRVIndex.GBuffer_Depth).map View.texture = some device.textures.length ∧
      (om.GetSRV SRVIndex.GBuffer_BaseColor).map View.texture
        = some (device.textures.length + 1) ∧
      (om.GetSRV SRVIndex.GBuffer_Material).map View.texture
        = some (device.textures.length + 2) ∧
      (om.GetSRV SRVIndex.GBuffer_Normal).map View.texture
        = some (device.textures.length + 3) ∧
      (om.GetSRV SRVIndex.HDR).map View.texture = some (device.textures.length + 4) ∧
      (om.GetSRV SRVIndex.PostProcessing_HDR1).map View.texture
        = some (device.textures.length + 5)) ∧
    (display_configuration.m_aa_desc ≠ AADescriptor.None →
      (om.GetSRV SRVIndex.HDR).map View.texture = some (device.textures.length + 4) ∧
      (om.GetRTV RTVIndex.HDR).map View.texture = some (device.textures.length + 4) ∧
      (om.GetSRV SRVIndex.PostProcessing_HDR0).map View.texture
        = some (device.textures.length + 5) ∧
      (om.GetRTV RTVIndex.PostProcessing_HDR0).map View.texture
        = some (device.textures.length + 5) ∧
      (om.GetUAV UAVIndex.PostProcessing_HDR0).map View.texture
        = some (device.textures.length + 5) ∧
      device.textures.length + 5 < om.m_device.textures.length ∧
      om.GetSRV SRVIndex.PostProcessing_HDR0 ≠ om.GetSRV SRVIndex.HDR ∧
      om.GetRTV RTVIndex.PostProcessing_HDR0 ≠ om.GetRTV RTVIndex.HDR ∧
      om.GetUAV UAVIndex.PostProcessing_HDR0 ≠ om.GetUAV UAVIndex.HDR) := by
  rw [create_ok h]
  rcases display_configuration with ⟨w, ht, aa, um⟩
  constructor
  · intro haa
    simp only at haa
    subst haa
    simp [requested, GetSRV, GetRTV, GetUAV, SetupBuffers_done, SetupBuffers_switch, initial, setSRV,
        setRTV, setUAV, DisplayConfiguration.GetAADescriptor,
        DisplayConfiguration.GetDisplayWidth, DisplayConfiguration.GetDisplayHeight,
        SetupBuffer_done_srvs, SetupBuffer_done_rtvs,
        SetupBuffer_done_uavs, SetupBuffer_done_textures, SetupBuffer_done_nb_views,
        SetupBuffer_done_msaa, SetupBuffer_done_ssaa, SetupBuffer_done_dsv,
        SetupDepthBuffer_done_srvs, SetupDepthBuffer_done_rtvs, SetupDepthBuffer_done_dsv,
        SetupDepthBuffer_done_uavs, SetupDepthBuffer_done_textures,
        SetupDepthBuffer_done_nb_views, SetupDepthBuffer_done_msaa,
        SetupDepthBuffer_done_ssaa, SetupBuffer_desc_extent, SetupDepthBuffer_desc_extent,
        SetupBuffer_desc_depth_stencil, SetupDepthBuffer_desc_depth_stencil]
  · intro haa
    simp only at haa
    cases aa <;>
      first
      | exact absurd rfl haa
      | simp [requested, GetSRV, GetRTV, GetUAV, SetupBuffers_done, SetupBuffers_switch, initial, setSRV,
        setRTV, setUAV, DisplayConfiguration.GetAADescriptor,
        DisplayConfiguration.GetDisplayWidth, DisplayConfiguration.GetDisplayHeight,
        SetupBuffer_done_srvs, SetupBuffer_done_rtvs,
        SetupBuffer_done_uavs, SetupBuffer_done_textures, SetupBuffer_done_nb_views,
        SetupBuffer_done_msaa, SetupBuffer_done_ssaa, SetupBuffer_done_dsv,
        SetupDepthBuffer_done_srvs, SetupDepthBuffer_done_rtvs, SetupDepthBuffer_done_dsv,
        SetupDepthBuffer_done_uavs, SetupDepthBuffer_done_textures,
        SetupDepthBuffer_done_nb_views, SetupDepthBuffer_done_msaa,
        SetupDepthBuffer_done_ssaa, SetupBuffer_desc_extent, SetupDepthBuffer_desc_extent,
        SetupBuffer_desc_depth_stencil, SetupDepthBuffer_desc_depth_stencil]

theorem PostProcessing_HDR0_aliases_HDR_witness :
    create Device.reliable (example_configuration AADescriptor.None) example_swap_chain
      = Except.ok (example_manager AADescriptor.None) ∧
    (example_configuration AADescriptor.None).m_aa_desc = AADescriptor.None ∧
    (example_manager AADescriptor.None).GetUAV UAVIndex.PostProcessing_HDR0
      = (example_manager AADescriptor.None).GetUAV UAVIndex.HDR :=
  ⟨rfl, rfl,
    ((PostProcessing_HDR0_aliases_HDR Device.reliable (example_configuration AADescriptor.None)
      example_swap_chain (example_manager AADescriptor.None) rfl).1 rfl).2.2.1⟩

/-- C6: after a successful setup with AA `None` or `FXAA` the read views of
`PostProcessing_Depth` and `PostProcessing_Normal` are the very read views of
`GBuffer_Depth` and `GBuffer_Normal`, neither null; with an `MSAA_Nx` or
`SSAA_Nx` descriptor they are views of two allocations of their own, requested
last, each with the display width and height and 1 sample. -/
theorem PostProcessing_depth_normal_alias_GBuffer (device : Device)
    (display_configuration : DisplayConfiguration) (swap_chain : SwapChain)
    (om : OutputManager)
    (h : create device display_configuration swap_chain = Except.ok om) :
    (display_configuration.m_aa_desc = AADescriptor.None ∨
        display_configuration.m_aa_desc = AADescriptor.FXAA →
      om.GetSRV SRVIndex.PostProcessing_Depth = om.GetSRV SRVIndex.GBuffer_Depth ∧
      om.GetSRV SRVIndex.PostProcessing_Normal = om.GetSRV SRVIndex.GBuffer_Normal ∧
      (om.GetSRV SRVIndex.GBuffer_Depth).isSome = true ∧
      (om.GetSRV SRVIndex.GBuffer_Normal).isSome = true) ∧
    (display_configuration.m_aa_desc.isMSAA = true ∨
        display_configuration.m_aa_desc.isSSAA = true →
      (om.GetSRV SRVIndex.GBuffer_Depth).map View.texture = some device.textures.length ∧
      (om.GetSRV SRVIndex.GBuffer_Normal).map View.texture
        = some (device.textures.length + 3) ∧
      (om.GetSRV SRVIndex.PostProcessing_Depth).map View.texture
        = some (device.textures.length + 7) ∧
      (om.GetSRV SRVIndex.PostProcessing_Normal).map View.texture
        = some (device.textures.length + 8) ∧
      om.GetSRV SRVIndex.PostProcessing_Depth ≠ om.GetSRV SRVIndex.GBuffer_Depth ∧
      om.GetSRV SRVIndex.PostProcessing_Normal ≠ om.GetSRV SRVIndex.GBuffer_Normal ∧
      ((om.requested device).map TextureDesc.extent).drop 7
        = [(display_configuration.m_display_width,
            display_configuration.m_display_height, 1),
           (display_configuration.m_display_width,
            display_configuration.m_display_height, 1)]) := by
  rw [create_ok h]
  rcases display_configuration with ⟨w, ht, aa, um⟩
  constructor
  · intro haa
    simp only at haa
    rcases haa with haa | haa <;> subst haa <;>
      simp [requested, GetSRV, GetRTV, GetUAV, SetupBuffers_done, SetupBuffers_switch, initial, setSRV,
        setRTV, setUAV, DisplayConfiguration.GetAADescriptor,
        DisplayConfiguration.GetDisplayWidth, DisplayConfiguration.GetDisplayHeight,
        SetupBuffer_done_srvs, SetupBuffer_done_rtvs,
        SetupBuffer_done_uavs, SetupBuffer_done_textures, SetupBuffer_done_nb_views,
        SetupBuffer_done_msaa, SetupBuffer_done_ssaa, SetupBuffer_done_dsv,
        SetupDepthBuffer_done_srvs, SetupDepthBuffer_done_rtvs, SetupDepthBuffer_done_dsv,
        SetupDepthBuffer_done_uavs, SetupDepthBuffer_done_textures,
        SetupDepthBuffer_done_nb_views, SetupDepthBuffer_done_msaa,
        SetupDepthBuffer_done_ssaa, SetupBuffer_desc_extent, SetupDepthBuffer_desc_extent,
        SetupBuffer_desc_depth_stencil, SetupDepthBuffer_desc_depth_stencil]
  · intro haa
    cases aa <;> simp [AADescriptor.isMSAA, AADescriptor.isSSAA] at haa <;>
      simp [requested, GetSRV, GetRTV, GetUAV, SetupBuffers_done, SetupBuffers_switch, initial, setSRV,
        setRTV, setUAV, DisplayConfiguration.GetAADescriptor,
        DisplayConfiguration.GetDisplayWidth, DisplayConfiguration.GetDisplayHeight,
        SetupBuffer_done_srvs, SetupBuffer_done_rtvs,
        SetupBuffer_done_uavs, SetupBuffer_done_textures, SetupBuffer_done_nb_views,
        SetupBuffer_done_msaa, SetupBuffer_done_ssaa, SetupBuffer_done_dsv,
        SetupDepthBuffer_done_srvs, SetupDepthBuffer_done_rtvs, SetupDepthBuffer_done_dsv,
        SetupDepthBuffer_done_uavs, SetupDepthBuffer_done_textures,
        SetupDepthBuffer_done_nb_views, SetupDepthBuffer_done_msaa,
        SetupDepthBuffer_done_ssaa, SetupBuffer_desc_extent, SetupDepthBuffer_desc_extent,
        SetupBuffer_desc_depth_stencil, SetupDepthBuffer_desc_depth_stencil]

theorem PostProcessing_depth_normal_alias_GBuffer_witness :
    create Device.reliable (example_configuration AADescriptor.MSAA_4x) example_swap_chain
      = Except.ok (example_manager AADescriptor.MSAA_4x) ∧
    ((example_configuration AADescriptor.MSAA_4x).m_aa_desc.isMSAA = true ∨
      (example_configuration AADescriptor.MSAA_4x).m_aa_desc.isSSAA = true) ∧
    (((example_manager AADescriptor.MSAA_4x).requested Device.reliable).map
        TextureDesc.extent).drop 7
      = [(1280, 720, 1), (1280, 720, 1)] :=
  ⟨rfl, Or.inl rfl,
    ((PostProcessing_depth_normal_alias_GBuffer Device.reliable
      (example_configuration AADescriptor.MSAA_4x) example_swap_chain
      (example_manager AADescriptor.MSAA_4x) rfl).2 (Or.inl rfl)).2.2.2.2.2.2⟩

end OutputManager

/-! ## The command sequence of Renderer -/

namespace Renderer

theorem issue_cmds (r : Renderer) (c : Cmd) : (r.issue c).cmds = r.cmds ++ [c] := by
  simp [issue, cmds]

theorem callOutputManager_cmds (r : Renderer) (call : OutputManagerCall) :
    (r.callOutputManager call).cmds = r.cmds ++ [Cmd.OutputManager call] := by
  simp [callOutputManager, issue, cmds]

theorem issue_display_configuration (r : Renderer) (c : Cmd) :
    (r.issue c).display_configuration = r.display_configuration := rfl

theorem callOutputManager_display_configuration (r : Renderer) (call : OutputManagerCall) :
    (r.callOutputManager call).display_configuration = r.display_configuration := rfl

theorem Render_mode_cmds (r : Renderer) (scene : Scene) (camera : Camera) :
    (r.Render_mode scene camera).cmds
      = r.cmds ++ mode_cmds r.display_configuration.UsesMSAA camera := by
  unfold Render_mode mode_cmds
  cases hm : camera.GetSettings.GetRenderMode <;>
    cases hu : r.display_configuration.UsesMSAA <;>
      simp [ExecuteForwardPipeline, ExecuteDeferredPipeline, ExecuteSolidForwardPipeline,
        issue_cmds, callOutputManager_cmds, issue_display_configuration,
        callOutputManager_display_configuration, hu, hm]

theorem Render_mode_display_configuration (r : Renderer) (scene : Scene) (camera : Camera) :
    (r.Render_mode scene camera).display_configuration = r.display_configuration := by
  unfold Render_mode
  cases hm : camera.GetSettings.GetRenderMode <;>
    cases hu : r.display_configuration.UsesMSAA <;>
      simp [ExecuteForwardPipeline, ExecuteDeferredPipeline, ExecuteSolidForwardPipeline,
        issue_display_configuration, callOutputManager_display_configuration, hu, hm]

theorem Render_layers_cmds (r : Renderer) (camera : Camera) :
    (r.Render_layers camera).cmds = r.cmds ++ layers_cmds camera := by
  unfold Render_layers layers_cmds
  cases camera.GetSettings.ContainsRenderLayer RenderLayer.Wireframe <;>
    cases camera.GetSettings.ContainsRenderLayer RenderLayer.AABB <;>
      simp [issue_cmds]

theorem Render_layers_display_configuration (r : Renderer) (camera : Camera) :
    (r.Render_layers camera).display_configuration = r.display_configuration := by
  unfold Render_layers
  cases camera.GetSettings.ContainsRenderLayer RenderLayer.Wireframe <;>
    cases camera.GetSettings.ContainsRenderLayer RenderLayer.AABB <;>
      simp [issue_display_configuration]

theorem ExecuteAAPipeline_cmds (r : Renderer) (camera : Camera) :
    (r.ExecuteAAPipeline camera).cmds
      = r.cmds ++ aa_cmds r.display_configuration.GetAADescriptor camera := by
  unfold ExecuteAAPipeline aa_cmds
  cases r.display_configuration.GetAADescriptor <;>
    simp [issue_cmds, callOutputManager_cmds]

theorem Render_postprocessing_cmds (r : Renderer) (camera : Camera) :
    (r.Render_postprocessing camera).cmds = r.cmds ++ postprocessing_cmds camera := by
  unfold Render_postprocessing postprocessing_cmds
  cases camera.GetLens.HasFiniteAperture <;>
    simp [issue_cmds, callOutputManager_cmds]

theorem Render_camera_cmds (scene : Scene) (r : Renderer) (camera : Camera) :
    (Render_camera scene r camera).cmds
      = r.cmds ++ camera_cmds r.display_configuration.UsesMSAA
          r.display_configuration.GetAADescriptor camera := by
  unfold Render_camera camera_cmds
  by_cases ha : State.Active ≠ camera.GetState
  · simp [ha]
  · simp only [ha, if_false, scene_cmds, Render_postprocessing_cmds, ExecuteAAPipeline_cmds,
      callOutputManager_cmds, Render_layers_cmds, Render_mode_cmds, issue_cmds,
      callOutputManager_display_configuration, Render_layers_display_configuration,
      Render_mode_display_configuration, issue_display_configuration, List.append_assoc]
    rfl

theorem issue_issued (r : Renderer) (c : Cmd) :
    (r.issue c).issued = r.issued ++ [{ cmd := c, ctx := r.m_device_context }] := rfl

theorem create_msaa {device : Device} {display_configuration : DisplayConfiguration}
    {swap_chain : SwapChain} {om : OutputManager}
    (h : OutputManager.create device display_configuration swap_chain = Except.ok om) :
    om.m_msaa = display_configuration.m_aa_desc.isMSAA := by
  rw [OutputManager.create_ok h]
  rcases display_configuration with ⟨w, ht, aa, um⟩
  cases aa <;>
    simp [OutputManager.SetupBuffers_done, OutputManager.SetupBuffers_switch,
      OutputManager.initial, OutputManager.setSRV, OutputManager.setRTV, OutputManager.setUAV,
      DisplayConfiguration.GetAADescriptor, OutputManager.SetupBuffer_done_msaa,
      OutputManager.SetupBuffer_done_ssaa, OutputManager.SetupDepthBuffer_done_msaa,
      OutputManager.SetupDepthBuffer_done_ssaa, AADescriptor.isMSAA]

/-- C7: for a camera with render mode `Deferred` and a display configuration
that does not use MSAA, the primary-mode step issues exactly the seventeen
commands listed, whose draws and dispatches are, in this order: lighting-buffer
pass, G-buffer pass, deferred shading as a compute dispatch, emissive forward
pass, sky pass, transparent forward pass; deferred shading is never a graphics
draw; and for an active camera these commands follow `BindBegin` and the camera
buffer upload at the head of the commands of the camera. -/
theorem Deferred_without_MSAA_pass_order (r : Renderer) (scene : Scene) (camera : Camera)
    (hmode : camera.GetSettings.GetRenderMode = RenderMode.Deferred)
    (hmsaa : r.display_configuration.UsesMSAA = false) :
    (r.Render_mode scene camera).cmds = r.cmds ++
      [Cmd.LBufferPass_Render,
       Cmd.BindViewport camera.GetSSViewport,
       Cmd.OutputManager OutputManagerCall.BindBeginGBuffer,
       Cmd.GBufferPass_BindFixedState,
       Cmd.GBufferPass_Render,
       Cmd.OutputManager OutputManagerCall.BindEndGBuffer,
       Cmd.OutputManager OutputManagerCall.BindBeginDeferred,
       Cmd.DeferredShadingPass_BindFixedState camera.GetSettings.GetBRDF true,
       Cmd.DeferredShadingPass_Dispatch camera.GetSSViewport,
       Cmd.OutputManager OutputManagerCall.BindEndDeferred,
       Cmd.OutputManager OutputManagerCall.BindBeginForward,
       Cmd.VariableShadingPass_BindFixedState camera.GetSettings.GetBRDF,
       Cmd.VariableShadingPass_RenderEmissive,
       Cmd.SkyPass_BindFixedState,
       Cmd.SkyPass_Render,
       Cmd.VariableShadingPass_BindFixedState camera.GetSettings.GetBRDF,
       Cmd.VariableShadingPass_RenderTransparent] ∧
    (((r.Render_mode scene camera).cmds.drop r.cmds.length).filter
        (fun c => c.isDraw || c.isDispatch)
      = [Cmd.LBufferPass_Render,
         Cmd.GBufferPass_Render,
         Cmd.DeferredShadingPass_Dispatch camera.GetSSViewport,
         Cmd.VariableShadingPass_RenderEmissive,
         Cmd.SkyPass_Render,
         Cmd.VariableShadingPass_RenderTransparent]) ∧
    Cmd.DeferredShadingPass_Render ∉ (r.Render_mode scene camera).cmds.drop r.cmds.length ∧
    (camera.GetState = State.Active →
      (r.cmds ++
        [Cmd.OutputManager OutputManagerCall.BindBegin,
         Cmd.BindCameraBuffer camera,
         Cmd.LBufferPass_Render,
         Cmd.BindViewport camera.GetSSViewport,
         Cmd.OutputManager OutputManagerCall.BindBeginGBuffer,
         Cmd.GBufferPass_BindFixedState,
         Cmd.GBufferPass_Render,
         Cmd.OutputManager OutputManagerCall.BindEndGBuffer,
         Cmd.OutputManager OutputManagerCall.BindBeginDeferred,
         Cmd.DeferredShadingPass_BindFixedState camera.GetSettings.GetBRDF true,
         Cmd.DeferredShadingPass_Dispatch camera.GetSSViewport,
         Cmd.OutputManager OutputManagerCall.BindEndDeferred,
         Cmd.OutputManager OutputManagerCall.BindBeginForward,
         Cmd.VariableShadingPass_BindFixedState camera.GetSettings.GetBRDF,
         Cmd.VariableShadingPass_RenderEmissive,
         Cmd.SkyPass_BindFixedState,
         Cmd.SkyPass_Render,
         Cmd.VariableShadingPass_BindFixedState camera.GetSettings.GetBRDF,
         Cmd.VariableShadingPass_RenderTransparent])
        <+: (Render_camera scene r camera).cmds) := by
  have hlist : mode_cmds false camera =
      [Cmd.LBufferPass_Render,
       Cmd.BindViewport camera.GetSSViewport,
       Cmd.OutputManager OutputManagerCall.BindBeginGBuffer,
       Cmd.GBufferPass_BindFixedState,
       Cmd.GBufferPass_Render,
       Cmd.OutputManager OutputManagerCall.BindEndGBuffer,
       Cmd.OutputManager OutputManagerCall.BindBeginDeferred,
       Cmd.DeferredShadingPass_BindFixedState camera.GetSettings.GetBRDF true,
       Cmd.DeferredShadingPass_Dispatch camera.GetSSViewport,
       Cmd.OutputManager OutputManagerCall.BindEndDeferred,
       Cmd.OutputManager OutputManagerCall.BindBeginForward,
       Cmd.VariableShadingPass_BindFixedState camera.GetSettings.GetBRDF,
       Cmd.VariableShadingPass_RenderEmissive,
       Cmd.SkyPass_BindFixedState,
       Cmd.SkyPass_Render,
       Cmd.VariableShadingPass_BindFixedState camera.GetSettings.GetBRDF,
       Cmd.VariableShadingPass_RenderTransparent] := by
    simp [mode_cmds, hmode]
  refine ⟨?_, ?_, ?_, ?_⟩
  · rw [Render_mode_cmds, hmsaa, hlist]
  · rw [Render_mode_cmds, hmsaa, hlist, List.drop_left]
    simp [Cmd.isDraw, Cmd.isDispatch]
  · rw [Render_mode_cmds, hmsaa, hlist, List.drop_left]
    simp
  · intro hactive
    rw [Render_camera_cmds, hmsaa]
    have hact : ¬ (State.Active ≠ camera.GetState) := by simp [hactive]
    simp only [camera_cmds, hact, if_false, scene_cmds, hlist]
    refine ⟨layers_cmds camera ++ [Cmd.OutputManager OutputManagerCall.BindEndForward] ++
      aa_cmds r.display_configuration.GetAADescriptor camera ++ postprocessing_cmds camera, ?_⟩
    simp [List.append_assoc]

theorem Deferred_without_MSAA_pass_order_witness :
    ((example_camera RenderMode.Deferred false).GetSettings.GetRenderMode = RenderMode.Deferred ∧
      (example_renderer AADescriptor.FXAA).display_configuration.UsesMSAA = false) ∧
    ((((example_renderer AADescriptor.FXAA).Render_mode ⟨[]⟩
          (example_camera RenderMode.Deferred false)).cmds.drop
          (example_renderer AADescriptor.FXAA).cmds.length).filter
        (fun c => c.isDraw || c.isDispatch)
      = [Cmd.LBufferPass_Render,
         Cmd.GBufferPass_Render,
         Cmd.DeferredShadingPass_Dispatch example_viewport,
         Cmd.VariableShadingPass_RenderEmissive,
         Cmd.SkyPass_Render,
         Cmd.VariableShadingPass_RenderTransparent]) :=
  ⟨⟨rfl, rfl⟩,
    (Deferred_without_MSAA_pass_order (example_renderer AADescriptor.FXAA) ⟨[]⟩
      (example_camera RenderMode.Deferred false) rfl rfl).2.1⟩

end Renderer

/-! ## Deferred shading under MSAA and depth of field -/

namespace Renderer

/-- C8: for a camera with render mode `Deferred`, a display configuration that
uses MSAA and an output manager set up from an `MSAA_Nx` descriptor, the
primary-mode step issues deferred shading once, as a graphics draw and not as
a compute dispatch; it is the ninth command of the step, and in the binding
state of that draw the only render target is the write view of `HDR`, there is
no depth target, and the four pixel-shader slots from `SLOT_SRV_BASE_COLOR`
hold the read views of the G-buffer base colour, material, normal and depth,
none of these views being null. -/
theorem Deferred_with_MSAA_is_draw (device : Device)
    (display_configuration : DisplayConfiguration) (swap_chain : SwapChain)
    (om : OutputManager) (flag : Bool) (r : Renderer) (scene : Scene) (camera : Camera)
    (hcreate : OutputManager.create device display_configuration swap_chain = Except.ok om)
    (haa : display_configuration.m_aa_desc.isMSAA = true)
    (hom : r.output_manager = { om with m_hdr0_to_hdr1 := flag })
    (hmsaa : r.display_configuration.UsesMSAA = true)
    (hmode : camera.GetSettings.GetRenderMode = RenderMode.Deferred) :
    (((r.Render_mode scene camera).cmds.drop r.cmds.length).filter
        (fun c => c == Cmd.DeferredShadingPass_Render || c.isDeferredDispatch)
      = [Cmd.DeferredShadingPass_Render]) ∧
    (((r.Render_mode scene camera).issued.drop r.issued.length)[8]?.map
        (fun e => (e.cmd, e.ctx.om_rtvs, e.ctx.om_dsv,
          [e.ctx.ps_srvs r.hlsl.SLOT_SRV_BASE_COLOR,
           e.ctx.ps_srvs r.hlsl.SLOT_SRV_MATERIAL,
           e.ctx.ps_srvs r.hlsl.SLOT_SRV_NORMAL,
           e.ctx.ps_srvs r.hlsl.SLOT_SRV_DEPTH]))
      = some (Cmd.DeferredShadingPass_Render, [om.GetRTV RTVIndex.HDR], none,
          [om.GetSRV SRVIndex.GBuffer_BaseColor,
           om.GetSRV SRVIndex.GBuffer_Material,
           om.GetSRV SRVIndex.GBuffer_Normal,
           om.GetSRV SRVIndex.GBuffer_Depth])) ∧
    ((om.GetRTV RTVIndex.HDR).isSome = true ∧
      (om.GetSRV SRVIndex.GBuffer_BaseColor).isSome = true ∧
      (om.GetSRV SRVIndex.GBuffer_Material).isSome = true ∧
      (om.GetSRV SRVIndex.GBuffer_Normal).isSome = true ∧
      (om.GetSRV SRVIndex.GBuffer_Depth).isSome = true) := by
  have hm : om.m_msaa = true := by rw [create_msaa hcreate, haa]
  refine ⟨?_, ?_, ?_⟩
  · rw [Render_mode_cmds, hmsaa, List.drop_left]
    simp [mode_cmds, hmode, Cmd.isDeferredDispatch]
  · unfold Render_mode
    simp only [hmode, ExecuteDeferredPipeline, issue_display_configuration,
      callOutputManager_display_configuration, hmsaa, if_true]
    simp only [issue_issued, callOutputManager, List.append_assoc, List.drop_left]
    simp [hom, hm, OutputManagerCall.run, OutputManager.BindBeginDeferred,
      OutputManager.BindEndGBuffer, OutputManager.BindBeginGBuffer, issue,
      Pipeline.PS.BindSRVs, Pipeline.OM.BindRTVAndDSV, Pipeline.OM.BindRTVsAndDSV, bindSlots,
      HLSL.SLOT_SRV_MATERIAL, HLSL.SLOT_SRV_NORMAL, HLSL.SLOT_SRV_DEPTH,
      OutputManager.GetRTV, OutputManager.GetSRV]
  · rw [OutputManager.create_ok hcreate]
    rcases display_configuration with ⟨w, ht, aa, um⟩
    cases aa <;> simp [AADescriptor.isMSAA] at haa <;>
      simp [OutputManager.GetSRV, OutputManager.GetRTV, OutputManager.SetupBuffers_done,
        OutputManager.SetupBuffers_switch, OutputManager.initial,
        DisplayConfiguration.GetAADescriptor, OutputManager.SetupBuffer_done_srvs,
        OutputManager.SetupBuffer_done_rtvs, OutputManager.SetupBuffer_done_msaa,
        OutputManager.SetupBuffer_done_ssaa, OutputManager.SetupDepthBuffer_done_srvs,
        OutputManager.SetupDepthBuffer_done_rtvs, OutputManager.SetupDepthBuffer_done_msaa,
        OutputManager.SetupDepthBuffer_done_ssaa]

theorem Deferred_with_MSAA_is_draw_witness :
    (OutputManager.create Device.reliable (example_configuration AADescriptor.MSAA_4x)
        example_swap_chain = Except.ok (example_manager AADescriptor.MSAA_4x) ∧
      (example_configuration AADescriptor.MSAA_4x).m_aa_desc.isMSAA = true ∧
      (example_renderer AADescriptor.MSAA_4x).output_manager
        = { example_manager AADescriptor.MSAA_4x with m_hdr0_to_hdr1 := true } ∧
      (example_renderer AADescriptor.MSAA_4x).display_configuration.UsesMSAA = true ∧
      (example_camera RenderMode.Deferred false).GetSettings.GetRenderMode
        = RenderMode.Deferred) ∧
    ((((example_renderer AADescriptor.MSAA_4x).Render_mode ⟨[]⟩
          (example_camera RenderMode.Deferred false)).cmds.drop
          (example_renderer AADescriptor.MSAA_4x).cmds.length).filter
        (fun c => c == Cmd.DeferredShadingPass_Render || c.isDeferredDispatch)
      = [Cmd.DeferredShadingPass_Render]) :=
  ⟨⟨rfl, rfl, rfl, rfl, rfl⟩,
    (Deferred_with_MSAA_is_draw Device.reliable (example_configuration AADescriptor.MSAA_4x)
      example_swap_chain (example_manager AADescriptor.MSAA_4x) true
      (example_renderer AADescriptor.MSAA_4x) ⟨[]⟩ (example_camera RenderMode.Deferred false)
      rfl rfl rfl rfl rfl).1⟩

theorem mode_cmds_count (uses_msaa : Bool) (camera : Camera) :
    (mode_cmds uses_msaa camera).countP Cmd.isDOFDispatch = 0 ∧
    (mode_cmds uses_msaa camera).count (Cmd.OutputManager OutputManagerCall.BindPingPong) = 0 ∧
    (mode_cmds uses_msaa camera).count
      (Cmd.OutputManager OutputManagerCall.BindBeginPostProcessing) = 0 ∧
    (mode_cmds uses_msaa camera).count (Cmd.OutputManager OutputManagerCall.BindEnd) = 0 := by
  unfold mode_cmds
  cases camera.GetSettings.GetRenderMode <;> cases uses_msaa <;>
    simp [Cmd.isDOFDispatch, List.count_cons]

theorem layers_cmds_count (camera : Camera) :
    (layers_cmds camera).countP Cmd.isDOFDispatch = 0 ∧
    (layers_cmds camera).count (Cmd.OutputManager OutputManagerCall.BindPingPong) = 0 ∧
    (layers_cmds camera).count
      (Cmd.OutputManager OutputManagerCall.BindBeginPostProcessing) = 0 ∧
    (layers_cmds camera).count (Cmd.OutputManager OutputManagerCall.BindEnd) = 0 := by
  unfold layers_cmds
  cases camera.GetSettings.ContainsRenderLayer RenderLayer.Wireframe <;>
    cases camera.GetSettings.ContainsRenderLayer RenderLayer.AABB <;>
      simp [Cmd.isDOFDispatch, List.count_cons]

theorem aa_cmds_count (desc : AADescriptor) (camera : Camera) :
    (aa_cmds desc camera).countP Cmd.isDOFDispatch = 0 ∧
    (aa_cmds desc camera).count (Cmd.OutputManager OutputManagerCall.BindPingPong)
      = (if desc = AADescriptor.FXAA then 1 else 0) ∧
    (aa_cmds desc camera).count
      (Cmd.OutputManager OutputManagerCall.BindBeginPostProcessing) = 0 ∧
    (aa_cmds desc camera).count (Cmd.OutputManager OutputManagerCall.BindEnd) = 0 := by
  unfold aa_cmds
  cases desc <;> simp [Cmd.isDOFDispatch, List.count_cons]

theorem postprocessing_cmds_count (camera : Camera) :
    (postprocessing_cmds camera).countP Cmd.isDOFDispatch
      = (if camera.GetLens.HasFiniteAperture then 1 else 0) ∧
    (postprocessing_cmds camera).count (Cmd.OutputManager OutputManagerCall.BindPingPong)
      = (if camera.GetLens.HasFiniteAperture then 1 else 0) ∧
    (postprocessing_cmds camera).count
      (Cmd.OutputManager OutputManagerCall.BindBeginPostProcessing) = 1 ∧
    (postprocessing_cmds camera).count (Cmd.OutputManager OutputManagerCall.BindEnd) = 1 := by
  unfold postprocessing_cmds
  cases camera.GetLens.HasFiniteAperture <;> simp [Cmd.isDOFDispatch, List.count_cons]

/-- C9: among the commands `Renderer` issues for an active camera, the last
ones are `BindBeginPostProcessing`, the binding of the camera viewport, then,
iff the lens has a finite aperture, one `BindPingPong` immediately followed by
one depth-of-field dispatch, then `BindEnd` and the back buffer pass, with
`BindBeginPostProcessing` and `BindEnd` each called once; `BindPingPong` is
called once for FXAA plus once for a finite aperture and never else; a camera
that is not active gets no command; hence every camera without a finite
aperture gets no depth-of-field dispatch, and an active camera with a finite
aperture gets exactly one. -/
theorem depth_of_field_iff_finite_aperture (scene : Scene) (r : Renderer) (camera : Camera) :
    (camera.GetState = State.Active →
      (([Cmd.OutputManager OutputManagerCall.BindBeginPostProcessing,
          Cmd.BindViewport camera.GetViewport] ++
        (if camera.GetLens.HasFiniteAperture then
          [Cmd.OutputManager OutputManagerCall.BindPingPong,
           Cmd.DOFPass_Dispatch camera.GetViewport] else []) ++
        [Cmd.OutputManager OutputManagerCall.BindEnd,
         Cmd.BackBufferPass_BindFixedState, Cmd.BackBufferPass_Render])
        <:+ (Render_camera scene r camera).cmds) ∧
      (((Render_camera scene r camera).cmds.drop r.cmds.length).countP Cmd.isDOFDispatch
        = (if camera.GetLens.HasFiniteAperture then 1 else 0)) ∧
      (((Render_camera scene r camera).cmds.drop r.cmds.length).count
          (Cmd.OutputManager OutputManagerCall.BindPingPong)
        = (if r.display_configuration.GetAADescriptor = AADescriptor.FXAA then 1 else 0)
          + (if camera.GetLens.HasFiniteAperture then 1 else 0)) ∧
      (((Render_camera scene r camera).cmds.drop r.cmds.length).count
          (Cmd.OutputManager OutputManagerCall.BindBeginPostProcessing) = 1) ∧
      (((Render_camera scene r camera).cmds.drop r.cmds.length).count
          (Cmd.OutputManager OutputManagerCall.BindEnd) = 1)) ∧
    (camera.GetState ≠ State.Active →
      (Render_camera scene r camera).cmds = r.cmds) ∧
    (camera.GetLens.HasFiniteAperture = false →
      ((Render_camera scene r camera).cmds.drop r.cmds.length).countP Cmd.isDOFDispatch
        = 0) := by
  have hm := mode_cmds_count r.display_configuration.UsesMSAA camera
  have hl := layers_cmds_count camera
  have ha := aa_cmds_count r.display_configuration.GetAADescriptor camera
  have hp := postprocessing_cmds_count camera
  have hdof : camera.GetState = State.Active →
      ((Render_camera scene r camera).cmds.drop r.cmds.length).countP Cmd.isDOFDispatch
        = (if camera.GetLens.HasFiniteAperture then 1 else 0) := by
    intro hactive
    have hact : ¬ (State.Active ≠ camera.GetState) := by simp [hactive]
    rw [Render_camera_cmds, List.drop_left]
    simp only [camera_cmds, hact, if_false]
    simp [scene_cmds, List.countP_append, hm.1, hl.1, ha.1, hp.1, Cmd.isDOFDispatch]
  have hinactive : camera.GetState ≠ State.Active →
      (Render_camera scene r camera).cmds = r.cmds := by
    intro hstate
    have hact : State.Active ≠ camera.GetState := fun h => hstate h.symm
    rw [Render_camera_cmds]
    simp [camera_cmds, hact]
  refine ⟨?_, hinactive, ?_⟩
  · intro hactive
    have hact : ¬ (State.Active ≠ camera.GetState) := by simp [hactive]
    refine ⟨?_, hdof hactive, ?_, ?_, ?_⟩
    · rw [Render_camera_cmds]
      simp only [camera_cmds, hact, if_false]
      refine ⟨r.cmds ++ scene_cmds r.display_configuration.UsesMSAA
        r.display_configuration.GetAADescriptor camera, ?_⟩
      simp [postprocessing_cmds, List.append_assoc]
    · rw [Render_camera_cmds, List.drop_left]
      simp only [camera_cmds, hact, if_false]
      simp [scene_cmds, List.count_append, List.count_cons, hm.2.1, hl.2.1, ha.2.1, hp.2.1]
    · rw [Render_camera_cmds, List.drop_left]
      simp only [camera_cmds, hact, if_false]
      simp [scene_cmds, List.count_append, List.count_cons, hm.2.2.1, hl.2.2.1, ha.2.2.1,
        hp.2.2.1]
    · rw [Render_camera_cmds, List.drop_left]
      simp only [camera_cmds, hact, if_false]
      simp [scene_cmds, List.count_append, List.count_cons, hm.2.2.2, hl.2.2.2, ha.2.2.2,
        hp.2.2.2]
  · intro hfinite
    by_cases hstate : camera.GetState = State.Active
    · rw [hdof hstate, hfinite]
      simp
    · rw [hinactive hstate]
      simp

theorem depth_of_field_iff_finite_aperture_witness :
    (example_camera RenderMode.Forward true).GetState = State.Active ∧
    (((Render_camera ⟨[example_camera RenderMode.Forward true]⟩
          (example_renderer AADescriptor.FXAA)
          (example_camera RenderMode.Forward true)).cmds.drop
          (example_renderer AADescriptor.FXAA).cmds.length).countP Cmd.isDOFDispatch = 1) :=
  ⟨rfl,
    ((depth_of_field_iff_finite_aperture ⟨[example_camera RenderMode.Forward true]⟩
      (example_renderer AADescriptor.FXAA) (example_camera RenderMode.Forward true)).1
      rfl).2.1⟩

end Renderer

/-! ## Frame bracketing -/

namespace RenderingManager

theorem BeginFrame_eq (m : RenderingManager) :
    m.BeginFrame =
      if m.m_in_begin_end_pair then Except.error { expression := "!m_in_begin_end_pair" }
      else Except.ok
        { m with
          m_device_context :=
            Pipeline.OM.ClearDSV (Pipeline.OM.ClearRTV m.m_device_context m.m_back_buffer_rtv)
              m.m_depth_buffer_dsv,
          m_in_begin_end_pair := true } := by
  cases h : m.m_in_begin_end_pair <;> simp [BeginFrame, Assert, h]

theorem EndFrame_eq (m : RenderingManager) :
    m.EndFrame =
      if m.m_in_begin_end_pair then
        Except.ok { m with presented := m.presented ++ [if m.m_vsync then 1 else 0],
                           m_in_begin_end_pair := false }
      else Except.error { expression := "m_in_begin_end_pair" } := by
  cases h : m.m_in_begin_end_pair <;> simp [EndFrame, Assert, h]

theorem runCalls_cons_ok {c : FrameCall} {cs : List FrameCall} {m m2 : RenderingManager}
    (h : c.run m = Except.ok m2) : runCalls (c :: cs) m = runCalls cs m2 := by
  simp [runCalls, h]

theorem runCalls_cons_error {c : FrameCall} {cs : List FrameCall} {m : RenderingManager}
    {e : AssertionFailure} (h : c.run m = Except.error e) :
    runCalls (c :: cs) m = Except.error e := by
  simp [runCalls, h]

theorem runCalls_isOk_iff (calls : List FrameCall) (m : RenderingManager) :
    (runCalls calls m).isOk = true ↔ calls = expected m.m_in_begin_end_pair calls.length := by
  induction calls generalizing m with
  | nil => simp [runCalls, expected, Except.isOk, Except.toBool]
  | cons c cs ih =>
    cases c <;> cases h : m.m_in_begin_end_pair
    · have hrun : FrameCall.BeginFrame.run m = Except.ok
          { m with
            m_device_context :=
              Pipeline.OM.ClearDSV
                (Pipeline.OM.ClearRTV m.m_device_context m.m_back_buffer_rtv)
                m.m_depth_buffer_dsv,
            m_in_begin_end_pair := true } := by
        simp [FrameCall.run, BeginFrame_eq, h]
      rw [runCalls_cons_ok hrun, ih]
      simp [expected]
    · have hrun : FrameCall.BeginFrame.run m
          = Except.error { expression := "!m_in_begin_end_pair" } := by
        simp [FrameCall.run, BeginFrame_eq, h]
      rw [runCalls_cons_error hrun]
      simp [expected, Except.isOk, Except.toBool]
    · have hrun : FrameCall.EndFrame.run m
          = Except.error { expression := "m_in_begin_end_pair" } := by
        simp [FrameCall.run, EndFrame_eq, h]
      rw [runCalls_cons_error hrun]
      simp [expected, Except.isOk, Except.toBool]
    · have hrun : FrameCall.EndFrame.run m = Except.ok
          { m with presented := m.presented ++ [if m.m_vsync then 1 else 0],
                   m_in_begin_end_pair := false } := by
        simp [FrameCall.run, EndFrame_eq, h]
      rw [runCalls_cons_ok hrun, ih]
      simp [expected]

theorem expected_eq_map (flag : Bool) (n : Nat) :
    expected flag n =
      (List.range n).map
        (fun i => if (i % 2 = 0) = (flag = false) then FrameCall.BeginFrame
                  else FrameCall.EndFrame) := by
  induction n generalizing flag with
  | zero => simp [expected]
  | succ n ih =>
    rw [expected, ih, List.range_succ_eq_map, List.map_cons, List.map_map]
    congr 1
    · cases flag <;> simp
    · apply List.map_congr_left
      intro i _
      have h2 : (i + 1) % 2 = 0 ↔ ¬ (i % 2 = 0) := by omega
      have h3 : (i + 1) % 2 = 1 ↔ i % 2 = 0 := by omega
      cases flag <;> by_cases hi : i % 2 = 0 <;> simp [hi, h2, h3]

/-- C10: from a manager whose flag `m_in_begin_end_pair` is false, as the
constructor leaves it, a finite sequence of `BeginFrame`/`EndFrame` calls fails
no assertion iff it strictly alternates starting with `BeginFrame`; a
`BeginFrame` that follows a successful `BeginFrame` fails, `EndFrame` fails on
a manager whose flag is false and after a successful `EndFrame`; a successful
`BeginFrame` leaves the flag true and a successful `EndFrame` leaves it
false. -/
theorem frame_bracketing (m : RenderingManager) (calls : List FrameCall) :
    ((runCalls calls { m with m_in_begin_end_pair := false }).isOk = true
      ↔ calls = alternating calls.length) ∧
    (∀ m1 m2 : RenderingManager, m1.BeginFrame = Except.ok m2 →
      m2.m_in_begin_end_pair = true ∧ m2.BeginFrame.isOk = false) ∧
    (∀ m1 m2 : RenderingManager, m1.EndFrame = Except.ok m2 →
      m2.m_in_begin_end_pair = false ∧ m2.EndFrame.isOk = false) ∧
    ({ m with m_in_begin_end_pair := false } : RenderingManager).EndFrame.isOk = false ∧
    (({ m with m_in_begin_end_pair := false } : RenderingManager).BeginFrame.isOk = true) ∧
    (runCalls [FrameCall.BeginFrame, FrameCall.BeginFrame]
      { m with m_in_begin_end_pair := false }).isOk = false ∧
    (runCalls [FrameCall.EndFrame] { m with m_in_begin_end_pair := false }).isOk = false := by
  refine ⟨?_, ?_, ?_, ?_, ?_, ?_, ?_⟩
  · rw [runCalls_isOk_iff, expected_eq_map, alternating]
    simp
  · intro m1 m2 h
    rw [BeginFrame_eq] at h
    cases h1 : m1.m_in_begin_end_pair
    · simp [h1] at h
      subst h
      simp [BeginFrame_eq, Except.isOk, Except.toBool]
    · simp [h1] at h
  · intro m1 m2 h
    rw [EndFrame_eq] at h
    cases h1 : m1.m_in_begin_end_pair
    · simp [h1] at h
    · simp [h1] at h
      subst h
      simp [EndFrame_eq, Except.isOk, Except.toBool]
  · simp [EndFrame_eq, Except.isOk, Except.toBool]
  · simp [BeginFrame_eq, Except.isOk, Except.toBool]
  · simp [runCalls, FrameCall.run, BeginFrame_eq, Except.isOk, Except.toBool]
  · simp [runCalls, FrameCall.run, EndFrame_eq, Except.isOk, Except.toBool]

end RenderingManager

/-! ## Anti-aliasing step, viewport restoration, overlays and the sprite pass -/

namespace Renderer

/-- C17: `ExecuteAAPipeline` issues, for FXAA, `BindBeginResolve`, one
preprocess dispatch, `BindEndResolve`, one `BindPingPong` and one main AA
dispatch, in this order; for each of `MSAA_2x/4x/8x` and `SSAA_2x/3x/4x`,
`BindBeginResolve`, one AA dispatch for that descriptor and `BindEndResolve`,
with no `BindPingPong`; and for `None` nothing at all, the state being left as
it was. -/
theorem ExecuteAAPipeline_dispatches (r : Renderer) (camera : Camera) :
    ((r.ExecuteAAPipeline camera).cmds = r.cmds ++
      match r.display_configuration.GetAADescriptor with
      | AADescriptor.None => []
      | AADescriptor.FXAA =>
        [Cmd.OutputManager OutputManagerCall.BindBeginResolve,
         Cmd.AAPass_DispatchAAPreprocess camera.GetSSViewport AADescriptor.FXAA,
         Cmd.OutputManager OutputManagerCall.BindEndResolve,
         Cmd.OutputManager OutputManagerCall.BindPingPong,
         Cmd.AAPass_DispatchAA camera.GetSSViewport AADescriptor.FXAA]
      | AADescriptor.MSAA_2x =>
        [Cmd.OutputManager OutputManagerCall.BindBeginResolve,
         Cmd.AAPass_DispatchAA camera.GetSSViewport AADescriptor.MSAA_2x,
         Cmd.OutputManager OutputManagerCall.BindEndResolve]
      | AADescriptor.MSAA_4x =>
        [Cmd.OutputManager OutputManagerCall.BindBeginResolve,
         Cmd.AAPass_DispatchAA camera.GetSSViewport AADescriptor.MSAA_4x,
         Cmd.OutputManager OutputManagerCall.BindEndResolve]
      | AADescriptor.MSAA_8x =>
        [Cmd.OutputManager OutputManagerCall.BindBeginResolve,
         Cmd.AAPass_DispatchAA camera.GetSSViewport AADescriptor.MSAA_8x,
         Cmd.OutputManager OutputManagerCall.BindEndResolve]
      | AADescriptor.SSAA_2x =>
        [Cmd.OutputManager OutputManagerCall.BindBeginResolve,
         Cmd.AAPass_DispatchAA camera.GetSSViewport AADescriptor.SSAA_2x,
         Cmd.OutputManager OutputManagerCall.BindEndResolve]
      | AADescriptor.SSAA_3x =>
        [Cmd.OutputManager OutputManagerCall.BindBeginResolve,
         Cmd.AAPass_DispatchAA camera.GetSSViewport AADescriptor.SSAA_3x,
         Cmd.OutputManager OutputManagerCall.BindEndResolve]
      | AADescriptor.SSAA_4x =>
        [Cmd.OutputManager OutputManagerCall.BindBeginResolve,
         Cmd.AAPass_DispatchAA camera.GetSSViewport AADescriptor.SSAA_4x,
         Cmd.OutputManager OutputManagerCall.BindEndResolve]) ∧
    (((r.ExecuteAAPipeline camera).cmds.drop r.cmds.length).countP Cmd.isDispatch
      = match r.display_configuration.GetAADescriptor with
        | AADescriptor.None => 0
        | AADescriptor.FXAA => 2
        | _ => 1) ∧
    (if r.display_configuration.GetAADescriptor = AADescriptor.None then
      r.ExecuteAAPipeline camera = r else True) := by
  refine ⟨?_, ?_, ?_⟩
  · rw [ExecuteAAPipeline_cmds]
    cases r.display_configuration.GetAADescriptor <;> simp [aa_cmds]
  · rw [ExecuteAAPipeline_cmds, List.drop_left]
    cases r.display_configuration.GetAADescriptor <;> simp [aa_cmds, Cmd.isDispatch]
  · by_cases h : r.display_configuration.GetAADescriptor = AADescriptor.None
    · simp [h, ExecuteAAPipeline]
    · simp [h]

theorem ExecuteForwardPipeline_cmds (r : Renderer) (scene : Scene) (camera : Camera) :
    (r.ExecuteForwardPipeline scene camera).cmds = r.cmds ++
      [Cmd.LBufferPass_Render, Cmd.BindViewport camera.GetSSViewport,
       Cmd.OutputManager OutputManagerCall.BindBeginForward,
       Cmd.VariableShadingPass_BindFixedState camera.GetSettings.GetBRDF,
       Cmd.VariableShadingPass_Render,
       Cmd.SkyPass_BindFixedState, Cmd.SkyPass_Render,
       Cmd.VariableShadingPass_BindFixedState camera.GetSettings.GetBRDF,
       Cmd.VariableShadingPass_RenderTransparent] := by
  simp [ExecuteForwardPipeline, issue_cmds, callOutputManager_cmds]

theorem ExecuteSolidForwardPipeline_cmds (r : Renderer) (scene : Scene) (camera : Camera) :
    (r.ExecuteSolidForwardPipeline scene camera).cmds = r.cmds ++
      [Cmd.LBufferPass_Render, Cmd.BindViewport camera.GetSSViewport,
       Cmd.OutputManager OutputManagerCall.BindBeginForward,
       Cmd.ConstantShadingPass_BindFixedState, Cmd.ConstantShadingPass_Render] := by
  simp [ExecuteSolidForwardPipeline, issue_cmds, callOutputManager_cmds]

theorem ExecuteDeferredPipeline_cmds (r : Renderer) (scene : Scene) (camera : Camera) :
    (r.ExecuteDeferredPipeline scene camera).cmds = r.cmds ++
      ([Cmd.LBufferPass_Render, Cmd.BindViewport camera.GetSSViewport,
        Cmd.OutputManager OutputManagerCall.BindBeginGBuffer,
        Cmd.GBufferPass_BindFixedState, Cmd.GBufferPass_Render,
        Cmd.OutputManager OutputManagerCall.BindEndGBuffer,
        Cmd.OutputManager OutputManagerCall.BindBeginDeferred] ++
       (if r.display_configuration.UsesMSAA then
         [Cmd.DeferredShadingPass_BindFixedState camera.GetSettings.GetBRDF false,
          Cmd.DeferredShadingPass_Render]
        else
         [Cmd.DeferredShadingPass_BindFixedState camera.GetSettings.GetBRDF true,
          Cmd.DeferredShadingPass_Dispatch camera.GetSSViewport]) ++
       [Cmd.OutputManager OutputManagerCall.BindEndDeferred,
        Cmd.OutputManager OutputManagerCall.BindBeginForward,
        Cmd.VariableShadingPass_BindFixedState camera.GetSettings.GetBRDF,
        Cmd.VariableShadingPass_RenderEmissive,
        Cmd.SkyPass_BindFixedState, Cmd.SkyPass_Render,
        Cmd.VariableShadingPass_BindFixedState camera.GetSettings.GetBRDF,
        Cmd.VariableShadingPass_RenderTransparent]) := by
  cases hu : r.display_configuration.UsesMSAA <;>
    simp [ExecuteDeferredPipeline, issue_cmds, callOutputManager_cmds,
      issue_display_configuration, callOutputManager_display_configuration, hu]

/-- C19: in each of the Forward, Deferred and Solid pipelines the first command
is the lighting-buffer pass, the command right after it is the binding of the
camera's super-sampled viewport, and the pipeline runs the lighting-buffer pass
only once; so no other pass of the pipeline comes between the two. -/
theorem viewport_restored_after_lighting (r : Renderer) (scene : Scene) (camera : Camera) :
    (((r.ExecuteForwardPipeline scene camera).cmds.drop r.cmds.length).take 2
        = [Cmd.LBufferPass_Render, Cmd.BindViewport camera.GetSSViewport] ∧
      ((r.ExecuteForwardPipeline scene camera).cmds.drop r.cmds.length).count
        Cmd.LBufferPass_Render = 1) ∧
    (((r.ExecuteDeferredPipeline scene camera).cmds.drop r.cmds.length).take 2
        = [Cmd.LBufferPass_Render, Cmd.BindViewport camera.GetSSViewport] ∧
      ((r.ExecuteDeferredPipeline scene camera).cmds.drop r.cmds.length).count
        Cmd.LBufferPass_Render = 1) ∧
    (((r.ExecuteSolidForwardPipeline scene camera).cmds.drop r.cmds.length).take 2
        = [Cmd.LBufferPass_Render, Cmd.BindViewport camera.GetSSViewport] ∧
      ((r.ExecuteSolidForwardPipeline scene camera).cmds.drop r.cmds.length).count
        Cmd.LBufferPass_Render = 1) := by
  refine ⟨?_, ?_, ?_⟩
  · rw [ExecuteForwardPipeline_cmds, List.drop_left]
    simp [List.count_cons]
  · rw [ExecuteDeferredPipeline_cmds, List.drop_left]
    cases r.display_configuration.UsesMSAA <;> simp [List.count_cons]
  · rw [ExecuteSolidForwardPipeline_cmds, List.drop_left]
    simp [List.count_cons]

end Renderer

namespace Renderer

theorem ExecuteAAPipeline_display_configuration (r : Renderer) (camera : Camera) :
    (r.ExecuteAAPipeline camera).display_configuration = r.display_configuration := by
  unfold ExecuteAAPipeline
  cases r.display_configuration.GetAADescriptor <;> rfl

theorem Render_postprocessing_display_configuration (r : Renderer) (camera : Camera) :
    (r.Render_postprocessing camera).display_configuration = r.display_configuration := by
  unfold Render_postprocessing
  cases camera.GetLens.HasFiniteAperture <;> rfl

theorem Render_camera_display_configuration (scene : Scene) (r : Renderer) (camera : Camera) :
    (Render_camera scene r camera).display_configuration = r.display_configuration := by
  unfold Render_camera
  by_cases ha : State.Active ≠ camera.GetState
  · simp [ha]
  · simp only [ha, if_false, Render_postprocessing_display_configuration,
      ExecuteAAPipeline_display_configuration, callOutputManager_display_configuration,
      Render_layers_display_configuration, Render_mode_display_configuration,
      issue_display_configuration]

theorem issue_maximum_viewport (r : Renderer) (c : Cmd) :
    (r.issue c).m_maximum_viewport = r.m_maximum_viewport := rfl

theorem callOutputManager_maximum_viewport (r : Renderer) (call : OutputManagerCall) :
    (r.callOutputManager call).m_maximum_viewport = r.m_maximum_viewport := rfl

theorem Render_mode_maximum_viewport (r : Renderer) (scene : Scene) (camera : Camera) :
    (r.Render_mode scene camera).m_maximum_viewport = r.m_maximum_viewport := by
  unfold Render_mode
  cases hm : camera.GetSettings.GetRenderMode <;>
    cases hu : r.display_configuration.UsesMSAA <;>
      simp [ExecuteForwardPipeline, ExecuteDeferredPipeline, ExecuteSolidForwardPipeline,
        issue_display_configuration, callOutputManager_display_configuration,
        issue_maximum_viewport, callOutputManager_maximum_viewport, hu, hm]

theorem Render_layers_maximum_viewport (r : Renderer) (camera : Camera) :
    (r.Render_layers camera).m_maximum_viewport = r.m_maximum_viewport := by
  unfold Render_layers
  cases camera.GetSettings.ContainsRenderLayer RenderLayer.Wireframe <;>
    cases camera.GetSettings.ContainsRenderLayer RenderLayer.AABB <;> rfl

theorem ExecuteAAPipeline_maximum_viewport (r : Renderer) (camera : Camera) :
    (r.ExecuteAAPipeline camera).m_maximum_viewport = r.m_maximum_viewport := by
  unfold ExecuteAAPipeline
  cases r.display_configuration.GetAADescriptor <;> rfl

theorem Render_postprocessing_maximum_viewport (r : Renderer) (camera : Camera) :
    (r.Render_postprocessing camera).m_maximum_viewport = r.m_maximum_viewport := by
  unfold Render_postprocessing
  cases camera.GetLens.HasFiniteAperture <;> rfl

theorem Render_camera_maximum_viewport (scene : Scene) (r : Renderer) (camera : Camera) :
    (Render_camera scene r camera).m_maximum_viewport = r.m_maximum_viewport := by
  unfold Render_camera
  by_cases ha : State.Active ≠ camera.GetState
  · simp [ha]
  · simp only [ha, if_false, Render_postprocessing_maximum_viewport,
      ExecuteAAPipeline_maximum_viewport, callOutputManager_maximum_viewport,
      Render_layers_maximum_viewport, Render_mode_maximum_viewport, issue_maximum_viewport]

theorem foldl_Render_camera (scene : Scene) (cameras : List Camera) (r : Renderer) :
    (cameras.foldl (Render_camera scene) r).cmds
        = r.cmds ++ cameras.flatMap
            (camera_cmds r.display_configuration.UsesMSAA
              r.display_configuration.GetAADescriptor) ∧
    (cameras.foldl (Render_camera scene) r).display_configuration
        = r.display_configuration ∧
    (cameras.foldl (Render_camera scene) r).m_maximum_viewport = r.m_maximum_viewport := by
  induction cameras generalizing r with
  | nil => simp
  | cons c cs ih =>
    obtain ⟨h1, h2, h3⟩ := ih (Render_camera scene r c)
    simp only [List.foldl_cons, List.flatMap_cons]
    refine ⟨?_, ?_, ?_⟩
    · rw [h1, Render_camera_cmds, Render_camera_display_configuration, List.append_assoc]
    · rw [h2, Render_camera_display_configuration]
    · rw [h3, Render_camera_maximum_viewport]

theorem Render_cmds (r : Renderer) (scene : Scene) :
    (r.Render scene).cmds = r.cmds ++
      scene.m_cameras.flatMap
        (camera_cmds r.display_configuration.UsesMSAA
          r.display_configuration.GetAADescriptor) ++
      [Cmd.BindViewport r.m_maximum_viewport, Cmd.SpritePass_BindFixedState,
       Cmd.SpritePass_Render] := by
  obtain ⟨h1, _, h3⟩ := foldl_Render_camera scene scene.m_cameras r
  simp only [Render, Scene.ForEach_Camera, issue_cmds, issue_maximum_viewport, h1, h3,
    List.append_assoc]
  rfl

theorem count_eq_zero_of_all {p : Cmd → Bool} {l : List Cmd} {c : Cmd}
    (h : l.all (fun x => !p x) = true) (hc : p c = true) : l.count c = 0 := by
  rw [List.count_eq_zero]
  intro hmem
  have := List.all_eq_true.mp h c hmem
  simp [hc] at this

theorem mode_cmds_overlay (uses_msaa : Bool) (camera : Camera) :
    (mode_cmds uses_msaa camera).all (fun c => !(c.isOverlay || c.isSpritePass)) = true := by
  unfold mode_cmds
  cases camera.GetSettings.GetRenderMode <;> cases uses_msaa <;>
    simp [Cmd.isOverlay, Cmd.isSpritePass]

theorem aa_cmds_overlay (desc : AADescriptor) (camera : Camera) :
    (aa_cmds desc camera).all (fun c => !(c.isOverlay || c.isSpritePass)) = true := by
  unfold aa_cmds
  cases desc <;> simp [Cmd.isOverlay, Cmd.isSpritePass]

theorem postprocessing_cmds_overlay (camera : Camera) :
    (postprocessing_cmds camera).all (fun c => !(c.isOverlay || c.isSpritePass)) = true := by
  unfold postprocessing_cmds
  cases camera.GetLens.HasFiniteAperture <;> simp [Cmd.isOverlay, Cmd.isSpritePass]

theorem layers_cmds_sprite (camera : Camera) :
    (layers_cmds camera).all (fun c => !c.isSpritePass) = true := by
  unfold layers_cmds
  cases camera.GetSettings.ContainsRenderLayer RenderLayer.Wireframe <;>
    cases camera.GetSettings.ContainsRenderLayer RenderLayer.AABB <;>
      simp [Cmd.isSpritePass]

theorem layers_cmds_overlay (camera : Camera) :
    (layers_cmds camera).count Cmd.WireframePass_Render
      = (if camera.GetSettings.ContainsRenderLayer RenderLayer.Wireframe then 1 else 0) ∧
    (layers_cmds camera).count Cmd.BoundingVolumePass_Render
      = (if camera.GetSettings.ContainsRenderLayer RenderLayer.AABB then 1 else 0) := by
  unfold layers_cmds
  cases camera.GetSettings.ContainsRenderLayer RenderLayer.Wireframe <;>
    cases camera.GetSettings.ContainsRenderLayer RenderLayer.AABB <;>
      simp [List.count_cons]

theorem all_weaken {p q : Cmd → Bool} {l : List Cmd} (h : l.all (fun x => !(p x || q x)) = true) :
    l.all (fun x => !q x) = true := by
  rw [List.all_eq_true] at h ⊢
  intro x hx
  have := h x hx
  simp at this ⊢
  exact this.2

theorem all_weaken_left {p q : Cmd → Bool} {l : List Cmd}
    (h : l.all (fun x => !(p x || q x)) = true) : l.all (fun x => !p x) = true := by
  rw [List.all_eq_true] at h ⊢
  intro x hx
  have := h x hx
  simp at this ⊢
  exact this.1

theorem camera_cmds_sprite (uses_msaa : Bool) (desc : AADescriptor) (camera : Camera) :
    (camera_cmds uses_msaa desc camera).all (fun c => !c.isSpritePass) = true := by
  have hm := all_weaken (mode_cmds_overlay uses_msaa camera)
  have hl := layers_cmds_sprite camera
  have ha := all_weaken (aa_cmds_overlay desc camera)
  have hp := all_weaken (postprocessing_cmds_overlay camera)
  unfold camera_cmds
  by_cases hact : State.Active ≠ camera.GetState
  · simp [hact]
  · simp only [hact, if_false, scene_cmds, List.all_append, hm, hl, ha, hp]
    simp [Cmd.isSpritePass]

theorem flatMap_all {α : Type} (f : α → List Cmd) (p : Cmd → Bool)
    (l : List α) (h : ∀ a, (f a).all p = true) : (l.flatMap f).all p = true := by
  induction l with
  | nil => simp
  | cons a as ih => simp only [List.flatMap_cons, List.all_append, h a, ih, Bool.and_self]

end Renderer

namespace Renderer

/-- C18: the commands `Renderer` issues for an active camera are `BindBegin`,
the camera buffer upload, the commands of the primary mode, then the wireframe
pass iff the `Wireframe` layer is set, then the bounding-volume pass iff the
`AABB` layer is set, then `BindEndForward`, the anti-aliasing step and the
post-processing step; no command of the primary mode, of the anti-aliasing
step or of the post-processing step belongs to an overlay pass, so the
wireframe pass is rendered once iff its flag is set and the bounding-volume
pass once iff its flag is set, whatever the render mode and the other flag. -/
theorem overlays_after_primary_mode (scene : Scene) (r : Renderer) (camera : Camera)
    (hactive : camera.GetState = State.Active) :
    ((Render_camera scene r camera).cmds = r.cmds ++
      [Cmd.OutputManager OutputManagerCall.BindBegin, Cmd.BindCameraBuffer camera] ++
      (r.Render_mode scene camera).cmds.drop r.cmds.length ++
      (if camera.GetSettings.ContainsRenderLayer RenderLayer.Wireframe then
        [Cmd.WireframePass_BindFixedState, Cmd.WireframePass_Render] else []) ++
      (if camera.GetSettings.ContainsRenderLayer RenderLayer.AABB then
        [Cmd.BoundingVolumePass_BindFixedState, Cmd.BoundingVolumePass_Render] else []) ++
      [Cmd.OutputManager OutputManagerCall.BindEndForward] ++
      (r.ExecuteAAPipeline camera).cmds.drop r.cmds.length ++
      (r.Render_postprocessing camera).cmds.drop r.cmds.length) ∧
    (((r.Render_mode scene camera).cmds.drop r.cmds.length).all
        (fun c => !c.isOverlay) = true ∧
      ((r.ExecuteAAPipeline camera).cmds.drop r.cmds.length).all
        (fun c => !c.isOverlay) = true ∧
      ((r.Render_postprocessing camera).cmds.drop r.cmds.length).all
        (fun c => !c.isOverlay) = true) ∧
    (((Render_camera scene r camera).cmds.drop r.cmds.length).count Cmd.WireframePass_Render
      = (if camera.GetSettings.ContainsRenderLayer RenderLayer.Wireframe then 1 else 0)) ∧
    (((Render_camera scene r camera).cmds.drop r.cmds.length).count
        Cmd.BoundingVolumePass_Render
      = (if camera.GetSettings.ContainsRenderLayer RenderLayer.AABB then 1 else 0)) := by
  have hact : ¬ (State.Active ≠ camera.GetState) := by simp [hactive]
  have hm := all_weaken_left (mode_cmds_overlay r.display_configuration.UsesMSAA camera)
  have ha := all_weaken_left (aa_cmds_overlay r.display_configuration.GetAADescriptor camera)
  have hp := all_weaken_left (postprocessing_cmds_overlay camera)
  have hl := layers_cmds_overlay camera
  rw [Render_camera_cmds, Render_mode_cmds, ExecuteAAPipeline_cmds, Render_postprocessing_cmds]
  simp only [List.drop_left, camera_cmds, hact, if_false, scene_cmds]
  refine ⟨?_, ⟨hm, ha, hp⟩, ?_, ?_⟩
  · simp [layers_cmds, List.append_assoc]
  · simp [List.count_append, List.count_cons, hl.1,
      count_eq_zero_of_all hm (c := Cmd.WireframePass_Render) rfl,
      count_eq_zero_of_all ha (c := Cmd.WireframePass_Render) rfl,
      count_eq_zero_of_all hp (c := Cmd.WireframePass_Render) rfl]
  · simp [List.count_append, List.count_cons, hl.2,
      count_eq_zero_of_all hm (c := Cmd.BoundingVolumePass_Render) rfl,
      count_eq_zero_of_all ha (c := Cmd.BoundingVolumePass_Render) rfl,
      count_eq_zero_of_all hp (c := Cmd.BoundingVolumePass_Render) rfl]

theorem overlays_after_primary_mode_witness :
    (example_camera RenderMode.Solid false).GetState = State.Active ∧
    (((Render_camera ⟨[]⟩ (example_renderer AADescriptor.None)
          (example_camera RenderMode.Solid false)).cmds.drop
          (example_renderer AADescriptor.None).cmds.length).count Cmd.WireframePass_Render
      = 1) :=
  ⟨rfl,
    (overlays_after_primary_mode ⟨[]⟩ (example_renderer AADescriptor.None)
      (example_camera RenderMode.Solid false) rfl).2.2.1⟩

/-- C20: for every scene, `Render` issues the commands of the cameras and then
binds the maximum viewport, binds the fixed state of the sprite pass and
renders the sprite pass, these three being its last commands; the sprite pass
is bound and rendered exactly once in the call; and for a scene without an
active camera these three commands are all that is issued. -/
theorem sprite_pass_once_and_last (r : Renderer) (scene : Scene) :
    ((r.Render scene).cmds = (scene.ForEach_Camera (Render_camera scene) r).cmds ++
      [Cmd.BindViewport r.m_maximum_viewport, Cmd.SpritePass_BindFixedState,
       Cmd.SpritePass_Render]) ∧
    (r.cmds <+: (scene.ForEach_Camera (Render_camera scene) r).cmds) ∧
    (((r.Render scene).cmds.drop r.cmds.length).count Cmd.SpritePass_Render = 1) ∧
    (((r.Render scene).cmds.drop r.cmds.length).count Cmd.SpritePass_BindFixedState = 1) ∧
    (if scene.m_cameras.all (fun c => decide (c.GetState ≠ State.Active)) = true then
      (r.Render scene).cmds = r.cmds ++
        [Cmd.BindViewport r.m_maximum_viewport, Cmd.SpritePass_BindFixedState,
         Cmd.SpritePass_Render]
     else True) := by
  obtain ⟨h1, _, _⟩ := foldl_Render_camera scene scene.m_cameras r
  have hall := flatMap_all
    (camera_cmds r.display_configuration.UsesMSAA r.display_configuration.GetAADescriptor)
    (fun c => !c.isSpritePass) scene.m_cameras
    (camera_cmds_sprite r.display_configuration.UsesMSAA
      r.display_configuration.GetAADescriptor)
  refine ⟨?_, ?_, ?_, ?_, ?_⟩
  · rw [Render_cmds]
    simp only [Scene.ForEach_Camera, h1]
  · simp only [Scene.ForEach_Camera, h1]
    exact ⟨_, rfl⟩
  · rw [Render_cmds, List.append_assoc, List.drop_left]
    simp [List.count_append, List.count_cons,
      count_eq_zero_of_all hall (c := Cmd.SpritePass_Render) rfl]
  · rw [Render_cmds, List.append_assoc, List.drop_left]
    simp [List.count_append, List.count_cons,
      count_eq_zero_of_all hall (c := Cmd.SpritePass_BindFixedState) rfl]
  · split
    · rename_i hinactive
      rw [Render_cmds]
      have hnil : scene.m_cameras.flatMap
          (camera_cmds r.display_configuration.UsesMSAA
            r.display_configuration.GetAADescriptor) = [] := by
        rw [List.flatMap_eq_nil_iff]
        intro c hc
        have hstate := List.all_eq_true.mp hinactive c hc
        have hne : State.Active ≠ c.GetState := fun h => (of_decide_eq_true hstate) h.symm
        simp [camera_cmds, hne]
      rw [hnil, List.append_nil]
    · trivial

end Renderer

/-! ## Symmetry of the phase operations -/

namespace OutputManager

theorem bindSlots_apply (slots : Nat → Option View) (start nb : Nat)
    (views : List (Option View)) (s : Nat) :
    bindSlots slots start nb views s =
      if start ≤ s ∧ s < start + nb then views.getD (s - start) none else slots s := rfl

theorem getD_none4 (k : Nat) :
    ([none, none, none, none] : List (Option View))[k]?.getD none = none := by
  rcases k with _ | _ | _ | _ | k <;> simp

theorem getD_none3 (k : Nat) :
    ([none, none, none] : List (Option View))[k]?.getD none = none := by
  rcases k with _ | _ | _ | k <;> simp

/-- C12: for each of the pairs GBuffer, Deferred (with and without MSAA),
Forward and Resolve, the state after `BindBeginX` followed by `BindEndX` has
every slot that `BindBeginX` wrote bound to null and every other slot as it
was before the phase: after the GBuffer and the Forward phase the render
target and the depth target are null; after the Deferred phase under MSAA the
four pixel-shader G-buffer slots, the render target and the depth target are
null, and without MSAA the four compute G-buffer slots and the compute image
read-write slot are null; after the Resolve phase the compute image, normal and
depth read slots and the three compute read-write slots are null. -/
theorem BindEnd_undoes_BindBegin (hlsl : HLSL) (om : OutputManager) (ctx : DeviceContext) :
    -- GBuffer
    (((BindBeginGBuffer om ctx).2.om_rtvs
        = [om.GetRTV RTVIndex.GBuffer_BaseColor, om.GetRTV RTVIndex.GBuffer_Material,
           om.GetRTV RTVIndex.GBuffer_Normal] ∧
      (BindBeginGBuffer om ctx).2.om_dsv = om.m_dsv) ∧
     ((BindEndGBuffer (BindBeginGBuffer om ctx).1 (BindBeginGBuffer om ctx).2).2.om_rtvs
        = [none] ∧
      (BindEndGBuffer (BindBeginGBuffer om ctx).1 (BindBeginGBuffer om ctx).2).2.om_dsv
        = none ∧
      (BindEndGBuffer (BindBeginGBuffer om ctx).1 (BindBeginGBuffer om ctx).2).2.ps_srvs
        = ctx.ps_srvs ∧
      (BindEndGBuffer (BindBeginGBuffer om ctx).1 (BindBeginGBuffer om ctx).2).2.cs_srvs
        = ctx.cs_srvs ∧
      (BindEndGBuffer (BindBeginGBuffer om ctx).1 (BindBeginGBuffer om ctx).2).2.cs_uavs
        = ctx.cs_uavs)) ∧
    -- Forward
    (((BindBeginForward om ctx).2.om_rtvs
        = [om.GetRTV RTVIndex.HDR, om.GetRTV RTVIndex.GBuffer_Normal] ∧
      (BindBeginForward om ctx).2.om_dsv = om.m_dsv) ∧
     ((BindEndForward (BindBeginForward om ctx).1 (BindBeginForward om ctx).2).2.om_rtvs
        = [none] ∧
      (BindEndForward (BindBeginForward om ctx).1 (BindBeginForward om ctx).2).2.om_dsv
        = none ∧
      (BindEndForward (BindBeginForward om ctx).1 (BindBeginForward om ctx).2).2.ps_srvs
        = ctx.ps_srvs ∧
      (BindEndForward (BindBeginForward om ctx).1 (BindBeginForward om ctx).2).2.cs_srvs
        = ctx.cs_srvs ∧
      (BindEndForward (BindBeginForward om ctx).1 (BindBeginForward om ctx).2).2.cs_uavs
        = ctx.cs_uavs)) ∧
    -- Deferred
    (if om.m_msaa then
      ((BindBeginDeferred hlsl om ctx).2.om_rtvs = [om.GetRTV RTVIndex.HDR] ∧
        (BindBeginDeferred hlsl om ctx).2.ps_srvs
          = (fun s =>
              if hlsl.SLOT_SRV_BASE_COLOR ≤ s ∧ s < hlsl.SLOT_SRV_BASE_COLOR + 4 then
                [om.GetSRV SRVIndex.GBuffer_BaseColor, om.GetSRV SRVIndex.GBuffer_Material,
                 om.GetSRV SRVIndex.GBuffer_Normal, om.GetSRV SRVIndex.GBuffer_Depth].getD
                  (s - hlsl.SLOT_SRV_BASE_COLOR) none
              else ctx.ps_srvs s)) ∧
      ((BindEndDeferred hlsl (BindBeginDeferred hlsl om ctx).1
          (BindBeginDeferred hlsl om ctx).2).2.om_rtvs = [none] ∧
        (BindEndDeferred hlsl (BindBeginDeferred hlsl om ctx).1
          (BindBeginDeferred hlsl om ctx).2).2.om_dsv = none ∧
        (BindEndDeferred hlsl (BindBeginDeferred hlsl om ctx).1
          (BindBeginDeferred hlsl om ctx).2).2.ps_srvs
          = (fun s =>
              if hlsl.SLOT_SRV_BASE_COLOR ≤ s ∧ s < hlsl.SLOT_SRV_BASE_COLOR + 4 then none
              else ctx.ps_srvs s) ∧
        (BindEndDeferred hlsl (BindBeginDeferred hlsl om ctx).1
          (BindBeginDeferred hlsl om ctx).2).2.cs_srvs = ctx.cs_srvs ∧
        (BindEndDeferred hlsl (BindBeginDeferred hlsl om ctx).1
          (BindBeginDeferred hlsl om ctx).2).2.cs_uavs = ctx.cs_uavs)
     else
      ((BindBeginDeferred hlsl om ctx).2.cs_uavs hlsl.SLOT_UAV_IMAGE
          = om.GetUAV UAVIndex.HDR ∧
        (BindBeginDeferred hlsl om ctx).2.cs_srvs
          = (fun s =>
              if hlsl.SLOT_SRV_BASE_COLOR ≤ s ∧ s < hlsl.SLOT_SRV_BASE_COLOR + 4 then
                [om.GetSRV SRVIndex.GBuffer_BaseColor, om.GetSRV SRVIndex.GBuffer_Material,
                 om.GetSRV SRVIndex.GBuffer_Normal, om.GetSRV SRVIndex.GBuffer_Depth].getD
                  (s - hlsl.SLOT_SRV_BASE_COLOR) none
              else ctx.cs_srvs s)) ∧
      ((BindEndDeferred hlsl (BindBeginDeferred hlsl om ctx).1
          (BindBeginDeferred hlsl om ctx).2).2.cs_srvs
          = (fun s =>
              if hlsl.SLOT_SRV_BASE_COLOR ≤ s ∧ s < hlsl.SLOT_SRV_BASE_COLOR + 4 then none
              else ctx.cs_srvs s) ∧
        (BindEndDeferred hlsl (BindBeginDeferred hlsl om ctx).1
          (BindBeginDeferred hlsl om ctx).2).2.cs_uavs
          = (fun s => if s = hlsl.SLOT_UAV_IMAGE then none else ctx.cs_uavs s) ∧
        (BindEndDeferred hlsl (BindBeginDeferred hlsl om ctx).1
          (BindBeginDeferred hlsl om ctx).2).2.ps_srvs = ctx.ps_srvs ∧
        (BindEndDeferred hlsl (BindBeginDeferred hlsl om ctx).1
          (BindBeginDeferred hlsl om ctx).2).2.om_rtvs = ctx.om_rtvs ∧
        (BindEndDeferred hlsl (BindBeginDeferred hlsl om ctx).1
          (BindBeginDeferred hlsl om ctx).2).2.om_dsv = ctx.om_dsv)) ∧
    -- Resolve
    (((BindBeginResolve hlsl om ctx).2.cs_uavs
        = (fun s =>
            if hlsl.SLOT_UAV_IMAGE ≤ s ∧ s < hlsl.SLOT_UAV_IMAGE + 3 then
              [om.GetUAV UAVIndex.PostProcessing_HDR0,
               om.GetUAV UAVIndex.PostProcessing_Normal,
               om.GetUAV UAVIndex.PostProcessing_Depth].getD (s - hlsl.SLOT_UAV_IMAGE) none
            else ctx.cs_uavs s) ∧
      (BindBeginResolve hlsl om ctx).2.cs_srvs
        = (fun s =>
            if s = hlsl.SLOT_SRV_DEPTH then om.GetSRV SRVIndex.GBuffer_Depth
            else if s = hlsl.SLOT_SRV_NORMAL then om.GetSRV SRVIndex.GBuffer_Normal
            else if s = hlsl.SLOT_SRV_IMAGE then om.GetSRV SRVIndex.HDR
            else ctx.cs_srvs s)) ∧
     ((BindEndResolve hlsl (BindBeginResolve hlsl om ctx).1
          (BindBeginResolve hlsl om ctx).2).2.cs_srvs
        = (fun s =>
            if s = hlsl.SLOT_SRV_IMAGE ∨ s = hlsl.SLOT_SRV_NORMAL ∨ s = hlsl.SLOT_SRV_DEPTH
            then none else ctx.cs_srvs s) ∧
      (BindEndResolve hlsl (BindBeginResolve hlsl om ctx).1
          (BindBeginResolve hlsl om ctx).2).2.cs_uavs
        = (fun s =>
            if hlsl.SLOT_UAV_IMAGE ≤ s ∧ s < hlsl.SLOT_UAV_IMAGE + 3 then none
            else ctx.cs_uavs s) ∧
      (BindEndResolve hlsl (BindBeginResolve hlsl om ctx).1
          (BindBeginResolve hlsl om ctx).2).2.ps_srvs = ctx.ps_srvs ∧
      (BindEndResolve hlsl (BindBeginResolve hlsl om ctx).1
          (BindBeginResolve hlsl om ctx).2).2.om_rtvs = ctx.om_rtvs ∧
      (BindEndResolve hlsl (BindBeginResolve hlsl om ctx).1
          (BindBeginResolve hlsl om ctx).2).2.om_dsv = ctx.om_dsv)) := by
  have e1 : ∀ a s : Nat, (a ≤ s ∧ s < a + 1) ↔ s = a := by intro a s; omega
  refine ⟨?_, ?_, ?_, ?_⟩
  · simp [BindBeginGBuffer, BindEndGBuffer, Pipeline.OM.BindRTVAndDSV,
      Pipeline.OM.BindRTVsAndDSV]
  · simp [BindBeginForward, BindEndForward, Pipeline.OM.BindRTVAndDSV,
      Pipeline.OM.BindRTVsAndDSV]
  · cases hm : om.m_msaa
    · simp only [Bool.false_eq_true, if_false]
      refine ⟨⟨?_, ?_⟩, ?_, ?_, ?_, ?_, ?_⟩
      · simp [BindBeginDeferred, hm, Pipeline.CS.BindSRVs, Pipeline.CS.BindUAV,
          Pipeline.CS.BindUAVs, bindSlots_apply]
      · funext s
        simp [BindBeginDeferred, hm, Pipeline.CS.BindSRVs, Pipeline.CS.BindUAV,
          Pipeline.CS.BindUAVs, bindSlots_apply]
      · funext s
        simp [BindBeginDeferred, BindEndDeferred, hm, Pipeline.CS.BindSRVs,
          Pipeline.CS.BindUAV, Pipeline.CS.BindUAVs, bindSlots_apply]
        split_ifs <;> simp_all [getD_none4]
      · funext s
        simp [BindBeginDeferred, BindEndDeferred, hm, Pipeline.CS.BindSRVs,
          Pipeline.CS.BindUAV, Pipeline.CS.BindUAVs, bindSlots_apply, e1]
        split_ifs <;> simp_all
      · simp [BindBeginDeferred, BindEndDeferred, hm, Pipeline.CS.BindSRVs,
          Pipeline.CS.BindUAV, Pipeline.CS.BindUAVs]
      · simp [BindBeginDeferred, BindEndDeferred, hm, Pipeline.CS.BindSRVs,
          Pipeline.CS.BindUAV, Pipeline.CS.BindUAVs]
      · simp [BindBeginDeferred, BindEndDeferred, hm, Pipeline.CS.BindSRVs,
          Pipeline.CS.BindUAV, Pipeline.CS.BindUAVs]
    · simp only [if_true]
      refine ⟨⟨?_, ?_⟩, ?_, ?_, ?_, ?_, ?_⟩
      · simp [BindBeginDeferred, hm, Pipeline.PS.BindSRVs, Pipeline.OM.BindRTVAndDSV,
          Pipeline.OM.BindRTVsAndDSV]
      · funext s
        simp [BindBeginDeferred, hm, Pipeline.PS.BindSRVs, Pipeline.OM.BindRTVAndDSV,
          Pipeline.OM.BindRTVsAndDSV, bindSlots_apply]
      · simp [BindBeginDeferred, BindEndDeferred, hm, Pipeline.PS.BindSRVs,
          Pipeline.OM.BindRTVAndDSV, Pipeline.OM.BindRTVsAndDSV]
      · simp [BindBeginDeferred, BindEndDeferred, hm, Pipeline.PS.BindSRVs,
          Pipeline.OM.BindRTVAndDSV, Pipeline.OM.BindRTVsAndDSV]
      · funext s
        simp [BindBeginDeferred, BindEndDeferred, hm, Pipeline.PS.BindSRVs,
          Pipeline.OM.BindRTVAndDSV, Pipeline.OM.BindRTVsAndDSV, bindSlots_apply]
        split_ifs <;> simp_all [getD_none4]
      · simp [BindBeginDeferred, BindEndDeferred, hm, Pipeline.PS.BindSRVs,
          Pipeline.OM.BindRTVAndDSV, Pipeline.OM.BindRTVsAndDSV]
      · simp [BindBeginDeferred, BindEndDeferred, hm, Pipeline.PS.BindSRVs,
          Pipeline.OM.BindRTVAndDSV, Pipeline.OM.BindRTVsAndDSV]
  · refine ⟨⟨?_, ?_⟩, ?_, ?_, ?_, ?_, ?_⟩
    · funext s
      simp [BindBeginResolve, Pipeline.CS.BindSRV, Pipeline.CS.BindSRVs,
        Pipeline.CS.BindUAVs, bindSlots_apply]
    · funext s
      simp [BindBeginResolve, Pipeline.CS.BindSRV, Pipeline.CS.BindSRVs,
        Pipeline.CS.BindUAVs, bindSlots_apply, e1]
      split_ifs <;> simp_all
    · funext s
      simp only [BindBeginResolve, BindEndResolve, Pipeline.CS.BindSRV, Pipeline.CS.BindSRVs,
        Pipeline.CS.BindUAVs, bindSlots_apply, e1]
      split_ifs <;> simp_all
    · funext s
      simp only [BindBeginResolve, BindEndResolve, Pipeline.CS.BindSRV, Pipeline.CS.BindSRVs,
        Pipeline.CS.BindUAVs, bindSlots_apply]
      split_ifs <;> simp_all [getD_none3]
    · simp [BindBeginResolve, BindEndResolve, Pipeline.CS.BindSRV, Pipeline.CS.BindSRVs,
        Pipeline.CS.BindUAVs]
    · simp [BindBeginResolve, BindEndResolve, Pipeline.CS.BindSRV, Pipeline.CS.BindSRVs,
        Pipeline.CS.BindUAVs]
    · simp [BindBeginResolve, BindEndResolve, Pipeline.CS.BindSRV, Pipeline.CS.BindSRVs,
        Pipeline.CS.BindUAVs]

end OutputManager

/-! ## GBuffer packing and unpacking -/

namespace GBuffer

theorem collectAndClear_fst (ctx : DeviceContext) (rtvs : List (Option View)) :
    (collectAndClear ctx rtvs).1 = rtvs := by
  induction rtvs generalizing ctx with
  | nil => rfl
  | cons v vs ih => simp [collectAndClear, ih]

theorem collectAndClear_snd (ctx : DeviceContext) (rtvs : List (Option View)) :
    (collectAndClear ctx rtvs).2 = { ctx with cleared := ctx.cleared ++ rtvs } := by
  induction rtvs generalizing ctx with
  | nil => simp [collectAndClear]
  | cons v vs ih => simp [collectAndClear, ih, Pipeline.OM.ClearRTV]

theorem range_map_bindSlots (slots : Nat → Option View) (start : Nat)
    (views : List (Option View)) :
    (List.range views.length).map (fun i => bindSlots slots start views.length views (start + i))
      = views := by
  apply List.ext_getElem
  · simp
  · intro i h1 h2
    have hi : i < views.length := h2
    simp [bindSlots, hi]

theorem runCalls_append (start : Nat) (g : GBuffer) (calls : List BindCall) (c : BindCall)
    (ctx : DeviceContext) :
    runCalls start g (calls ++ [c]) ctx = c.run start g (runCalls start g calls ctx) := by
  induction calls generalizing ctx with
  | nil => rfl
  | cons d ds ih => simp [runCalls, ih]

theorem bindings_BindPacking (start : Nat) (g : GBuffer) (ctx : DeviceContext) :
    g.bindings start (g.BindPacking start ctx)
      = (g.m_rtvs, g.m_dsv, List.replicate g.GetNumberOfSRVs none,
          List.replicate g.GetNumberOfSRVs none) := by
  have h := range_map_bindSlots
  have hps := range_map_bindSlots ctx.ps_srvs start (List.replicate g.m_srvs.length none)
  have hcs := range_map_bindSlots ctx.cs_srvs start (List.replicate g.m_srvs.length none)
  simp only [List.length_replicate] at hps hcs
  simp [bindings, BindPacking, collectAndClear_fst, collectAndClear_snd,
    Pipeline.OM.BindRTVsAndDSV, Pipeline.OM.ClearDSV, Pipeline.PS.BindSRVs,
    Pipeline.CS.BindSRVs, GetNumberOfSRVs, GetNumberOfRTVs, hps, hcs]

theorem bindings_BindUnpacking (start : Nat) (g : GBuffer) (ctx : DeviceContext) :
    g.bindings start (g.BindUnpacking start ctx) = ([none], none, g.m_srvs, g.m_srvs) := by
  have hps := range_map_bindSlots ctx.ps_srvs start g.m_srvs
  have hcs := range_map_bindSlots ctx.cs_srvs start g.m_srvs
  simp [bindings, BindUnpacking, Pipeline.OM.BindRTVAndDSV, Pipeline.OM.BindRTVsAndDSV,
    Pipeline.PS.BindSRVs, Pipeline.CS.BindSRVs, GetNumberOfSRVs, hps, hcs]

/-- C13: after `BindPacking` the G-buffer shader-input slots of the pixel and
of the compute stage are null and the bound write targets are the colour
surfaces and the depth surface; after `BindUnpacking` no write target is bound
and the G-buffer read views are bound to both stages; after any finite
sequence of the two calls the bindings are those the last call alone leaves
from any device context, and either no write target is bound or all G-buffer
shader-input slots are null. -/
theorem packing_unpacking_exclusive (SLOT_SRV_GBUFFER_START : Nat) (g : GBuffer)
    (ctx ctx2 : DeviceContext) (calls : List BindCall) (last : BindCall) :
    (g.bindings SLOT_SRV_GBUFFER_START (g.BindPacking SLOT_SRV_GBUFFER_START ctx)
      = (g.m_rtvs, g.m_dsv, List.replicate g.GetNumberOfSRVs none,
          List.replicate g.GetNumberOfSRVs none)) ∧
    (g.bindings SLOT_SRV_GBUFFER_START (g.BindUnpacking SLOT_SRV_GBUFFER_START ctx)
      = ([none], none, g.m_srvs, g.m_srvs)) ∧
    (g.bindings SLOT_SRV_GBUFFER_START
        (runCalls SLOT_SRV_GBUFFER_START g (calls ++ [last]) ctx)
      = g.bindings SLOT_SRV_GBUFFER_START (last.run SLOT_SRV_GBUFFER_START g ctx2)) ∧
    (((g.bindings SLOT_SRV_GBUFFER_START
          (runCalls SLOT_SRV_GBUFFER_START g (calls ++ [last]) ctx)).1 = [none] ∧
        (g.bindings SLOT_SRV_GBUFFER_START
          (runCalls SLOT_SRV_GBUFFER_START g (calls ++ [last]) ctx)).2.1 = none) ∨
      ((g.bindings SLOT_SRV_GBUFFER_START
          (runCalls SLOT_SRV_GBUFFER_START g (calls ++ [last]) ctx)).2.2.1
          = List.replicate g.GetNumberOfSRVs none ∧
        (g.bindings SLOT_SRV_GBUFFER_START
          (runCalls SLOT_SRV_GBUFFER_START g (calls ++ [last]) ctx)).2.2.2
          = List.replicate g.GetNumberOfSRVs none)) := by
  refine ⟨bindings_BindPacking _ g ctx, bindings_BindUnpacking _ g ctx, ?_, ?_⟩
  · rw [runCalls_append]
    cases last
    · simp only [BindCall.run, bindings_BindPacking]
    · simp only [BindCall.run, bindings_BindUnpacking]
  · rw [runCalls_append]
    cases last
    · right
      simp only [BindCall.run, bindings_BindPacking, and_self]
    · left
      simp only [BindCall.run, bindings_BindUnpacking, and_self]

end GBuffer

/-! ## Fall-through of the depth pre-pass in SceneRenderer -/

namespace SceneRenderer

/-- C11: in `SceneRenderer::Render`, what is done for `DepthAndSolid` is the
depth pre-pass (bind the depth-only target, render the depth pass, restore the
back-buffer target and depth) followed by exactly what is done for `Solid`
(lighting-buffer update, bind to the graphics pipeline, constant shading
pass), and likewise `DepthAndForward` is the same pre-pass followed by exactly
what is done for `Forward`; for a camera node this gives the command sequences
listed, which for the two modes of a pair differ by the three commands of the
pre-pass only. -/
theorem depth_prepass_then_base_pipeline (r : SceneRenderer) (node : CameraNode) :
    (r.Render_mode RenderMode.DepthAndSolid
      = (((r.issue (Cmd.OM_BindRTVAndDSV none r.renderer_depth_buffer_dsv)).issue
          Cmd.DepthPass_Render).issue Cmd.Renderer_BindRTVAndDSV).Render_mode
          RenderMode.Solid) ∧
    (r.Render_mode RenderMode.DepthAndForward
      = (((r.issue (Cmd.OM_BindRTVAndDSV none r.renderer_depth_buffer_dsv)).issue
          Cmd.DepthPass_Render).issue Cmd.Renderer_BindRTVAndDSV).Render_mode
          RenderMode.Forward) ∧
    (r.Render_mode RenderMode.Solid
      = Except.ok { r with issued := r.issued ++
          [Cmd.LBuffer_Update, Cmd.LBuffer_BindToGraphicsPipeline,
           Cmd.ConstantShadingPass_Render] }) ∧
    (r.Render_mode RenderMode.Forward
      = Except.ok { r with issued := r.issued ++
          [Cmd.LBuffer_Update, Cmd.LBuffer_BindToGraphicsPipeline,
           Cmd.VariableShadingPass_Render] }) ∧
    (r.Render_node
        { node with m_settings :=
            { node.m_settings with m_render_mode := RenderMode.DepthAndSolid } }
      = Except.ok { r with issued := r.issued ++
          [Cmd.BindViewport node.GetViewport,
           Cmd.OM_BindRTVAndDSV none r.renderer_depth_buffer_dsv,
           Cmd.DepthPass_Render, Cmd.Renderer_BindRTVAndDSV,
           Cmd.LBuffer_Update, Cmd.LBuffer_BindToGraphicsPipeline,
           Cmd.ConstantShadingPass_Render] ++
          (if node.GetSettings.HasRenderLayer RenderLayer.Wireframe then
            [Cmd.WireframePass_Render] else []) ++
          (if node.GetSettings.HasRenderLayer RenderLayer.AABB then
            [Cmd.BoundingVolumePass_Render] else []) }) ∧
    (r.Render_node
        { node with m_settings := { node.m_settings with m_render_mode := RenderMode.Solid } }
      = Except.ok { r with issued := r.issued ++
          [Cmd.BindViewport node.GetViewport,
           Cmd.LBuffer_Update, Cmd.LBuffer_BindToGraphicsPipeline,
           Cmd.ConstantShadingPass_Render] ++
          (if node.GetSettings.HasRenderLayer RenderLayer.Wireframe then
            [Cmd.WireframePass_Render] else []) ++
          (if node.GetSettings.HasRenderLayer RenderLayer.AABB then
            [Cmd.BoundingVolumePass_Render] else []) }) ∧
    (r.Render_node
        { node with m_settings :=
            { node.m_settings with m_render_mode := RenderMode.DepthAndForward } }
      = Except.ok { r with issued := r.issued ++
          [Cmd.BindViewport node.GetViewport,
           Cmd.OM_BindRTVAndDSV none r.renderer_depth_buffer_dsv,
           Cmd.DepthPass_Render, Cmd.Renderer_BindRTVAndDSV,
           Cmd.LBuffer_Update, Cmd.LBuffer_BindToGraphicsPipeline,
           Cmd.VariableShadingPass_Render] ++
          (if node.GetSettings.HasRenderLayer RenderLayer.Wireframe then
            [Cmd.WireframePass_Render] else []) ++
          (if node.GetSettings.HasRenderLayer RenderLayer.AABB then
            [Cmd.BoundingVolumePass_Render] else []) }) ∧
    (r.Render_node
        { node with m_settings :=
            { node.m_settings with m_render_mode := RenderMode.Forward } }
      = Except.ok { r with issued := r.issued ++
          [Cmd.BindViewport node.GetViewport,
           Cmd.LBuffer_Update, Cmd.LBuffer_BindToGraphicsPipeline,
           Cmd.VariableShadingPass_Render] ++
          (if node.GetSettings.HasRenderLayer RenderLayer.Wireframe then
            [Cmd.WireframePass_Render] else []) ++
          (if node.GetSettings.HasRenderLayer RenderLayer.AABB then
            [Cmd.BoundingVolumePass_Render] else []) }) := by
  refine ⟨rfl, rfl, ?_, ?_, ?_, ?_, ?_, ?_⟩
  · simp [Render_mode, Render_Solid, issue]
  · simp [Render_mode, Render_Forward, issue]
  all_goals
    by_cases hw : RenderLayer.Wireframe ∈ node.m_settings.m_render_layers <;>
      by_cases ha : RenderLayer.AABB ∈ node.m_settings.m_render_layers <;>
        simp [Render_node, Render_mode, Render_Solid, Render_Forward, Render_layers, issue,
          CameraNode.GetSettings, CameraNode.GetViewport, CameraSettings.GetRenderMode,
          CameraSettings.HasRenderLayer, hw, ha]

end SceneRenderer

/-! ## Success of a setup -/

namespace OutputManager

end OutputManager

namespace OutputManager

end OutputManager

namespace OutputManager

theorem SetupBuffer_desc_Format (d : Device) (width height nb_samples : Nat)
    (format : DXGI_FORMAT) (rtv : Option RTVIndex) (uav : Option UAVIndex) :
    (SetupBuffer_desc d width height nb_samples format rtv uav).Format = format := rfl

theorem SetupBuffer_desc_unordered_access (d : Device) (width height nb_samples : Nat)
    (format : DXGI_FORMAT) (rtv : Option RTVIndex) (uav : Option UAVIndex) :
    (SetupBuffer_desc d width height nb_samples format rtv uav).BIND_UNORDERED_ACCESS
      = uav.isSome := rfl

theorem SetupBuffer_desc_render_target (d : Device) (width height nb_samples : Nat)
    (format : DXGI_FORMAT) (rtv : Option RTVIndex) (uav : Option UAVIndex) :
    (SetupBuffer_desc d width height nb_samples format rtv uav).BIND_RENDER_TARGET
      = rtv.isSome := rfl

theorem getElem?_length_add {α : Type} (l L : List α) (i : Nat) :
    (l ++ L)[l.length + i]? = L[i]? := by
  simp [List.getElem?_append_right]

theorem getElem?_length_self {α : Type} (l L : List α) :
    (l ++ L)[l.length]? = L[0]? := by
  simp [List.getElem?_append_right]

/-- C14: after a successful setup the `HDR` entry has a read view and a write
view on one texture of its own, requested fifth; that texture has the
super-sampled width and height (those of the depth surface: the display width
and height times the SSAA factor, reduced modulo `2 ^ 32`).  With `MSAA_Nx` it
has `N` samples, is created without the unordered-access flag and the
compute-write view of `HDR` stays null; with every other descriptor it has 1
sample and the compute-write view of `HDR` is a view on the same texture. -/
theorem HDR_surface_allocation (device : Device)
    (display_configuration : DisplayConfiguration) (swap_chain : SwapChain)
    (om : OutputManager)
    (hw : display_configuration.m_display_width < U32_MOD)
    (hh : display_configuration.m_display_height < U32_MOD)
    (h : create device display_configuration swap_chain = Except.ok om) :
    ((om.GetSRV SRVIndex.HDR).map (fun v => (v.texture, v.kind))
        = some (device.textures.length + 4, ViewKind.SRV) ∧
      (om.GetRTV RTVIndex.HDR).map (fun v => (v.texture, v.kind))
        = some (device.textures.length + 4, ViewKind.RTV)) ∧
    (om.surface (om.GetSRV SRVIndex.HDR)).map
        (fun t => (t.extent, t.BIND_SHADER_RESOURCE, t.BIND_RENDER_TARGET))
      = some
          (((display_configuration.m_aa_desc.ssaa_factor
              * display_configuration.m_display_width) % U32_MOD,
            (display_configuration.m_aa_desc.ssaa_factor
              * display_configuration.m_display_height) % U32_MOD,
            display_configuration.m_aa_desc.msaa_samples), true, true) ∧
    (om.surface (om.GetSRV SRVIndex.HDR)).map (fun t => (t.Width, t.Height))
      = (om.surface (om.GetSRV SRVIndex.GBuffer_Depth)).map (fun t => (t.Width, t.Height)) ∧
    (if display_configuration.m_aa_desc.isMSAA then
      om.GetUAV UAVIndex.HDR = none ∧
      (om.surface (om.GetSRV SRVIndex.HDR)).map
          (fun t => (decide (2 ≤ t.SampleDesc_Count), t.BIND_UNORDERED_ACCESS))
        = some (true, false)
     else
      (om.GetUAV UAVIndex.HDR).map (fun v => (v.texture, v.kind))
        = some (device.textures.length + 4, ViewKind.UAV) ∧
      (om.surface (om.GetSRV SRVIndex.HDR)).map
          (fun t => (t.SampleDesc_Count, t.BIND_UNORDERED_ACCESS))
        = some (1, true)) := by
  rw [create_ok h]
  rcases display_configuration with ⟨w, ht, aa, um⟩
  simp only at hw hh
  have hw1 : w % U32_MOD = w := Nat.mod_eq_of_lt hw
  have hh1 : ht % U32_MOD = ht := Nat.mod_eq_of_lt hh
  refine ⟨?_, ?_, ?_, ?_⟩
  all_goals
    cases aa <;>
      simp [surface, TextureDesc.extent, GetSRV, GetRTV, GetUAV, SetupBuffers_done,
        SetupBuffers_switch, initial, setSRV,
        setRTV, setUAV, DisplayConfiguration.GetAADescriptor,
        DisplayConfiguration.GetDisplayWidth, DisplayConfiguration.GetDisplayHeight,
        SetupBuffer_done_srvs, SetupBuffer_done_rtvs,
        SetupBuffer_done_uavs, SetupBuffer_done_textures, SetupBuffer_done_nb_views,
        SetupBuffer_done_msaa, SetupBuffer_done_ssaa, SetupBuffer_done_dsv,
        SetupDepthBuffer_done_srvs, SetupDepthBuffer_done_rtvs, SetupDepthBuffer_done_dsv,
        SetupDepthBuffer_done_uavs, SetupDepthBuffer_done_textures,
        SetupDepthBuffer_done_nb_views, SetupDepthBuffer_done_msaa,
        SetupDepthBuffer_done_ssaa, SetupBuffer_desc, SetupDepthBuffer_desc,
        getElem?_length_add, getElem?_length_self, -List.getElem?_eq_getElem,
        List.getElem?_cons_zero, List.getElem?_cons_succ,
        AADescriptor.ssaa_factor, AADescriptor.msaa_samples, AADescriptor.isMSAA,
        hw1, hh1, Nat.mul_comm]

theorem HDR_surface_allocation_witness :
    ((example_configuration AADescriptor.MSAA_4x).m_display_width < U32_MOD ∧
      (example_configuration AADescriptor.MSAA_4x).m_display_height < U32_MOD ∧
      create Device.reliable (example_configuration AADescriptor.MSAA_4x) example_swap_chain
        = Except.ok (example_manager AADescriptor.MSAA_4x)) ∧
    ((example_manager AADescriptor.MSAA_4x).surface
        ((example_manager AADescriptor.MSAA_4x).GetSRV SRVIndex.HDR)).map
        (fun t => (t.extent, t.BIND_SHADER_RESOURCE, t.BIND_RENDER_TARGET))
      = some ((1280, 720, 4), true, true) ∧
    (example_manager AADescriptor.MSAA_4x).GetUAV UAVIndex.HDR = none :=
  ⟨⟨by decide, by decide, rfl⟩,
    (HDR_surface_allocation Device.reliable (example_configuration AADescriptor.MSAA_4x)
      example_swap_chain (example_manager AADescriptor.MSAA_4x) (by decide) (by decide)
      rfl).2.1,
    rfl⟩

/-- C15: after a successful setup, with every AA descriptor, the read view, the
write view and the compute-write view of `PostProcessing_HDR0` are views on one
texture and those of `PostProcessing_HDR1` are views on another texture; both
textures have the display width, the display height, 1 sample and the format
`R16G16B16A16_FLOAT`.  With `None` the texture of `PostProcessing_HDR0` is that
of `HDR`. -/
theorem PostProcessing_HDR_surfaces_equally_sized (device : Device)
    (display_configuration : DisplayConfiguration) (swap_chain : SwapChain)
    (om : OutputManager)
    (h : create device display_configuration swap_chain = Except.ok om) :
    (om.surface (om.GetSRV SRVIndex.PostProcessing_HDR0)).map
        (fun t => (t.extent, t.Format))
      = some ((display_configuration.m_display_width,
               display_configuration.m_display_height, 1),
              DXGI_FORMAT.R16G16B16A16_FLOAT) ∧
    (om.surface (om.GetSRV SRVIndex.PostProcessing_HDR1)).map
        (fun t => (t.extent, t.Format))
      = some ((display_configuration.m_display_width,
               display_configuration.m_display_height, 1),
              DXGI_FORMAT.R16G16B16A16_FLOAT) ∧
    ((om.GetSRV SRVIndex.PostProcessing_HDR0).map (fun v => (v.texture, v.kind))
        = some (device.textures.length
            + (if display_configuration.m_aa_desc = AADescriptor.None then 4 else 5),
          ViewKind.SRV) ∧
      (om.GetRTV RTVIndex.PostProcessing_HDR0).map (fun v => (v.texture, v.kind))
        = some (device.textures.length
            + (if display_configuration.m_aa_desc = AADescriptor.None then 4 else 5),
          ViewKind.RTV) ∧
      (om.GetUAV UAVIndex.PostProcessing_HDR0).map (fun v => (v.texture, v.kind))
        = some (device.textures.length
            + (if display_configuration.m_aa_desc = AADescriptor.None then 4 else 5),
          ViewKind.UAV)) ∧
    ((om.GetSRV SRVIndex.PostProcessing_HDR1).map (fun v => (v.texture, v.kind))
        = some (device.textures.length
            + (if display_configuration.m_aa_desc = AADescriptor.None then 5 else 6),
          ViewKind.SRV) ∧
      (om.GetRTV RTVIndex.PostProcessing_HDR1).map (fun v => (v.texture, v.kind))
        = some (device.textures.length
            + (if display_configuration.m_aa_desc = AADescriptor.None then 5 else 6),
          ViewKind.RTV) ∧
      (om.GetUAV UAVIndex.PostProcessing_HDR1).map (fun v => (v.texture, v.kind))
        = some (device.textures.length
            + (if display_configuration.m_aa_desc = AADescriptor.None then 5 else 6),
          ViewKind.UAV)) ∧
    (if display_configuration.m_aa_desc = AADescriptor.None then
      (om.GetSRV SRVIndex.PostProcessing_HDR0).map View.texture
        = (om.GetSRV SRVIndex.HDR).map View.texture
     else
      (om.GetSRV SRVIndex.PostProcessing_HDR0).map View.texture
        ≠ (om.GetSRV SRVIndex.HDR).map View.texture) := by
  rw [create_ok h]
  rcases display_configuration with ⟨w, ht, aa, um⟩
  refine ⟨?_, ?_, ⟨?_, ?_, ?_⟩, ⟨?_, ?_, ?_⟩, ?_⟩
  all_goals
    cases aa <;>
      simp [surface, TextureDesc.extent, GetSRV, GetRTV, GetUAV, SetupBuffers_done,
        SetupBuffers_switch, initial, setSRV,
        setRTV, setUAV, DisplayConfiguration.GetAADescriptor,
        DisplayConfiguration.GetDisplayWidth, DisplayConfiguration.GetDisplayHeight,
        SetupBuffer_done_srvs, SetupBuffer_done_rtvs,
        SetupBuffer_done_uavs, SetupBuffer_done_textures, SetupBuffer_done_nb_views,
        SetupBuffer_done_msaa, SetupBuffer_done_ssaa, SetupBuffer_done_dsv,
        SetupDepthBuffer_done_srvs, SetupDepthBuffer_done_rtvs, SetupDepthBuffer_done_dsv,
        SetupDepthBuffer_done_uavs, SetupDepthBuffer_done_textures,
        SetupDepthBuffer_done_nb_views, SetupDepthBuffer_done_msaa,
        SetupDepthBuffer_done_ssaa, SetupBuffer_desc, SetupDepthBuffer_desc,
        getElem?_length_add, getElem?_length_self, -List.getElem?_eq_getElem,
        List.getElem?_cons_zero, List.getElem?_cons_succ]

theorem PostProcessing_HDR_surfaces_equally_sized_witness :
    create Device.reliable (example_configuration AADescriptor.None) example_swap_chain
        = Except.ok (example_manager AADescriptor.None) ∧
    ((example_manager AADescriptor.None).surface
        ((example_manager AADescriptor.None).GetSRV SRVIndex.PostProcessing_HDR0)).map
        (fun t => (t.extent, t.Format))
      = some ((1280, 720, 1), DXGI_FORMAT.R16G16B16A16_FLOAT) ∧
    ((example_manager AADescriptor.None).surface
        ((example_manager AADescriptor.None).GetSRV SRVIndex.PostProcessing_HDR1)).map
        (fun t => (t.extent, t.Format))
      = some ((1280, 720, 1), DXGI_FORMAT.R16G16B16A16_FLOAT) :=
  ⟨rfl,
    (PostProcessing_HDR_surfaces_equally_sized Device.reliable
      (example_configuration AADescriptor.None) example_swap_chain
      (example_manager AADescriptor.None) rfl).1,
    (PostProcessing_HDR_surfaces_equally_sized Device.reliable
      (example_configuration AADescriptor.None) example_swap_chain
      (example_manager AADescriptor.None) rfl).2.1⟩

end OutputManager

/-! ## Phase operations and the tables of the manager -/

namespace OutputManager

theorem run_manager (hlsl : HLSL) (call : OutputManagerCall) (om : OutputManager)
    (ctx : DeviceContext) :
    (call.run hlsl om ctx).1 =
      { om with m_hdr0_to_hdr1 :=
          match call with
          | OutputManagerCall.BindBegin => true
          | OutputManagerCall.BindPingPong => !om.m_hdr0_to_hdr1
          | _ => om.m_hdr0_to_hdr1 } := by
  rcases om with ⟨cfg, d, sc, srvs, rtvs, uavs, dsv, f, msaa, ssaa⟩
  cases call <;> cases msaa <;> cases f <;>
    simp [OutputManagerCall.run, BindBegin, BindBeginGBuffer, BindEndGBuffer, BindBeginDeferred,
      BindEndDeferred, BindBeginForward, BindEndForward, BindBeginResolve, BindEndResolve,
      BindBeginPostProcessing, BindPingPong, BindEnd]

/-- C27, counterexample: `BindPingPong` reads the ping-pong flag.  Run on the
manager set up for FXAA from the empty context, it binds the read view of
`PostProcessing_HDR0` in the compute image slot when the flag is true and the
read view of `PostProcessing_HDR1` when the flag is false, two different views;
the two managers differ in the flag only. -/
theorem BindPingPong_reads_flag :
    (BindPingPong example_hlsl
        { example_manager AADescriptor.FXAA with m_hdr0_to_hdr1 := true }
        DeviceContext.empty).2.cs_srvs example_hlsl.SLOT_SRV_IMAGE
      = (example_manager AADescriptor.FXAA).GetSRV SRVIndex.PostProcessing_HDR0 ∧
    (BindPingPong example_hlsl
        { example_manager AADescriptor.FXAA with m_hdr0_to_hdr1 := false }
        DeviceContext.empty).2.cs_srvs example_hlsl.SLOT_SRV_IMAGE
      = (example_manager AADescriptor.FXAA).GetSRV SRVIndex.PostProcessing_HDR1 ∧
    decide ((BindPingPong example_hlsl
        { example_manager AADescriptor.FXAA with m_hdr0_to_hdr1 := true }
        DeviceContext.empty).2.cs_srvs example_hlsl.SLOT_SRV_IMAGE
      = (BindPingPong example_hlsl
        { example_manager AADescriptor.FXAA with m_hdr0_to_hdr1 := false }
        DeviceContext.empty).2.cs_srvs example_hlsl.SLOT_SRV_IMAGE) = false :=
  ⟨rfl, rfl, rfl⟩

/-- C27 as the code has it: every phase operation returns the manager it was
given except for the ping-pong flag: the read-view, write-view and
compute-write-view tables, the depth view, the MSAA and SSAA flags, the device
with its textures, the display configuration and the swap chain are unchanged;
the flag becomes true in `BindBegin`, is negated in `BindPingPong` and is kept
by the ten other operations.  The flag is read by `BindPingPong` and by
`BindEnd` and by no other operation: the bindings left by every operation
other than these two do not depend on the flag; `BindPingPong` binds the read
view of `PostProcessing_HDR0` and the compute-write view of
`PostProcessing_HDR1` when the flag is true and the two swapped when it is
false; `BindEnd` binds the read view of `PostProcessing_HDR0` when the flag is
true and of `PostProcessing_HDR1` when it is false. -/
theorem phase_operations_keep_tables (hlsl : HLSL) (call : OutputManagerCall)
    (om : OutputManager) (ctx : DeviceContext) (flag : Bool) :
    ((call.run hlsl om ctx).1 =
      { om with m_hdr0_to_hdr1 :=
          match call with
          | OutputManagerCall.BindBegin => true
          | OutputManagerCall.BindPingPong => !om.m_hdr0_to_hdr1
          | _ => om.m_hdr0_to_hdr1 }) ∧
    ((call.run hlsl om ctx).1.m_srvs = om.m_srvs ∧
      (call.run hlsl om ctx).1.m_rtvs = om.m_rtvs ∧
      (call.run hlsl om ctx).1.m_uavs = om.m_uavs ∧
      (call.run hlsl om ctx).1.m_dsv = om.m_dsv ∧
      (call.run hlsl om ctx).1.m_msaa = om.m_msaa ∧
      (call.run hlsl om ctx).1.m_ssaa = om.m_ssaa ∧
      (call.run hlsl om ctx).1.m_device = om.m_device ∧
      (call.run hlsl om ctx).1.m_display_configuration = om.m_display_configuration ∧
      (call.run hlsl om ctx).1.m_swap_chain = om.m_swap_chain) ∧
    (match call with
     | OutputManagerCall.BindPingPong =>
       (call.run hlsl { om with m_hdr0_to_hdr1 := flag } ctx).2.cs_srvs hlsl.SLOT_SRV_IMAGE
         = (if flag then om.GetSRV SRVIndex.PostProcessing_HDR0
            else om.GetSRV SRVIndex.PostProcessing_HDR1) ∧
       (call.run hlsl { om with m_hdr0_to_hdr1 := flag } ctx).2.cs_uavs hlsl.SLOT_UAV_IMAGE
         = (if flag then om.GetUAV UAVIndex.PostProcessing_HDR1
            else om.GetUAV UAVIndex.PostProcessing_HDR0)
     | OutputManagerCall.BindEnd =>
       (call.run hlsl { om with m_hdr0_to_hdr1 := flag } ctx).2.ps_srvs hlsl.SLOT_SRV_IMAGE
         = (if flag then om.GetSRV SRVIndex.PostProcessing_HDR0
            else om.GetSRV SRVIndex.PostProcessing_HDR1)
     | _ =>
       (call.run hlsl { om with m_hdr0_to_hdr1 := flag } ctx).2 = (call.run hlsl om ctx).2) := by
  refine ⟨run_manager hlsl call om ctx, ?_, ?_⟩
  · rw [run_manager]
    exact ⟨rfl, rfl, rfl, rfl, rfl, rfl, rfl, rfl, rfl⟩
  · cases call
    case BindPingPong =>
      exact ⟨BindPingPong_srv hlsl _ ctx, BindPingPong_uav hlsl _ ctx⟩
    case BindEnd =>
      cases flag <;>
        simp [OutputManagerCall.run, BindEnd, Pipeline.PS.BindSRV, Pipeline.PS.BindSRVs,
          bindSlots, GetSRV]
    all_goals
      cases hm : om.m_msaa <;>
      simp [OutputManagerCall.run, BindBegin, BindBeginGBuffer, BindEndGBuffer, hm,
        BindBeginDeferred, BindEndDeferred, BindBeginForward, BindEndForward, BindBeginResolve,
        BindEndResolve, BindBeginPostProcessing, GetSRV, GetRTV, GetUAV]

end OutputManager

/-! ## Debug modes, the per-camera state machine and its bracketing -/

namespace Renderer

/-- C25: for each of the eleven debug render modes the primary-mode step issues
exactly four commands: the binding of the camera's super-sampled viewport,
`BindBeginForward`, the fixed-state binding of one pass for that same render
mode and the rendering of that pass; the pass is the variable-component pass
for `BaseColor`, `BaseColorCoefficient`, `BaseColorTexture`, `Material`,
`MaterialCoefficient`, `MaterialTexture` and `NormalTexture`, the
constant-component pass for `UVTexture` and `Distance`, and the shading-normal
pass for `ShadingNormal` and `TSNMShadingNormal`.  For `None` the step issues
the viewport binding and `BindBeginForward` only.  In all twelve cases no
lighting-buffer pass is issued, and the number of draws and dispatches is 1 for
a debug mode and 0 for `None`. -/
theorem debug_modes_one_pass (r : Renderer) (scene : Scene) (camera : Camera) :
    (match camera.GetSettings.GetRenderMode with
     | RenderMode.Forward => True
     | RenderMode.Deferred => True
     | RenderMode.Solid => True
     | RenderMode.BaseColor =>
       (r.Render_mode scene camera).cmds.drop r.cmds.length =
         [Cmd.BindViewport camera.GetSSViewport,
          Cmd.OutputManager OutputManagerCall.BindBeginForward,
          Cmd.VariableComponentPass_BindFixedState RenderMode.BaseColor,
          Cmd.VariableComponentPass_Render]
     | RenderMode.BaseColorCoefficient =>
       (r.Render_mode scene camera).cmds.drop r.cmds.length =
         [Cmd.BindViewport camera.GetSSViewport,
          Cmd.OutputManager OutputManagerCall.BindBeginForward,
          Cmd.VariableComponentPass_BindFixedState RenderMode.BaseColorCoefficient,
          Cmd.VariableComponentPass_Render]
     | RenderMode.BaseColorTexture =>
       (r.Render_mode scene camera).cmds.drop r.cmds.length =
         [Cmd.BindViewport camera.GetSSViewport,
          Cmd.OutputManager OutputManagerCall.BindBeginForward,
          Cmd.VariableComponentPass_BindFixedState RenderMode.BaseColorTexture,
          Cmd.VariableComponentPass_Render]
     | RenderMode.Material =>
       (r.Render_mode scene camera).cmds.drop r.cmds.length =
         [Cmd.BindViewport camera.GetSSViewport,
          Cmd.OutputManager OutputManagerCall.BindBeginForward,
          Cmd.VariableComponentPass_BindFixedState RenderMode.Material,
          Cmd.VariableComponentPass_Render]
     | RenderMode.MaterialCoefficient =>
       (r.Render_mode scene camera).cmds.drop r.cmds.length =
         [Cmd.BindViewport camera.GetSSViewport,
          Cmd.OutputManager OutputManagerCall.BindBeginForward,
          Cmd.VariableComponentPass_BindFixedState RenderMode.MaterialCoefficient,
          Cmd.VariableComponentPass_Render]
     | RenderMode.MaterialTexture =>
       (r.Render_mode scene camera).cmds.drop r.cmds.length =
         [Cmd.BindViewport camera.GetSSViewport,
          Cmd.OutputManager OutputManagerCall.BindBeginForward,
          Cmd.VariableComponentPass_BindFixedState RenderMode.MaterialTexture,
          Cmd.VariableComponentPass_Render]
     | RenderMode.NormalTexture =>
       (r.Render_mode scene camera).cmds.drop r.cmds.length =
         [Cmd.BindViewport camera.GetSSViewport,
          Cmd.OutputManager OutputManagerCall.BindBeginForward,
          Cmd.VariableComponentPass_BindFixedState RenderMode.NormalTexture,
          Cmd.VariableComponentPass_Render]
     | RenderMode.UVTexture =>
       (r.Render_mode scene camera).cmds.drop r.cmds.length =
         [Cmd.BindViewport camera.GetSSViewport,
          Cmd.OutputManager OutputManagerCall.BindBeginForward,
          Cmd.ConstantComponentPass_BindFixedState RenderMode.UVTexture,
          Cmd.ConstantComponentPass_Render]
     | RenderMode.Distance =>
       (r.Render_mode scene camera).cmds.drop r.cmds.length =
         [Cmd.BindViewport camera.GetSSViewport,
          Cmd.OutputManager OutputManagerCall.BindBeginForward,
          Cmd.ConstantComponentPass_BindFixedState RenderMode.Distance,
          Cmd.ConstantComponentPass_Render]
     | RenderMode.ShadingNormal =>
       (r.Render_mode scene camera).cmds.drop r.cmds.length =
         [Cmd.BindViewport camera.GetSSViewport,
          Cmd.OutputManager OutputManagerCall.BindBeginForward,
          Cmd.ShadingNormalPass_BindFixedState RenderMode.ShadingNormal,
          Cmd.ShadingNormalPass_Render]
     | RenderMode.TSNMShadingNormal =>
       (r.Render_mode scene camera).cmds.drop r.cmds.length =
         [Cmd.BindViewport camera.GetSSViewport,
          Cmd.OutputManager OutputManagerCall.BindBeginForward,
          Cmd.ShadingNormalPass_BindFixedState RenderMode.TSNMShadingNormal,
          Cmd.ShadingNormalPass_Render]
     | RenderMode.None =>
       (r.Render_mode scene camera).cmds.drop r.cmds.length =
         [Cmd.BindViewport camera.GetSSViewport,
          Cmd.OutputManager OutputManagerCall.BindBeginForward]) ∧
    (if camera.GetSettings.GetRenderMode = RenderMode.Forward ∨
        camera.GetSettings.GetRenderMode = RenderMode.Deferred ∨
        camera.GetSettings.GetRenderMode = RenderMode.Solid then True
     else
      ((r.Render_mode scene camera).cmds.drop r.cmds.length).count Cmd.LBufferPass_Render = 0 ∧
      ((r.Render_mode scene camera).cmds.drop r.cmds.length).countP Cmd.isDrawOrDispatch
        = (if camera.GetSettings.GetRenderMode = RenderMode.None then 0 else 1)) := by
  rw [Render_mode_cmds, List.drop_left]
  unfold mode_cmds
  cases hm : camera.GetSettings.GetRenderMode <;>
    simp [Cmd.isDrawOrDispatch, Cmd.isDraw, Cmd.isDispatch]

end Renderer

namespace Renderer

theorem mode_cmds_calls (uses_msaa : Bool) (camera : Camera) :
    (mode_cmds uses_msaa camera).filterMap Cmd.outputManagerCall =
      (if camera.GetSettings.GetRenderMode = RenderMode.Deferred then
        [OutputManagerCall.BindBeginGBuffer, OutputManagerCall.BindEndGBuffer,
         OutputManagerCall.BindBeginDeferred, OutputManagerCall.BindEndDeferred]
       else []) ++ [OutputManagerCall.BindBeginForward] := by
  unfold mode_cmds
  cases camera.GetSettings.GetRenderMode <;> cases uses_msaa <;>
    simp [Cmd.outputManagerCall]

theorem layers_cmds_calls (camera : Camera) :
    (layers_cmds camera).filterMap Cmd.outputManagerCall = [] := by
  unfold layers_cmds
  cases camera.GetSettings.ContainsRenderLayer RenderLayer.Wireframe <;>
    cases camera.GetSettings.ContainsRenderLayer RenderLayer.AABB <;>
      simp [Cmd.outputManagerCall]

theorem aa_cmds_calls (desc : AADescriptor) (camera : Camera) :
    (aa_cmds desc camera).filterMap Cmd.outputManagerCall =
      (match desc with
       | AADescriptor.None => []
       | AADescriptor.FXAA =>
         [OutputManagerCall.BindBeginResolve, OutputManagerCall.BindEndResolve,
          OutputManagerCall.BindPingPong]
       | _ => [OutputManagerCall.BindBeginResolve, OutputManagerCall.BindEndResolve]) := by
  unfold aa_cmds
  cases desc <;> simp [Cmd.outputManagerCall]

theorem postprocessing_cmds_calls (camera : Camera) :
    (postprocessing_cmds camera).filterMap Cmd.outputManagerCall =
      [OutputManagerCall.BindBeginPostProcessing] ++
      (if camera.GetLens.HasFiniteAperture then [OutputManagerCall.BindPingPong] else []) ++
      [OutputManagerCall.BindEnd] := by
  unfold postprocessing_cmds
  cases camera.GetLens.HasFiniteAperture <;> simp [Cmd.outputManagerCall]

/-- C30: the calls `Renderer` makes on the output manager for an active camera
are, in this order: `BindBegin`; for `Deferred` only, `BindBeginGBuffer`,
`BindEndGBuffer`, `BindBeginDeferred`, `BindEndDeferred`; `BindBeginForward`,
`BindEndForward`; for FXAA `BindBeginResolve`, `BindEndResolve`, `BindPingPong`,
for MSAA and SSAA `BindBeginResolve`, `BindEndResolve`, for `None` nothing;
`BindBeginPostProcessing`; `BindPingPong` iff the lens has a finite aperture;
`BindEnd`.  This sequence is well bracketed (no `BindBeginX` while a phase is
open, every `BindEndX` closes the open phase `X`, nothing is open at the end),
the first command of the camera is `BindBegin` and the commands after
`BindEnd` are those of the back buffer pass. -/
theorem calls_well_bracketed (scene : Scene) (r : Renderer) (camera : Camera)
    (hactive : camera.GetState = State.Active) :
    (((Render_camera scene r camera).cmds.drop r.cmds.length).filterMap Cmd.outputManagerCall
      = [OutputManagerCall.BindBegin] ++
        (if camera.GetSettings.GetRenderMode = RenderMode.Deferred then
          [OutputManagerCall.BindBeginGBuffer, OutputManagerCall.BindEndGBuffer,
           OutputManagerCall.BindBeginDeferred, OutputManagerCall.BindEndDeferred]
         else []) ++
        [OutputManagerCall.BindBeginForward, OutputManagerCall.BindEndForward] ++
        (match r.display_configuration.GetAADescriptor with
         | AADescriptor.None => []
         | AADescriptor.FXAA =>
           [OutputManagerCall.BindBeginResolve, OutputManagerCall.BindEndResolve,
            OutputManagerCall.BindPingPong]
         | _ => [OutputManagerCall.BindBeginResolve, OutputManagerCall.BindEndResolve]) ++
        [OutputManagerCall.BindBeginPostProcessing] ++
        (if camera.GetLens.HasFiniteAperture then [OutputManagerCall.BindPingPong] else []) ++
        [OutputManagerCall.BindEnd]) ∧
    (OutputManagerCall.bracketed none
      (((Render_camera scene r camera).cmds.drop r.cmds.length).filterMap
        Cmd.outputManagerCall) = true) ∧
    (((Render_camera scene r camera).cmds.drop r.cmds.length).head?
      = some (Cmd.OutputManager OutputManagerCall.BindBegin)) ∧
    ([Cmd.OutputManager OutputManagerCall.BindEnd, Cmd.BackBufferPass_BindFixedState,
      Cmd.BackBufferPass_Render] <:+ (Render_camera scene r camera).cmds) := by
  have hact : ¬ (State.Active ≠ camera.GetState) := by simp [hactive]
  have hcalls : ((Render_camera scene r camera).cmds.drop r.cmds.length).filterMap
      Cmd.outputManagerCall
      = [OutputManagerCall.BindBegin] ++
        (if camera.GetSettings.GetRenderMode = RenderMode.Deferred then
          [OutputManagerCall.BindBeginGBuffer, OutputManagerCall.BindEndGBuffer,
           OutputManagerCall.BindBeginDeferred, OutputManagerCall.BindEndDeferred]
         else []) ++
        [OutputManagerCall.BindBeginForward, OutputManagerCall.BindEndForward] ++
        (match r.display_configuration.GetAADescriptor with
         | AADescriptor.None => []
         | AADescriptor.FXAA =>
           [OutputManagerCall.BindBeginResolve, OutputManagerCall.BindEndResolve,
            OutputManagerCall.BindPingPong]
         | _ => [OutputManagerCall.BindBeginResolve, OutputManagerCall.BindEndResolve]) ++
        [OutputManagerCall.BindBeginPostProcessing] ++
        (if camera.GetLens.HasFiniteAperture then [OutputManagerCall.BindPingPong] else []) ++
        [OutputManagerCall.BindEnd] := by
    rw [Render_camera_cmds, List.drop_left]
    simp only [camera_cmds, hact, if_false, scene_cmds, List.filterMap_append, mode_cmds_calls,
      layers_cmds_calls, aa_cmds_calls, postprocessing_cmds_calls]
    simp [Cmd.outputManagerCall]
  refine ⟨hcalls, ?_, ?_, ?_⟩
  · rw [hcalls]
    by_cases hd : camera.GetSettings.GetRenderMode = RenderMode.Deferred <;>
      cases camera.GetLens.HasFiniteAperture <;>
        cases r.display_configuration.GetAADescriptor <;>
          simp [hd, OutputManagerCall.bracketed, OutputManagerCall.opens,
            OutputManagerCall.closes]
  · rw [Render_camera_cmds, List.drop_left]
    simp [camera_cmds, hact, scene_cmds]
  · rw [Render_camera_cmds]
    simp only [camera_cmds, hact, if_false]
    refine ⟨r.cmds ++ scene_cmds r.display_configuration.UsesMSAA
      r.display_configuration.GetAADescriptor camera ++
      [Cmd.OutputManager OutputManagerCall.BindBeginPostProcessing,
       Cmd.BindViewport camera.GetViewport] ++
      (if camera.GetLens.HasFiniteAperture then
        [Cmd.OutputManager OutputManagerCall.BindPingPong,
         Cmd.DOFPass_Dispatch camera.GetViewport] else []), ?_⟩
    simp [postprocessing_cmds, List.append_assoc]

theorem calls_well_bracketed_witness :
    (example_camera RenderMode.Deferred true).GetState = State.Active ∧
    (((Render_camera ⟨[]⟩ (example_renderer AADescriptor.FXAA)
          (example_camera RenderMode.Deferred true)).cmds.drop
          (example_renderer AADescriptor.FXAA).cmds.length).filterMap Cmd.outputManagerCall
      = [OutputManagerCall.BindBegin,
         OutputManagerCall.BindBeginGBuffer, OutputManagerCall.BindEndGBuffer,
         OutputManagerCall.BindBeginDeferred, OutputManagerCall.BindEndDeferred,
         OutputManagerCall.BindBeginForward, OutputManagerCall.BindEndForward,
         OutputManagerCall.BindBeginResolve, OutputManagerCall.BindEndResolve,
         OutputManagerCall.BindPingPong,
         OutputManagerCall.BindBeginPostProcessing, OutputManagerCall.BindPingPong,
         OutputManagerCall.BindEnd]) :=
  ⟨rfl,
    (calls_well_bracketed ⟨[]⟩ (example_renderer AADescriptor.FXAA)
      (example_camera RenderMode.Deferred true) rfl).1⟩

end Renderer

namespace Renderer

theorem mode_cmds_bracket (uses_msaa : Bool) (camera : Camera) :
    (mode_cmds uses_msaa camera).all (fun c => !c.isBracket) = true := by
  unfold mode_cmds
  cases camera.GetSettings.GetRenderMode <;> cases uses_msaa <;> simp [Cmd.isBracket]

theorem layers_cmds_bracket (camera : Camera) :
    (layers_cmds camera).all (fun c => !c.isBracket) = true := by
  unfold layers_cmds
  cases camera.GetSettings.ContainsRenderLayer RenderLayer.Wireframe <;>
    cases camera.GetSettings.ContainsRenderLayer RenderLayer.AABB <;> simp [Cmd.isBracket]

theorem aa_cmds_bracket (desc : AADescriptor) (camera : Camera) :
    (aa_cmds desc camera).all (fun c => !c.isBracket) = true := by
  unfold aa_cmds
  cases desc <;> simp [Cmd.isBracket]

theorem active_cmds_count (uses_msaa : Bool) (desc : AADescriptor) (camera : Camera) :
    (scene_cmds uses_msaa desc camera ++ postprocessing_cmds camera).count
        (Cmd.OutputManager OutputManagerCall.BindBegin) = 1 ∧
    (scene_cmds uses_msaa desc camera ++ postprocessing_cmds camera).count
        (Cmd.OutputManager OutputManagerCall.BindEnd) = 1 := by
  have hm := mode_cmds_bracket uses_msaa camera
  have hl := layers_cmds_bracket camera
  have ha := aa_cmds_bracket desc camera
  constructor
  · simp only [scene_cmds, List.count_append,
      count_eq_zero_of_all hm (c := Cmd.OutputManager OutputManagerCall.BindBegin) rfl,
      count_eq_zero_of_all hl (c := Cmd.OutputManager OutputManagerCall.BindBegin) rfl,
      count_eq_zero_of_all ha (c := Cmd.OutputManager OutputManagerCall.BindBegin) rfl]
    unfold postprocessing_cmds
    cases camera.GetLens.HasFiniteAperture <;> simp [List.count_cons]
  · simp only [scene_cmds, List.count_append,
      count_eq_zero_of_all hm (c := Cmd.OutputManager OutputManagerCall.BindEnd) rfl,
      count_eq_zero_of_all hl (c := Cmd.OutputManager OutputManagerCall.BindEnd) rfl,
      count_eq_zero_of_all ha (c := Cmd.OutputManager OutputManagerCall.BindEnd) rfl]
    unfold postprocessing_cmds
    cases camera.GetLens.HasFiniteAperture <;> simp [List.count_cons]

theorem flatMap_camera_cmds (uses_msaa : Bool) (desc : AADescriptor) (cameras : List Camera) :
    cameras.flatMap (camera_cmds uses_msaa desc) =
      (cameras.filter (fun c => decide (c.GetState = State.Active))).flatMap
        (fun c => scene_cmds uses_msaa desc c ++ postprocessing_cmds c) := by
  induction cameras with
  | nil => rfl
  | cons c cs ih =>
    by_cases h : c.GetState = State.Active
    · have hact : ¬ (State.Active ≠ c.GetState) := by simp [h]
      simp [List.filter_cons, h, camera_cmds, ih]
    · have hact : State.Active ≠ c.GetState := fun e => h e.symm
      simp [List.filter_cons, h, camera_cmds, hact, ih]

theorem count_flatMap_one {α : Type} (f : α → List Cmd) (c : Cmd) (l : List α)
    (h : ∀ a, (f a).count c = 1) : (l.flatMap f).count c = l.length := by
  induction l with
  | nil => simp
  | cons a as ih => simp [List.flatMap_cons, List.count_append, h a, ih, Nat.add_comm]

/-- C21: the commands of `Render` are, after those issued before, the commands
of the per-camera state machine for each active camera of the scene, in the
order of the scene, one run per active camera, followed by the sprite pass; the
number of `BindBegin` and of `BindEnd` commands equals the number of active
cameras; the run for an active camera starts with `BindBegin` and holds
`BindBegin` and `BindEnd` once each; and for a camera that is not active the
per-camera action returns the renderer as it was: nothing is issued and no
binding is changed. -/
theorem state_machine_once_per_active_camera (r : Renderer) (scene : Scene)
    (camera : Camera) :
    ((r.Render scene).cmds = r.cmds ++
      (scene.m_cameras.filter (fun c => decide (c.GetState = State.Active))).flatMap
        (fun c =>
          scene_cmds r.display_configuration.UsesMSAA r.display_configuration.GetAADescriptor c
            ++ postprocessing_cmds c) ++
      [Cmd.BindViewport r.m_maximum_viewport, Cmd.SpritePass_BindFixedState,
       Cmd.SpritePass_Render]) ∧
    (((r.Render scene).cmds.drop r.cmds.length).count
        (Cmd.OutputManager OutputManagerCall.BindBegin)
      = (scene.m_cameras.filter (fun c => decide (c.GetState = State.Active))).length) ∧
    (((r.Render scene).cmds.drop r.cmds.length).count
        (Cmd.OutputManager OutputManagerCall.BindEnd)
      = (scene.m_cameras.filter (fun c => decide (c.GetState = State.Active))).length) ∧
    (if camera.GetState = State.Active then
      (Render_camera scene r camera).cmds = r.cmds ++
        (scene_cmds r.display_configuration.UsesMSAA r.display_configuration.GetAADescriptor
          camera ++ postprocessing_cmds camera) ∧
      ((Render_camera scene r camera).cmds.drop r.cmds.length).head?
        = some (Cmd.OutputManager OutputManagerCall.BindBegin) ∧
      ((Render_camera scene r camera).cmds.drop r.cmds.length).count
        (Cmd.OutputManager OutputManagerCall.BindBegin) = 1 ∧
      ((Render_camera scene r camera).cmds.drop r.cmds.length).count
        (Cmd.OutputManager OutputManagerCall.BindEnd) = 1
     else Render_camera scene r camera = r) := by
  have hone := fun c => active_cmds_count r.display_configuration.UsesMSAA
    r.display_configuration.GetAADescriptor c
  refine ⟨?_, ?_, ?_, ?_⟩
  · rw [Render_cmds, flatMap_camera_cmds]
  · rw [Render_cmds, flatMap_camera_cmds, List.append_assoc, List.drop_left, List.count_append,
      count_flatMap_one _ _ _ (fun c => (hone c).1)]
    simp [List.count_cons]
  · rw [Render_cmds, flatMap_camera_cmds, List.append_assoc, List.drop_left, List.count_append,
      count_flatMap_one _ _ _ (fun c => (hone c).2)]
    simp [List.count_cons]
  · split
    · rename_i hactive
      have hact : ¬ (State.Active ≠ camera.GetState) := by simp [hactive]
      rw [Render_camera_cmds, List.drop_left]
      simp only [camera_cmds, hact, if_false]
      refine ⟨trivial, ?_, (hone camera).1, (hone camera).2⟩
      simp [scene_cmds]
    · rename_i hinactive
      have hact : State.Active ≠ camera.GetState := fun e => hinactive e.symm
      simp [Render_camera, hact]

end Renderer

/-! ## The views bound by the resolve, deferred and ping-pong operations -/

namespace OutputManager

/-- C22, counterexample: for FXAA the setup on the reliable device succeeds and
`BindBeginResolve` leaves the compute read-write slots of the post-processing
normal and depth surfaces null. -/
theorem BindBeginResolve_FXAA_null_outputs :
    create Device.reliable (example_configuration AADescriptor.FXAA) example_swap_chain
      = Except.ok (example_manager AADescriptor.FXAA) ∧
    (BindBeginResolve example_hlsl (example_manager AADescriptor.FXAA)
      DeviceContext.empty).2.cs_uavs example_hlsl.SLOT_UAV_NORMAL = none ∧
    (BindBeginResolve example_hlsl (example_manager AADescriptor.FXAA)
      DeviceContext.empty).2.cs_uavs example_hlsl.SLOT_UAV_DEPTH = none ∧
    ((BindBeginResolve example_hlsl (example_manager AADescriptor.FXAA)
      DeviceContext.empty).2.cs_uavs example_hlsl.SLOT_UAV_IMAGE).isSome = true :=
  ⟨rfl, rfl, rfl, rfl⟩

/-- C22 as the code has it: after a successful setup `BindBeginResolve` binds
the read views of `HDR`, G-buffer normal and G-buffer depth to the compute
image, normal and depth read slots, all three non-null, and binds the
compute-write views of `PostProcessing_HDR0`, `PostProcessing_Normal` and
`PostProcessing_Depth` to the three compute read-write slots from
`SLOT_UAV_IMAGE`.  For FXAA, MSAA and SSAA the view of `PostProcessing_HDR0` is
a non-null view of a texture of its own; the views of `PostProcessing_Normal`
and `PostProcessing_Depth` are non-null views of textures of their own for MSAA
and SSAA, and null for FXAA. -/
theorem BindBeginResolve_bindings (hlsl : HLSL) (device : Device)
    (display_configuration : DisplayConfiguration) (swap_chain : SwapChain)
    (om : OutputManager) (ctx : DeviceContext)
    (h : create device display_configuration swap_chain = Except.ok om) :
    ((BindBeginResolve hlsl om ctx).2.cs_srvs
      = (fun s =>
          if s = hlsl.SLOT_SRV_DEPTH then om.GetSRV SRVIndex.GBuffer_Depth
          else if s = hlsl.SLOT_SRV_NORMAL then om.GetSRV SRVIndex.GBuffer_Normal
          else if s = hlsl.SLOT_SRV_IMAGE then om.GetSRV SRVIndex.HDR
          else ctx.cs_srvs s)) ∧
    ((BindBeginResolve hlsl om ctx).2.cs_uavs hlsl.SLOT_UAV_IMAGE
        = om.GetUAV UAVIndex.PostProcessing_HDR0 ∧
      (BindBeginResolve hlsl om ctx).2.cs_uavs hlsl.SLOT_UAV_NORMAL
        = om.GetUAV UAVIndex.PostProcessing_Normal ∧
      (BindBeginResolve hlsl om ctx).2.cs_uavs hlsl.SLOT_UAV_DEPTH
        = om.GetUAV UAVIndex.PostProcessing_Depth) ∧
    ((om.GetSRV SRVIndex.HDR).map (fun v => (v.texture, v.kind))
        = some (device.textures.length + 4, ViewKind.SRV) ∧
      (om.GetSRV SRVIndex.GBuffer_Normal).map (fun v => (v.texture, v.kind))
        = some (device.textures.length + 3, ViewKind.SRV) ∧
      (om.GetSRV SRVIndex.GBuffer_Depth).map (fun v => (v.texture, v.kind))
        = some (device.textures.length, ViewKind.SRV)) ∧
    (match display_configuration.m_aa_desc with
     | AADescriptor.None => True
     | AADescriptor.FXAA =>
       (om.GetUAV UAVIndex.PostProcessing_HDR0).map (fun v => (v.texture, v.kind))
         = some (device.textures.length + 5, ViewKind.UAV) ∧
       om.GetUAV UAVIndex.PostProcessing_Normal = none ∧
       om.GetUAV UAVIndex.PostProcessing_Depth = none
     | _ =>
       (om.GetUAV UAVIndex.PostProcessing_HDR0).map (fun v => (v.texture, v.kind))
         = some (device.textures.length + 5, ViewKind.UAV) ∧
       (om.GetUAV UAVIndex.PostProcessing_Normal).map (fun v => (v.texture, v.kind))
         = some (device.textures.length + 8, ViewKind.UAV) ∧
       (om.GetUAV UAVIndex.PostProcessing_Depth).map (fun v => (v.texture, v.kind))
         = some (device.textures.length + 7, ViewKind.UAV)) := by
  have e1 : ∀ a s : Nat, (a ≤ s ∧ s < a + 1) ↔ s = a := by intro a s; omega
  refine ⟨?_, ⟨?_, ?_, ?_⟩, ?_, ?_⟩
  · funext s
    simp only [BindBeginResolve, Pipeline.CS.BindSRV, Pipeline.CS.BindSRVs, Pipeline.CS.BindUAVs,
      bindSlots_apply, e1]
    split_ifs <;> simp_all
  · simp [BindBeginResolve, Pipeline.CS.BindUAVs, bindSlots_apply]
  · simp [BindBeginResolve, Pipeline.CS.BindUAVs, bindSlots_apply, HLSL.SLOT_UAV_NORMAL]
  · simp [BindBeginResolve, Pipeline.CS.BindUAVs, bindSlots_apply, HLSL.SLOT_UAV_DEPTH]
  · rw [create_ok h]
    rcases display_configuration with ⟨w, ht, aa, um⟩
    cases aa <;>
      simp [GetSRV, GetRTV, GetUAV, SetupBuffers_done,
        SetupBuffers_switch, initial, setSRV,
        setRTV, setUAV, DisplayConfiguration.GetAADescriptor,
        DisplayConfiguration.GetDisplayWidth, DisplayConfiguration.GetDisplayHeight,
        SetupBuffer_done_srvs, SetupBuffer_done_rtvs,
        SetupBuffer_done_uavs, SetupBuffer_done_textures, SetupBuffer_done_nb_views,
        SetupBuffer_done_msaa, SetupBuffer_done_ssaa, SetupBuffer_done_dsv,
        SetupDepthBuffer_done_srvs, SetupDepthBuffer_done_rtvs, SetupDepthBuffer_done_dsv,
        SetupDepthBuffer_done_uavs, SetupDepthBuffer_done_textures,
        SetupDepthBuffer_done_nb_views, SetupDepthBuffer_done_msaa,
        SetupDepthBuffer_done_ssaa]
  · rw [create_ok h]
    rcases display_configuration with ⟨w, ht, aa, um⟩
    cases aa <;>
      simp [GetSRV, GetRTV, GetUAV, SetupBuffers_done,
        SetupBuffers_switch, initial, setSRV,
        setRTV, setUAV, DisplayConfiguration.GetAADescriptor,
        DisplayConfiguration.GetDisplayWidth, DisplayConfiguration.GetDisplayHeight,
        SetupBuffer_done_srvs, SetupBuffer_done_rtvs,
        SetupBuffer_done_uavs, SetupBuffer_done_textures, SetupBuffer_done_nb_views,
        SetupBuffer_done_msaa, SetupBuffer_done_ssaa, SetupBuffer_done_dsv,
        SetupDepthBuffer_done_srvs, SetupDepthBuffer_done_rtvs, SetupDepthBuffer_done_dsv,
        SetupDepthBuffer_done_uavs, SetupDepthBuffer_done_textures,
        SetupDepthBuffer_done_nb_views, SetupDepthBuffer_done_msaa,
        SetupDepthBuffer_done_ssaa]

theorem BindBeginResolve_bindings_witness :
    create Device.reliable (example_configuration AADescriptor.SSAA_2x) example_swap_chain
      = Except.ok (example_manager AADescriptor.SSAA_2x) ∧
    ((example_manager AADescriptor.SSAA_2x).GetUAV UAVIndex.PostProcessing_HDR0).map
        (fun v => (v.texture, v.kind)) = some (5, ViewKind.UAV) ∧
    ((example_manager AADescriptor.SSAA_2x).GetUAV UAVIndex.PostProcessing_Normal).map
        (fun v => (v.texture, v.kind)) = some (8, ViewKind.UAV) ∧
    ((example_manager AADescriptor.SSAA_2x).GetUAV UAVIndex.PostProcessing_Depth).map
        (fun v => (v.texture, v.kind)) = some (7, ViewKind.UAV) :=
  ⟨rfl,
    (BindBeginResolve_bindings example_hlsl Device.reliable
      (example_configuration AADescriptor.SSAA_2x) example_swap_chain
      (example_manager AADescriptor.SSAA_2x) DeviceContext.empty rfl).2.2.2⟩

/-- C28: after a successful setup, `BindBeginDeferred` binds, with MSAA, the
write view of `HDR` as the only render target, and without MSAA the
compute-write view of `HDR` to the compute image read-write slot; the view it
binds is a non-null view of the `HDR` texture, and the compute-write view of
`HDR` is non-null exactly when the descriptor is not `MSAA_Nx`.  Whatever the
ping-pong flag, `BindPingPong` leaves a non-null compute-write view in the
compute image read-write slot and a non-null read view in the compute image
read slot, views of the two different textures of `PostProcessing_HDR0` and
`PostProcessing_HDR1` (with `None` the texture of `PostProcessing_HDR0` is that
of `HDR`, and still differs from that of `PostProcessing_HDR1`). -/
theorem write_targets_never_null (hlsl : HLSL) (device : Device)
    (display_configuration : DisplayConfiguration) (swap_chain : SwapChain)
    (om : OutputManager) (ctx : DeviceContext) (flag : Bool)
    (h : create device display_configuration swap_chain = Except.ok om) :
    (if display_configuration.m_aa_desc.isMSAA then
      (BindBeginDeferred hlsl om ctx).2.om_rtvs = [om.GetRTV RTVIndex.HDR] ∧
      (om.GetRTV RTVIndex.HDR).map (fun v => (v.texture, v.kind))
        = some (device.textures.length + 4, ViewKind.RTV) ∧
      om.GetUAV UAVIndex.HDR = none
     else
      (BindBeginDeferred hlsl om ctx).2.cs_uavs hlsl.SLOT_UAV_IMAGE = om.GetUAV UAVIndex.HDR ∧
      (om.GetUAV UAVIndex.HDR).map (fun v => (v.texture, v.kind))
        = some (device.textures.length + 4, ViewKind.UAV)) ∧
    ((om.GetUAV UAVIndex.HDR).isSome = !display_configuration.m_aa_desc.isMSAA) ∧
    (((BindPingPong hlsl { om with m_hdr0_to_hdr1 := flag } ctx).2.cs_uavs
          hlsl.SLOT_UAV_IMAGE).map (fun v => (v.texture, v.kind))
        = some (device.textures.length
            + (if display_configuration.m_aa_desc = AADescriptor.None then 4 else 5)
            + (if flag then 1 else 0), ViewKind.UAV) ∧
      ((BindPingPong hlsl { om with m_hdr0_to_hdr1 := flag } ctx).2.cs_srvs
          hlsl.SLOT_SRV_IMAGE).map (fun v => (v.texture, v.kind))
        = some (device.textures.length
            + (if display_configuration.m_aa_desc = AADescriptor.None then 4 else 5)
            + (if flag then 0 else 1), ViewKind.SRV)) ∧
    ((om.GetSRV SRVIndex.PostProcessing_HDR0).map View.texture
        ≠ (om.GetSRV SRVIndex.PostProcessing_HDR1).map View.texture ∧
      (om.GetUAV UAVIndex.PostProcessing_HDR0).map View.texture
        = (om.GetSRV SRVIndex.PostProcessing_HDR0).map View.texture ∧
      (om.GetUAV UAVIndex.PostProcessing_HDR1).map View.texture
        = (om.GetSRV SRVIndex.PostProcessing_HDR1).map View.texture) := by
  have hm := Renderer.create_msaa h
  have hviews :
      ((om.GetRTV RTVIndex.HDR).map (fun v => (v.texture, v.kind))
          = some (device.textures.length + 4, ViewKind.RTV)) ∧
      ((om.GetUAV UAVIndex.HDR).map (fun v => (v.texture, v.kind))
          = if display_configuration.m_aa_desc.isMSAA then none
            else some (device.textures.length + 4, ViewKind.UAV)) ∧
      ((om.GetUAV UAVIndex.PostProcessing_HDR0).map (fun v => (v.texture, v.kind))
          = some (device.textures.length
              + (if display_configuration.m_aa_desc = AADescriptor.None then 4 else 5),
              ViewKind.UAV)) ∧
      ((om.GetUAV UAVIndex.PostProcessing_HDR1).map (fun v => (v.texture, v.kind))
          = some (device.textures.length
              + (if display_configuration.m_aa_desc = AADescriptor.None then 4 else 5) + 1,
              ViewKind.UAV)) ∧
      ((om.GetSRV SRVIndex.PostProcessing_HDR0).map (fun v => (v.texture, v.kind))
          = some (device.textures.length
              + (if display_configuration.m_aa_desc = AADescriptor.None then 4 else 5),
              ViewKind.SRV)) ∧
      ((om.GetSRV SRVIndex.PostProcessing_HDR1).map (fun v => (v.texture, v.kind))
          = some (device.textures.length
              + (if display_configuration.m_aa_desc = AADescriptor.None then 4 else 5) + 1,
              ViewKind.SRV)) := by
    rw [create_ok h]
    rcases display_configuration with ⟨w, ht, aa, um⟩
    refine ⟨?_, ?_, ?_, ?_, ?_, ?_⟩ <;>
    cases aa <;>
      simp [GetSRV, GetRTV, GetUAV, SetupBuffers_done,
        SetupBuffers_switch, initial, setSRV,
        setRTV, setUAV, DisplayConfiguration.GetAADescriptor,
        DisplayConfiguration.GetDisplayWidth, DisplayConfiguration.GetDisplayHeight,
        SetupBuffer_done_srvs, SetupBuffer_done_rtvs,
        SetupBuffer_done_uavs, SetupBuffer_done_textures, SetupBuffer_done_nb_views,
        SetupBuffer_done_msaa, SetupBuffer_done_ssaa, SetupBuffer_done_dsv,
        SetupDepthBuffer_done_srvs, SetupDepthBuffer_done_rtvs, SetupDepthBuffer_done_dsv,
        SetupDepthBuffer_done_uavs, SetupDepthBuffer_done_textures,
        SetupDepthBuffer_done_nb_views, SetupDepthBuffer_done_msaa,
        SetupDepthBuffer_done_ssaa, AADescriptor.isMSAA]
  obtain ⟨hrtv, huav, hu0, hu1, hs0, hs1⟩ := hviews
  refine ⟨?_, ?_, ⟨?_, ?_⟩, ?_, ?_, ?_⟩
  · cases haa : display_configuration.m_aa_desc.isMSAA
    · rw [haa] at hm huav
      simp only [Bool.false_eq_true, if_false] at huav ⊢
      refine ⟨?_, huav⟩
      simp [BindBeginDeferred, hm, Pipeline.CS.BindUAV, Pipeline.CS.BindUAVs,
        Pipeline.CS.BindSRVs, bindSlots_apply]
    · rw [haa] at hm huav
      simp only [if_true] at huav ⊢
      refine ⟨?_, hrtv, ?_⟩
      · simp [BindBeginDeferred, hm, Pipeline.OM.BindRTVAndDSV, Pipeline.OM.BindRTVsAndDSV]
      · simpa using huav
  · cases haa : display_configuration.m_aa_desc.isMSAA
    · rw [haa] at huav
      simp only [Bool.false_eq_true, if_false] at huav
      cases hx : om.GetUAV UAVIndex.HDR <;> simp [hx] at huav ⊢
    · rw [haa] at huav
      simp only [if_true] at huav
      cases hx : om.GetUAV UAVIndex.HDR <;> simp [hx] at huav ⊢
  · rw [BindPingPong_uav]
    cases flag
    · simpa [GetUAV] using hu0
    · simpa [GetUAV] using hu1
  · rw [BindPingPong_srv]
    cases flag
    · simpa [GetSRV] using hs1
    · simpa [GetSRV] using hs0
  · intro heq
    have a0 := congrArg (Option.map Prod.fst) hs0
    have a1 := congrArg (Option.map Prod.fst) hs1
    simp only [Option.map_map, Option.map_some'] at a0 a1
    have b0 : (om.GetSRV SRVIndex.PostProcessing_HDR0).map View.texture
        = some (device.textures.length
            + (if display_configuration.m_aa_desc = AADescriptor.None then 4 else 5)) := a0
    have b1 : (om.GetSRV SRVIndex.PostProcessing_HDR1).map View.texture
        = some (device.textures.length
            + (if display_configuration.m_aa_desc = AADescriptor.None then 4 else 5) + 1) := a1
    rw [b0, b1] at heq
    simp at heq
  · have a0 := congrArg (Option.map Prod.fst) hs0
    have a1 := congrArg (Option.map Prod.fst) hu0
    simp only [Option.map_map, Option.map_some'] at a0 a1
    exact a1.trans a0.symm
  · have a0 := congrArg (Option.map Prod.fst) hs1
    have a1 := congrArg (Option.map Prod.fst) hu1
    simp only [Option.map_map, Option.map_some'] at a0 a1
    exact a1.trans a0.symm

theorem write_targets_never_null_witness :
    create Device.reliable (example_configuration AADescriptor.None) example_swap_chain
      = Except.ok (example_manager AADescriptor.None) ∧
    ((BindPingPong example_hlsl
          { example_manager AADescriptor.None with m_hdr0_to_hdr1 := true }
          DeviceContext.empty).2.cs_uavs
          example_hlsl.SLOT_UAV_IMAGE).map (fun v => (v.texture, v.kind))
        = some (5, ViewKind.UAV) ∧
    ((BindPingPong example_hlsl
          { example_manager AADescriptor.None with m_hdr0_to_hdr1 := true }
          DeviceContext.empty).2.cs_srvs
          example_hlsl.SLOT_SRV_IMAGE).map (fun v => (v.texture, v.kind))
        = some (4, ViewKind.SRV) :=
  ⟨rfl,
    (write_targets_never_null example_hlsl Device.reliable
      (example_configuration AADescriptor.None) example_swap_chain
      (example_manager AADescriptor.None) DeviceContext.empty true rfl).2.2.1⟩

end OutputManager

/-! ## VSWriter and Model -/

namespace VSWriter

theorem sprintf_s_fits (float_text : F32 → String) (tokens : VSTokens) (var : Variable)
    (h : var.fits float_text tokens = true) :
    sprintf_s float_text MAX_PATH (format tokens var)
      = some ((format tokens var).text float_text) := by
  simp only [Variable.fits, decide_eq_true_eq] at h
  simp only [sprintf_s]
  rw [if_pos (by omega)]

theorem sprintf_s_overflow (float_text : F32 → String) (tokens : VSTokens) (var : Variable)
    (h : var.fits float_text tokens = false) :
    sprintf_s float_text MAX_PATH (format tokens var) = none := by
  simp only [Variable.fits, decide_eq_false_iff_not] at h
  simp only [sprintf_s]
  rw [if_neg (by omega)]

theorem Write_loop_fits (float_text : F32 → String) (tokens : VSTokens)
    (before rest : List Variable) (writer : VSWriter)
    (h : before.all (Variable.fits float_text tokens) = true) :
    Write_loop float_text tokens (before ++ rest) writer =
      Write_loop float_text tokens rest
        { writer with
          written := writer.written ++
            before.map (fun var => (format tokens var).text float_text) } := by
  induction before generalizing writer with
  | nil => simp
  | cons v vs ih =>
    simp only [List.all_cons, Bool.and_eq_true] at h
    obtain ⟨hv, hvs⟩ := h
    simp [Write_loop, sprintf_s_fits float_text tokens v hv, ih _ hvs, WriteStringLine]

/-- A variable whose line does not fit the array `output` ends `Write` in the
invalid parameter handler, after the lines of the variables before it. -/
theorem Write_overflow (float_text : F32 → String) (tokens : VSTokens)
    (before after : List Variable) (var : Variable)
    (hb : before.all (Variable.fits float_text tokens) = true)
    (hv : var.fits float_text tokens = false) :
    Write float_text tokens { m_variable_buffer := before ++ [var] ++ after, written := [] }
      = Except.error
          { writer :=
              { m_variable_buffer := before ++ [var] ++ after,
                written := before.map (fun var => (format tokens var).text float_text) } } := by
  simp only [Write, List.append_assoc]
  rw [Write_loop_fits float_text tokens before _ _ hb]
  simp [Write_loop, sprintf_s_overflow float_text tokens var hv]

end VSWriter

namespace Model

/-- C24: copying a model whose material pointer is valid yields a model equal
to the original in every member but the material pointer: it has the same mesh
pointer (no mesh is allocated, the use count of the mesh goes up by one), the
same start index, index count, bounding box, bounding sphere and shadow
behaviour; its material pointer names a fresh allocation, different from the
original's, holding a material equal to the original's, and the original's
material is left as it was; a later write to the material of either model
leaves the material of the other model unchanged. -/
theorem copy_shares_mesh_owns_material (heap : Heap) (model : Model) (material : Material)
    (hvalid : heap.materials[model.m_material]? = some material) :
    ((Model.copy heap model).map (fun p => p.2)
      = some { model with m_material := heap.materials.length }) ∧
    ((Model.copy heap model).map (fun p => p.2.m_mesh) = some model.m_mesh ∧
      (Model.copy heap model).map (fun p => p.1.mesh_use_count model.m_mesh)
        = some (heap.mesh_use_count model.m_mesh + 1)) ∧
    (heap.materials.length ≠ model.m_material ∧
      (Model.copy heap model).map (fun p => p.1.materials)
        = some (heap.materials ++ [material]) ∧
      (Model.copy heap model).map
          (fun p => (p.1.materials[p.2.m_material]?, p.1.materials[model.m_material]?))
        = some (some material, some material)) ∧
    (∀ changed : Material,
      (Model.copy heap model).map
          (fun p =>
            ((p.1.WriteMaterial p.2.m_material changed).materials[p.2.m_material]?,
             (p.1.WriteMaterial p.2.m_material changed).materials[model.m_material]?))
        = some (some changed, some material)) ∧
    (∀ changed : Material,
      (Model.copy heap model).map
          (fun p =>
            ((p.1.WriteMaterial model.m_material changed).materials[model.m_material]?,
             (p.1.WriteMaterial model.m_material changed).materials[p.2.m_material]?))
        = some (some changed, some material)) := by
  have hlt : model.m_material < heap.materials.length := by
    rcases Nat.lt_or_ge model.m_material heap.materials.length with h | h
    · exact h
    · rw [List.getElem?_eq_none h] at hvalid
      cases hvalid
  have hne : heap.materials.length ≠ model.m_material := by omega
  have hne2 : model.m_material ≠ heap.materials.length := by omega
  have hold : (heap.materials ++ [material])[model.m_material]? = some material := by
    rw [List.getElem?_append_left hlt, hvalid]
  have hnew : (heap.materials ++ [material])[heap.materials.length]? = some material := by
    simp
  have hcopy : Model.copy heap model =
      some ({ materials := heap.materials ++ [material],
              mesh_use_count := fun q =>
                if q = model.m_mesh then heap.mesh_use_count q + 1
                else heap.mesh_use_count q },
            { model with m_material := heap.materials.length }) := by
    simp [Model.copy, Heap.SharedPtr_copy, hvalid, Heap.MakeUnique_Material]
  rw [hcopy]
  dsimp only [Heap.WriteMaterial, Option.map_some']
  refine ⟨rfl, ⟨rfl, by simp⟩, ⟨hne, rfl, by rw [hnew, hold]⟩, ?_, ?_⟩
  · intro changed
    rw [List.getElem?_set_self (by simp), List.getElem?_set_ne hne, hold]
  · intro changed
    rw [List.getElem?_set_self (by simp; omega), List.getElem?_set_ne hne2, hnew]

theorem copy_shares_mesh_owns_material_witness :
    example_heap.materials[example_model.m_material]? = some { value := 9 } ∧
    (Model.copy example_heap example_model).map (fun p => p.2)
      = some { example_model with m_material := 2 } ∧
    (Model.copy example_heap example_model).map (fun p => p.1.materials)
      = some [{ value := 7 }, { value := 9 }, { value := 9 }] :=
  ⟨rfl,
    (copy_shares_mesh_owns_material example_heap example_model { value := 9 } rfl).1,
    (copy_shares_mesh_owns_material example_heap example_model { value := 9 }
      rfl).2.2.1.2.1⟩

end Model

/-! ## Replay of the commands of one camera -/

namespace Renderer

theorem Runs_refl (r : Renderer) : Runs r r [] :=
  ⟨by simp [replay], by simp [exec], rfl, rfl⟩

theorem Runs_cons_issue {r r2 : Renderer} {c : Cmd} {cs : List Cmd}
    (hc : c.outputManagerCall = none) (h : Runs (r.issue c) r2 cs) : Runs r r2 (c :: cs) := by
  obtain ⟨h1, h2, h3, h4⟩ := h
  refine ⟨?_, ?_, h3, h4⟩
  · rw [h1]
    simp [issue, replay, step, hc]
  · rw [h2]
    simp [issue, exec, step, hc]

theorem Runs_cons_call {r r2 : Renderer} {call : OutputManagerCall} {cs : List Cmd}
    (h : Runs (r.callOutputManager call) r2 cs) :
    Runs r r2 (Cmd.OutputManager call :: cs) := by
  obtain ⟨h1, h2, h3, h4⟩ := h
  refine ⟨?_, ?_, h3, h4⟩
  · rw [h1]
    simp [callOutputManager, issue, replay, step, Cmd.outputManagerCall]
  · rw [h2]
    simp [callOutputManager, issue, exec, step, Cmd.outputManagerCall]

theorem replay_append (hlsl : HLSL) (a b : List Cmd) (s : OutputManager × DeviceContext) :
    replay hlsl (a ++ b) s = replay hlsl a s ++ replay hlsl b (exec hlsl a s) := by
  induction a generalizing s with
  | nil => simp [replay, exec]
  | cons c cs ih => simp [replay, exec, ih]

theorem exec_append (hlsl : HLSL) (a b : List Cmd) (s : OutputManager × DeviceContext) :
    exec hlsl (a ++ b) s = exec hlsl b (exec hlsl a s) := by
  simp [exec, List.foldl_append]

theorem Runs_trans {r1 r2 r3 : Renderer} {a b : List Cmd}
    (h12 : Runs r1 r2 a) (h23 : Runs r2 r3 b) : Runs r1 r3 (a ++ b) := by
  obtain ⟨a1, a2, a3, a4⟩ := h12
  obtain ⟨b1, b2, b3, b4⟩ := h23
  refine ⟨?_, ?_, b3.trans a3, b4.trans a4⟩
  · rw [b1, a1, replay_append, a3, a2, List.append_assoc]
  · rw [b2, a3, a2, exec_append]

theorem Runs_ExecuteForwardPipeline (r : Renderer) (scene : Scene) (camera : Camera) :
    Runs r (r.ExecuteForwardPipeline scene camera)
      [Cmd.LBufferPass_Render, Cmd.BindViewport camera.GetSSViewport,
       Cmd.OutputManager OutputManagerCall.BindBeginForward,
       Cmd.VariableShadingPass_BindFixedState camera.GetSettings.GetBRDF,
       Cmd.VariableShadingPass_Render,
       Cmd.SkyPass_BindFixedState, Cmd.SkyPass_Render,
       Cmd.VariableShadingPass_BindFixedState camera.GetSettings.GetBRDF,
       Cmd.VariableShadingPass_RenderTransparent] := by
  unfold ExecuteForwardPipeline
  repeat (first
    | apply Runs_cons_call
    | (refine Runs_cons_issue ?_ ?_; exact rfl)
    | exact Runs_refl _)

theorem Runs_ExecuteSolidForwardPipeline (r : Renderer) (scene : Scene) (camera : Camera) :
    Runs r (r.ExecuteSolidForwardPipeline scene camera)
      [Cmd.LBufferPass_Render, Cmd.BindViewport camera.GetSSViewport,
       Cmd.OutputManager OutputManagerCall.BindBeginForward,
       Cmd.ConstantShadingPass_BindFixedState, Cmd.ConstantShadingPass_Render] := by
  unfold ExecuteSolidForwardPipeline
  repeat (first
    | apply Runs_cons_call
    | (refine Runs_cons_issue ?_ ?_; exact rfl)
    | exact Runs_refl _)

theorem Runs_ExecuteDeferredPipeline (r : Renderer) (scene : Scene) (camera : Camera) :
    Runs r (r.ExecuteDeferredPipeline scene camera)
      ([Cmd.LBufferPass_Render, Cmd.BindViewport camera.GetSSViewport,
        Cmd.OutputManager OutputManagerCall.BindBeginGBuffer,
        Cmd.GBufferPass_BindFixedState, Cmd.GBufferPass_Render,
        Cmd.OutputManager OutputManagerCall.BindEndGBuffer,
        Cmd.OutputManager OutputManagerCall.BindBeginDeferred] ++
       (if r.display_configuration.UsesMSAA then
         [Cmd.DeferredShadingPass_BindFixedState camera.GetSettings.GetBRDF false,
          Cmd.DeferredShadingPass_Render]
        else
         [Cmd.DeferredShadingPass_BindFixedState camera.GetSettings.GetBRDF true,
          Cmd.DeferredShadingPass_Dispatch camera.GetSSViewport]) ++
       [Cmd.OutputManager OutputManagerCall.BindEndDeferred,
        Cmd.OutputManager OutputManagerCall.BindBeginForward,
        Cmd.VariableShadingPass_BindFixedState camera.GetSettings.GetBRDF,
        Cmd.VariableShadingPass_RenderEmissive,
        Cmd.SkyPass_BindFixedState, Cmd.SkyPass_Render,
        Cmd.VariableShadingPass_BindFixedState camera.GetSettings.GetBRDF,
        Cmd.VariableShadingPass_RenderTransparent]) := by
  unfold ExecuteDeferredPipeline
  cases hu : r.display_configuration.UsesMSAA <;>
    simp only [issue_display_configuration, callOutputManager_display_configuration, hu,
      Bool.false_eq_true, if_false, if_true, List.cons_append, List.nil_append] <;>
    repeat (first
      | apply Runs_cons_call
      | (refine Runs_cons_issue ?_ ?_; exact rfl)
      | exact Runs_refl _)

theorem Runs_Render_mode (r : Renderer) (scene : Scene) (camera : Camera) :
    Runs r (r.Render_mode scene camera) (mode_cmds r.display_configuration.UsesMSAA camera) := by
  unfold Render_mode mode_cmds
  cases hm : camera.GetSettings.GetRenderMode <;> simp only []
  case Forward => exact Runs_ExecuteForwardPipeline r scene camera
  case Deferred => exact Runs_ExecuteDeferredPipeline r scene camera
  case Solid => exact Runs_ExecuteSolidForwardPipeline r scene camera
  all_goals
    repeat (first
      | apply Runs_cons_call
      | (refine Runs_cons_issue ?_ ?_; exact rfl)
      | exact Runs_refl _)

theorem Runs_Render_layers (r : Renderer) (camera : Camera) :
    Runs r (r.Render_layers camera) (layers_cmds camera) := by
  unfold Render_layers layers_cmds
  cases camera.GetSettings.ContainsRenderLayer RenderLayer.Wireframe <;>
    cases camera.GetSettings.ContainsRenderLayer RenderLayer.AABB <;>
      simp only [Bool.false_eq_true, if_false, if_true, List.cons_append, List.nil_append,
        List.append_nil] <;>
      repeat (first
        | apply Runs_cons_call
        | (refine Runs_cons_issue ?_ ?_; exact rfl)
        | exact Runs_refl _)

theorem Runs_ExecuteAAPipeline (r : Renderer) (camera : Camera) :
    Runs r (r.ExecuteAAPipeline camera)
      (aa_cmds r.display_configuration.GetAADescriptor camera) := by
  unfold ExecuteAAPipeline aa_cmds
  cases r.display_configuration.GetAADescriptor <;>
    simp only [] <;>
    repeat (first
        | apply Runs_cons_call
        | (refine Runs_cons_issue ?_ ?_; exact rfl)
        | exact Runs_refl _)

theorem Runs_Render_postprocessing (r : Renderer) (camera : Camera) :
    Runs r (r.Render_postprocessing camera) (postprocessing_cmds camera) := by
  unfold Render_postprocessing postprocessing_cmds
  cases camera.GetLens.HasFiniteAperture <;>
    simp only [Bool.false_eq_true, if_false, if_true, List.cons_append, List.nil_append,
      List.append_nil] <;>
    repeat (first
        | apply Runs_cons_call
        | (refine Runs_cons_issue ?_ ?_; exact rfl)
        | exact Runs_refl _)

theorem Runs_Render_camera (scene : Scene) (r : Renderer) (camera : Camera) :
    Runs r (Render_camera scene r camera)
      (camera_cmds r.display_configuration.UsesMSAA r.display_configuration.GetAADescriptor
        camera) := by
  unfold Render_camera camera_cmds
  by_cases ha : State.Active ≠ camera.GetState
  · rw [if_pos ha, if_pos ha]
    exact Runs_refl r
  · simp only [ha, if_false, scene_cmds]
    have h1 : Runs r ((r.callOutputManager OutputManagerCall.BindBegin).issue
        (Cmd.BindCameraBuffer camera))
        [Cmd.OutputManager OutputManagerCall.BindBegin, Cmd.BindCameraBuffer camera] :=
      Runs_cons_call (Runs_cons_issue rfl (Runs_refl _))
    have h2 := Runs_Render_mode ((r.callOutputManager OutputManagerCall.BindBegin).issue
        (Cmd.BindCameraBuffer camera)) scene camera
    have h3 := Runs_Render_layers (((r.callOutputManager OutputManagerCall.BindBegin).issue
        (Cmd.BindCameraBuffer camera)).Render_mode scene camera) camera
    have h4 : Runs ((((r.callOutputManager OutputManagerCall.BindBegin).issue
        (Cmd.BindCameraBuffer camera)).Render_mode scene camera).Render_layers camera)
        (((((r.callOutputManager OutputManagerCall.BindBegin).issue
        (Cmd.BindCameraBuffer camera)).Render_mode scene camera).Render_layers
          camera).callOutputManager OutputManagerCall.BindEndForward)
        [Cmd.OutputManager OutputManagerCall.BindEndForward] :=
      Runs_cons_call (Runs_refl _)
    have h5 := Runs_ExecuteAAPipeline (((((r.callOutputManager
        OutputManagerCall.BindBegin).issue
        (Cmd.BindCameraBuffer camera)).Render_mode scene camera).Render_layers
          camera).callOutputManager OutputManagerCall.BindEndForward) camera
    have h6 := Runs_Render_postprocessing ((((((r.callOutputManager
        OutputManagerCall.BindBegin).issue
        (Cmd.BindCameraBuffer camera)).Render_mode scene camera).Render_layers
          camera).callOutputManager OutputManagerCall.BindEndForward).ExecuteAAPipeline
          camera) camera
    have h := Runs_trans (Runs_trans (Runs_trans (Runs_trans (Runs_trans h1 h2) h3) h4) h5) h6
    simpa only [issue_display_configuration, callOutputManager_display_configuration,
      Render_mode_display_configuration, Render_layers_display_configuration] using h

end Renderer

namespace Renderer

theorem replay_cmds (hlsl : HLSL) (cs : List Cmd) (s : OutputManager × DeviceContext) :
    (replay hlsl cs s).map Event.cmd = cs := by
  induction cs generalizing s with
  | nil => rfl
  | cons c cs ih => simp [replay, ih]

theorem replay_filter_nil (hlsl : HLSL) (p : Cmd → Bool) (cs : List Cmd)
    (s : OutputManager × DeviceContext) (h : cs.all (fun c => !p c) = true) :
    (replay hlsl cs s).filter (fun e => p e.cmd) = [] := by
  induction cs generalizing s with
  | nil => rfl
  | cons c cs ih =>
    simp only [List.all_cons, Bool.and_eq_true, Bool.not_eq_true'] at h
    simp [replay, h.1, ih _ (by simpa using h.2)]

theorem step_manager_keeps (hlsl : HLSL) (c : Cmd) (s : OutputManager × DeviceContext)
    (h : c.writes_flag = false) : (step hlsl s c).1 = s.1 := by
  unfold step
  cases c <;> simp only [Cmd.outputManagerCall]
  case OutputManager call =>
    rw [OutputManager.run_manager]
    cases call <;> simp [Cmd.writes_flag] at h <;> rfl

theorem exec_manager_keeps (hlsl : HLSL) (cs : List Cmd) (s : OutputManager × DeviceContext)
    (h : cs.all (fun c => !c.writes_flag) = true) : (exec hlsl cs s).1 = s.1 := by
  induction cs generalizing s with
  | nil => rfl
  | cons c cs ih =>
    simp only [List.all_cons, Bool.and_eq_true, Bool.not_eq_true'] at h
    have h2 : cs.all (fun c => !c.writes_flag) = true := by simpa using h.2
    simp only [exec, List.foldl_cons] at ih ⊢
    rw [ih _ h2, step_manager_keeps hlsl c s h.1]

theorem mode_cmds_flag (uses_msaa : Bool) (camera : Camera) :
    (mode_cmds uses_msaa camera).all
      (fun c => !(c.writes_flag || c.isPostProcessingDispatch)) = true := by
  unfold mode_cmds
  cases camera.GetSettings.GetRenderMode <;> cases uses_msaa <;>
    simp [Cmd.writes_flag, Cmd.isPostProcessingDispatch]

theorem layers_cmds_flag (camera : Camera) :
    (layers_cmds camera).all
      (fun c => !(c.writes_flag || c.isPostProcessingDispatch)) = true := by
  unfold layers_cmds
  cases camera.GetSettings.ContainsRenderLayer RenderLayer.Wireframe <;>
    cases camera.GetSettings.ContainsRenderLayer RenderLayer.AABB <;>
      simp [Cmd.writes_flag, Cmd.isPostProcessingDispatch]

/-- The commands of an active camera up to `BindEndForward`. -/
theorem scene_cmds_split (uses_msaa : Bool) (desc : AADescriptor) (camera : Camera) :
    scene_cmds uses_msaa desc camera ++ postprocessing_cmds camera =
      [Cmd.OutputManager OutputManagerCall.BindBegin] ++
      (([Cmd.BindCameraBuffer camera] ++ mode_cmds uses_msaa camera ++ layers_cmds camera ++
        [Cmd.OutputManager OutputManagerCall.BindEndForward]) ++
       (aa_cmds desc camera ++ postprocessing_cmds camera)) := by
  simp [scene_cmds, List.append_assoc]

theorem middle_cmds_flag (uses_msaa : Bool) (camera : Camera) :
    ([Cmd.BindCameraBuffer camera] ++ mode_cmds uses_msaa camera ++ layers_cmds camera ++
      [Cmd.OutputManager OutputManagerCall.BindEndForward]).all
      (fun c => !(c.writes_flag || c.isPostProcessingDispatch)) = true := by
  simp only [List.all_append, mode_cmds_flag, layers_cmds_flag]
  simp [Cmd.writes_flag, Cmd.isPostProcessingDispatch]

theorem GetSRV_flag (om : OutputManager) (b : Bool) (i : SRVIndex) :
    OutputManager.GetSRV { om with m_hdr0_to_hdr1 := b } i = om.GetSRV i := rfl

theorem GetUAV_flag (om : OutputManager) (b : Bool) (i : UAVIndex) :
    OutputManager.GetUAV { om with m_hdr0_to_hdr1 := b } i = om.GetUAV i := rfl

theorem GetRTV_flag (om : OutputManager) (b : Bool) (i : RTVIndex) :
    OutputManager.GetRTV { om with m_hdr0_to_hdr1 := b } i = om.GetRTV i := rfl

/-- The anti-aliasing and post-processing commands run from a manager whose
flag is true: the flag they leave, the read view `BindEnd` leaves in the
pixel-shader image slot, and the compute-write view bound at the last resolve,
anti-aliasing or depth-of-field dispatch. -/
theorem suffix_ping_pong (hlsl : HLSL) (desc : AADescriptor) (camera : Camera)
    (om : OutputManager) (ctx : DeviceContext) :
    ((exec hlsl (aa_cmds desc camera ++ postprocessing_cmds camera)
        ({ om with m_hdr0_to_hdr1 := true }, ctx)).1
      = { om with m_hdr0_to_hdr1 :=
            !(decide (desc = AADescriptor.FXAA) != camera.GetLens.HasFiniteAperture) }) ∧
    ((exec hlsl (aa_cmds desc camera ++ postprocessing_cmds camera)
        ({ om with m_hdr0_to_hdr1 := true }, ctx)).2.ps_srvs hlsl.SLOT_SRV_IMAGE
      = om.GetSRV
          (if (decide (desc = AADescriptor.FXAA) != camera.GetLens.HasFiniteAperture) then
            SRVIndex.PostProcessing_HDR1 else SRVIndex.PostProcessing_HDR0)) ∧
    (((replay hlsl (aa_cmds desc camera ++ postprocessing_cmds camera)
        ({ om with m_hdr0_to_hdr1 := true }, ctx)).filter
          (fun e => e.cmd.isPostProcessingDispatch)).getLast?.map
        (fun e => e.ctx.cs_uavs hlsl.SLOT_UAV_IMAGE)
      = if desc = AADescriptor.None ∧ camera.GetLens.HasFiniteAperture = false then none
        else some (om.GetUAV
          (if (decide (desc = AADescriptor.FXAA) != camera.GetLens.HasFiniteAperture) then
            UAVIndex.PostProcessing_HDR1 else UAVIndex.PostProcessing_HDR0))) := by
  unfold aa_cmds postprocessing_cmds
  refine ⟨?_, ?_, ?_⟩ <;>
  cases desc <;> cases camera.GetLens.HasFiniteAperture <;>
    simp [replay, exec, step, Cmd.outputManagerCall, OutputManagerCall.run,
      OutputManager.BindBeginResolve, OutputManager.BindEndResolve,
      OutputManager.BindPingPong, OutputManager.BindBeginPostProcessing,
      OutputManager.BindEnd, Pipeline.PS.BindSRV, Pipeline.PS.BindSRVs, Pipeline.CS.BindSRV,
      Pipeline.CS.BindSRVs, Pipeline.CS.BindUAV, Pipeline.CS.BindUAVs,
      Pipeline.OM.BindRTVAndDSV, Pipeline.OM.BindRTVsAndDSV,
      OutputManager.bindSlots_apply, Cmd.isPostProcessingDispatch, GetSRV_flag, GetUAV_flag]

end Renderer

namespace Renderer

theorem hdr_views {device : Device} {display_configuration : DisplayConfiguration}
    {swap_chain : SwapChain} {om : OutputManager}
    (h : OutputManager.create device display_configuration swap_chain = Except.ok om) :
    ((om.GetSRV SRVIndex.PostProcessing_HDR0).map View.texture
        = some (device.textures.length
            + (if display_configuration.GetAADescriptor = AADescriptor.None then 4 else 5)) ∧
      (om.GetUAV UAVIndex.PostProcessing_HDR0).map View.texture
        = some (device.textures.length
            + (if display_configuration.GetAADescriptor = AADescriptor.None then 4 else 5))) ∧
    ((om.GetSRV SRVIndex.PostProcessing_HDR1).map View.texture
        = some (device.textures.length
            + (if display_configuration.GetAADescriptor = AADescriptor.None then 5 else 6)) ∧
      (om.GetUAV UAVIndex.PostProcessing_HDR1).map View.texture
        = some (device.textures.length
            + (if display_configuration.GetAADescriptor = AADescriptor.None then 5 else 6))) ∧
    (display_configuration.GetAADescriptor = AADescriptor.None →
      om.GetSRV SRVIndex.PostProcessing_HDR0 = om.GetSRV SRVIndex.HDR) := by
  rw [OutputManager.create_ok h]
  rcases display_configuration with ⟨w, ht, aa, um⟩
  refine ⟨⟨?_, ?_⟩, ⟨?_, ?_⟩, ?_⟩ <;>
  cases aa <;>
    simp [OutputManager.GetSRV, OutputManager.GetRTV, OutputManager.GetUAV,
      OutputManager.SetupBuffers_done,
      OutputManager.SetupBuffers_switch, OutputManager.initial, OutputManager.setSRV,
      OutputManager.setRTV, OutputManager.setUAV, DisplayConfiguration.GetAADescriptor,
      DisplayConfiguration.GetDisplayWidth, DisplayConfiguration.GetDisplayHeight,
      OutputManager.SetupBuffer_done_srvs, OutputManager.SetupBuffer_done_rtvs,
      OutputManager.SetupBuffer_done_uavs, OutputManager.SetupBuffer_done_textures,
      OutputManager.SetupBuffer_done_nb_views,
      OutputManager.SetupBuffer_done_msaa, OutputManager.SetupBuffer_done_ssaa,
      OutputManager.SetupBuffer_done_dsv,
      OutputManager.SetupDepthBuffer_done_srvs, OutputManager.SetupDepthBuffer_done_rtvs,
      OutputManager.SetupDepthBuffer_done_dsv,
      OutputManager.SetupDepthBuffer_done_uavs, OutputManager.SetupDepthBuffer_done_textures,
      OutputManager.SetupDepthBuffer_done_nb_views, OutputManager.SetupDepthBuffer_done_msaa,
      OutputManager.SetupDepthBuffer_done_ssaa]

theorem active_camera_exec (scene : Scene) (r : Renderer) (camera : Camera)
    (om : OutputManager) (flag : Bool)
    (hom : r.output_manager = { om with m_hdr0_to_hdr1 := flag })
    (hactive : camera.GetState = State.Active) :
    ∃ ctx1 : DeviceContext,
      ((Render_camera scene r camera).output_manager,
        (Render_camera scene r camera).m_device_context)
        = exec r.hlsl
            (aa_cmds r.display_configuration.GetAADescriptor camera ++
              postprocessing_cmds camera)
            ({ om with m_hdr0_to_hdr1 := true }, ctx1) ∧
      ((Render_camera scene r camera).issued.drop r.issued.length).filter
          (fun e => e.cmd.isPostProcessingDispatch)
        = (replay r.hlsl
            (aa_cmds r.display_configuration.GetAADescriptor camera ++
              postprocessing_cmds camera)
            ({ om with m_hdr0_to_hdr1 := true }, ctx1)).filter
          (fun e => e.cmd.isPostProcessingDispatch) := by
  have hact : ¬ (State.Active ≠ camera.GetState) := by simp [hactive]
  have hR := Runs_Render_camera scene r camera
  simp only [camera_cmds, hact, if_false, scene_cmds_split] at hR
  have hmid := middle_cmds_flag r.display_configuration.UsesMSAA camera
  have hkeep := exec_manager_keeps r.hlsl _
    (step r.hlsl (r.output_manager, r.m_device_context)
      (Cmd.OutputManager OutputManagerCall.BindBegin)) (all_weaken_left hmid)
  have hbegin : (step r.hlsl (r.output_manager, r.m_device_context)
      (Cmd.OutputManager OutputManagerCall.BindBegin)).1 = { om with m_hdr0_to_hdr1 := true } := by
    simp [step, Cmd.outputManagerCall, OutputManager.run_manager, hom]
  have hs1 : exec r.hlsl
      ([Cmd.BindCameraBuffer camera] ++ mode_cmds r.display_configuration.UsesMSAA camera ++
        layers_cmds camera ++ [Cmd.OutputManager OutputManagerCall.BindEndForward])
      (step r.hlsl (r.output_manager, r.m_device_context)
        (Cmd.OutputManager OutputManagerCall.BindBegin))
      = ({ om with m_hdr0_to_hdr1 := true },
         (exec r.hlsl
          ([Cmd.BindCameraBuffer camera] ++ mode_cmds r.display_configuration.UsesMSAA camera ++
            layers_cmds camera ++ [Cmd.OutputManager OutputManagerCall.BindEndForward])
          (step r.hlsl (r.output_manager, r.m_device_context)
            (Cmd.OutputManager OutputManagerCall.BindBegin))).2) := by
    rw [← hbegin, ← hkeep]
  refine ⟨(exec r.hlsl
      ([Cmd.BindCameraBuffer camera] ++ mode_cmds r.display_configuration.UsesMSAA camera ++
        layers_cmds camera ++ [Cmd.OutputManager OutputManagerCall.BindEndForward])
      (step r.hlsl (r.output_manager, r.m_device_context)
        (Cmd.OutputManager OutputManagerCall.BindBegin))).2, ?_, ?_⟩
  · rw [hR.state_eq, exec_append, exec_append, ← hs1]
    rfl
  · rw [hR.issued_eq, List.drop_left, replay_append, replay_append, List.filter_append,
      List.filter_append,
      replay_filter_nil r.hlsl Cmd.isPostProcessingDispatch _ _ (all_weaken hmid), ← hs1]
    simp [replay, Cmd.isPostProcessingDispatch, exec]

end Renderer

namespace Renderer

/-- C26: for an active camera and a manager from a successful setup, the
commands after `BindEndForward` are: for FXAA `BindBeginResolve`, the
preprocess dispatch, `BindEndResolve`, `BindPingPong`, the FXAA dispatch; for
MSAA and SSAA `BindBeginResolve`, the resolve dispatch, `BindEndResolve`; then
`BindBeginPostProcessing`, the viewport binding, iff the lens has a finite
aperture `BindPingPong` and the depth-of-field dispatch, then `BindEnd` and the
back buffer pass; the commands before them hold no `BindPingPong` and no such
dispatch.  The flag `BindEnd` finds is false iff exactly one of "AA is FXAA"
and "finite aperture" holds, and `BindEnd` leaves the read view of
`PostProcessing_HDR1` in the pixel-shader image slot in that case and the read
view of `PostProcessing_HDR0` otherwise.  The compute-write view bound at the
last resolve, anti-aliasing or depth-of-field dispatch of the camera is that of
the same surface, a view on the same texture as the read view; with `None` and
no depth of field there is no such dispatch and the read view is that of
`HDR`. -/
theorem ping_pong_flips_once_per_dispatch (device : Device) (swap_chain : SwapChain)
    (om : OutputManager) (flag : Bool) (scene : Scene) (r : Renderer) (camera : Camera)
    (hcreate : OutputManager.create device r.display_configuration swap_chain = Except.ok om)
    (hom : r.output_manager = { om with m_hdr0_to_hdr1 := flag })
    (hactive : camera.GetState = State.Active) :
    ((Render_camera scene r camera).cmds.drop r.cmds.length =
      [Cmd.OutputManager OutputManagerCall.BindBegin, Cmd.BindCameraBuffer camera] ++
      (r.Render_mode scene camera).cmds.drop r.cmds.length ++
      (r.Render_layers camera).cmds.drop r.cmds.length ++
      [Cmd.OutputManager OutputManagerCall.BindEndForward] ++
      (match r.display_configuration.GetAADescriptor with
       | AADescriptor.None => []
       | AADescriptor.FXAA =>
         [Cmd.OutputManager OutputManagerCall.BindBeginResolve,
          Cmd.AAPass_DispatchAAPreprocess camera.GetSSViewport AADescriptor.FXAA,
          Cmd.OutputManager OutputManagerCall.BindEndResolve,
          Cmd.OutputManager OutputManagerCall.BindPingPong,
          Cmd.AAPass_DispatchAA camera.GetSSViewport AADescriptor.FXAA]
       | _ =>
         [Cmd.OutputManager OutputManagerCall.BindBeginResolve,
          Cmd.AAPass_DispatchAA camera.GetSSViewport r.display_configuration.GetAADescriptor,
          Cmd.OutputManager OutputManagerCall.BindEndResolve]) ++
      [Cmd.OutputManager OutputManagerCall.BindBeginPostProcessing,
       Cmd.BindViewport camera.GetViewport] ++
      (if camera.GetLens.HasFiniteAperture then
        [Cmd.OutputManager OutputManagerCall.BindPingPong,
         Cmd.DOFPass_Dispatch camera.GetViewport] else []) ++
      [Cmd.OutputManager OutputManagerCall.BindEnd,
       Cmd.BackBufferPass_BindFixedState, Cmd.BackBufferPass_Render]) ∧
    (((r.Render_mode scene camera).cmds.drop r.cmds.length).all
        (fun c => !(c.writes_flag || c.isPostProcessingDispatch)) = true ∧
      ((r.Render_layers camera).cmds.drop r.cmds.length).all
        (fun c => !(c.writes_flag || c.isPostProcessingDispatch)) = true) ∧
    ((Render_camera scene r camera).output_manager
      = { om with m_hdr0_to_hdr1 :=
            !(decide (r.display_configuration.GetAADescriptor = AADescriptor.FXAA)
              != camera.GetLens.HasFiniteAperture) }) ∧
    ((Render_camera scene r camera).m_device_context.ps_srvs r.hlsl.SLOT_SRV_IMAGE
      = om.GetSRV
          (if (decide (r.display_configuration.GetAADescriptor = AADescriptor.FXAA)
              != camera.GetLens.HasFiniteAperture) then
            SRVIndex.PostProcessing_HDR1 else SRVIndex.PostProcessing_HDR0)) ∧
    ((((Render_camera scene r camera).issued.drop r.issued.length).filter
          (fun e => e.cmd.isPostProcessingDispatch)).getLast?.map
        (fun e => e.ctx.cs_uavs r.hlsl.SLOT_UAV_IMAGE)
      = if r.display_configuration.GetAADescriptor = AADescriptor.None ∧
            camera.GetLens.HasFiniteAperture = false then none
        else some (om.GetUAV
          (if (decide (r.display_configuration.GetAADescriptor = AADescriptor.FXAA)
              != camera.GetLens.HasFiniteAperture) then
            UAVIndex.PostProcessing_HDR1 else UAVIndex.PostProcessing_HDR0))) ∧
    (((om.GetUAV UAVIndex.PostProcessing_HDR0).map View.texture
        = (om.GetSRV SRVIndex.PostProcessing_HDR0).map View.texture ∧
      (om.GetSRV SRVIndex.PostProcessing_HDR0).isSome = true) ∧
     ((om.GetUAV UAVIndex.PostProcessing_HDR1).map View.texture
        = (om.GetSRV SRVIndex.PostProcessing_HDR1).map View.texture ∧
      (om.GetSRV SRVIndex.PostProcessing_HDR1).isSome = true) ∧
     (if r.display_configuration.GetAADescriptor = AADescriptor.None then
       om.GetSRV SRVIndex.PostProcessing_HDR0 = om.GetSRV SRVIndex.HDR else True)) := by
  have hact : ¬ (State.Active ≠ camera.GetState) := by simp [hactive]
  obtain ⟨ctx1, hexec, hfilter⟩ := active_camera_exec scene r camera om flag hom hactive
  obtain ⟨hs1, hs2, hs3⟩ := suffix_ping_pong r.hlsl r.display_configuration.GetAADescriptor
    camera om ctx1
  obtain ⟨⟨v0s, v0u⟩, ⟨v1s, v1u⟩, vnone⟩ := hdr_views hcreate
  have hfst := congrArg Prod.fst hexec
  have hsnd := congrArg Prod.snd hexec
  simp only at hfst hsnd
  refine ⟨?_, ⟨?_, ?_⟩, ?_, ?_, ?_, ⟨⟨?_, ?_⟩, ⟨?_, ?_⟩, ?_⟩⟩
  · rw [Render_camera_cmds, Render_mode_cmds, Render_layers_cmds]
    simp only [List.drop_left, camera_cmds, hact, if_false, scene_cmds, aa_cmds,
      postprocessing_cmds]
    cases r.display_configuration.GetAADescriptor <;> simp [List.append_assoc]
  · rw [Render_mode_cmds, List.drop_left]
    exact mode_cmds_flag _ camera
  · rw [Render_layers_cmds, List.drop_left]
    exact layers_cmds_flag camera
  · rw [hfst, hs1]
  · rw [hsnd, hs2]
  · rw [hfilter, hs3]
  · rw [v0s, v0u]
  · cases hx : om.GetSRV SRVIndex.PostProcessing_HDR0 <;> simp [hx] at v0s ⊢
  · rw [v1s, v1u]
  · cases hx : om.GetSRV SRVIndex.PostProcessing_HDR1 <;> simp [hx] at v1s ⊢
  · split
    · rename_i hn
      exact vnone hn
    · trivial

end Renderer

namespace Renderer

theorem ping_pong_flips_once_per_dispatch_witness :
    (OutputManager.create Device.reliable (example_configuration AADescriptor.MSAA_4x)
        example_swap_chain = Except.ok (example_manager AADescriptor.MSAA_4x) ∧
      (example_renderer AADescriptor.MSAA_4x).output_manager
        = { example_manager AADescriptor.MSAA_4x with m_hdr0_to_hdr1 := true } ∧
      (example_camera RenderMode.Forward true).GetState = State.Active) ∧
    ((Render_camera ⟨[]⟩ (example_renderer AADescriptor.MSAA_4x)
        (example_camera RenderMode.Forward true)).m_device_context.ps_srvs
        (example_renderer AADescriptor.MSAA_4x).hlsl.SLOT_SRV_IMAGE
      = (example_manager AADescriptor.MSAA_4x).GetSRV
          (if (decide ((example_renderer AADescriptor.MSAA_4x).display_configuration.GetAADescriptor
                = AADescriptor.FXAA)
              != (example_camera RenderMode.Forward true).GetLens.HasFiniteAperture) then
            SRVIndex.PostProcessing_HDR1 else SRVIndex.PostProcessing_HDR0)) :=
  ⟨⟨rfl, rfl, rfl⟩,
    (ping_pong_flips_once_per_dispatch Device.reliable example_swap_chain
      (example_manager AADescriptor.MSAA_4x) true ⟨[]⟩ (example_renderer AADescriptor.MSAA_4x)
      (example_camera RenderMode.Forward true)
      (show OutputManager.create Device.reliable (example_configuration AADescriptor.MSAA_4x)
        example_swap_chain = Except.ok (example_manager AADescriptor.MSAA_4x) from rfl)
      rfl rfl).2.2.2.1⟩

end Renderer

namespace Renderer

theorem getD_none1 (k : Nat) : ([none] : List (Option View))[k]?.getD none = none := by
  rcases k with _ | k <;> simp

theorem map_texture_some {x : Option View} {n : Nat}
    (h : x.map View.texture = some n) : ∃ v : View, x = some v ∧ v.texture = n := by
  cases x with
  | none => simp at h
  | some v => exact ⟨v, rfl, by simpa using h⟩

theorem slot_cases (B I : Nat) :
    I = B ∨ I = B + 1 ∨ I = B + 2 ∨ I = B + 3 ∨
      (I ≠ B ∧ I ≠ B + 1 ∧ I ≠ B + 2 ∧ I ≠ B + 3 ∧
        B ≠ I ∧ B + 1 ≠ I ∧ B + 2 ≠ I ∧ B + 3 ≠ I ∧ ¬ (B ≤ I ∧ I < B + 4)) := by
  omega

/-- The textures behind the views of a manager that was set up, counted from
the number of textures the device held before. -/
theorem surface_textures {device : Device} {display_configuration : DisplayConfiguration}
    {swap_chain : SwapChain} {om : OutputManager}
    (h : OutputManager.create device display_configuration swap_chain = Except.ok om) :
    om.read_textures =
      [some (device.textures.length + 4), some (device.textures.length + 1),
       some (device.textures.length + 2), some (device.textures.length + 3),
       some device.textures.length,
       some (device.textures.length
         + (if display_configuration.GetAADescriptor = AADescriptor.None then 4 else 5)),
       some (device.textures.length
         + (if display_configuration.GetAADescriptor = AADescriptor.None then 5 else 6)),
       some (device.textures.length
         + (if display_configuration.GetAADescriptor = AADescriptor.None ∨
               display_configuration.GetAADescriptor = AADescriptor.FXAA then 3 else 8)),
       some (device.textures.length
         + (if display_configuration.GetAADescriptor = AADescriptor.None ∨
               display_configuration.GetAADescriptor = AADescriptor.FXAA then 0 else 7))] ∧
    om.write_textures =
      [some (device.textures.length + 4), some (device.textures.length + 1),
       some (device.textures.length + 2), some (device.textures.length + 3),
       some device.textures.length,
       (if om.m_msaa then none else some (device.textures.length + 4)),
       some (device.textures.length
         + (if display_configuration.GetAADescriptor = AADescriptor.None then 4 else 5)),
       some (device.textures.length
         + (if display_configuration.GetAADescriptor = AADescriptor.None then 5 else 6)),
       (if display_configuration.GetAADescriptor = AADescriptor.None ∨
           display_configuration.GetAADescriptor = AADescriptor.FXAA then none
        else some (device.textures.length + 8)),
       (if display_configuration.GetAADescriptor = AADescriptor.None ∨
           display_configuration.GetAADescriptor = AADescriptor.FXAA then none
        else some (device.textures.length + 7))] := by
  rw [OutputManager.create_ok h]
  rcases display_configuration with ⟨w, ht, aa, um⟩
  refine ⟨?_, ?_⟩ <;>
  cases aa <;>
    simp [OutputManager.read_textures, OutputManager.write_textures,
      OutputManager.GetSRV, OutputManager.GetRTV, OutputManager.GetUAV,
      OutputManager.SetupBuffers_done,
      OutputManager.SetupBuffers_switch, OutputManager.initial, OutputManager.setSRV,
      OutputManager.setRTV, OutputManager.setUAV, DisplayConfiguration.GetAADescriptor,
      DisplayConfiguration.GetDisplayWidth, DisplayConfiguration.GetDisplayHeight,
      OutputManager.SetupBuffer_done_srvs, OutputManager.SetupBuffer_done_rtvs,
      OutputManager.SetupBuffer_done_uavs, OutputManager.SetupBuffer_done_textures,
      OutputManager.SetupBuffer_done_nb_views,
      OutputManager.SetupBuffer_done_msaa, OutputManager.SetupBuffer_done_ssaa,
      OutputManager.SetupBuffer_done_dsv,
      OutputManager.SetupDepthBuffer_done_srvs, OutputManager.SetupDepthBuffer_done_rtvs,
      OutputManager.SetupDepthBuffer_done_dsv,
      OutputManager.SetupDepthBuffer_done_uavs, OutputManager.SetupDepthBuffer_done_textures,
      OutputManager.SetupDepthBuffer_done_nb_views, OutputManager.SetupDepthBuffer_done_msaa,
      OutputManager.SetupDepthBuffer_done_ssaa]

theorem hazard_free_of_reads (hlsl : HLSL) (ctx : DeviceContext)
    (h : ctx.reads hlsl = [none, none, none, none, none, none, none, none, none, none]) :
    ctx.hazard_free hlsl = true := by
  have h0 : textures_of [none, none, none, none, none, none, none, none, none, none] = [] := rfl
  unfold DeviceContext.hazard_free
  rw [h, h0]
  simp

theorem safe_of_hazard_free (hlsl : HLSL) (back_buffer : Option View) (c : Cmd)
    (ctx : DeviceContext) (hc : c.isBackBufferRender = false)
    (h : ctx.hazard_free hlsl = true) :
    Event.safe hlsl back_buffer { cmd := c, ctx := ctx } = true := by
  simp [Event.safe, hc, h]

theorem step_keeps (hlsl : HLSL) (c : Cmd) (s : OutputManager × DeviceContext)
    (h : c.keeps_slots = true) :
    (step hlsl s c).1 = s.1 ∧ (step hlsl s c).2.reads hlsl = s.2.reads hlsl ∧
      (step hlsl s c).2.unordered hlsl = s.2.unordered hlsl := by
  unfold step
  cases c <;> simp only [Cmd.outputManagerCall, and_self]
  case OutputManager call =>
    cases call <;> simp [Cmd.keeps_slots] at h <;> exact ⟨rfl, rfl, rfl⟩

/-- Commands that leave the managed slots alone, run from a state with no
managed read slot bound: every event passes the hazard check and the slots
stay as they were. -/
theorem replay_keeps (hlsl : HLSL) (back_buffer : Option View) (cs : List Cmd)
    (s : OutputManager × DeviceContext)
    (h : cs.all Cmd.isPlain = true) (hq : s.2.quiet hlsl) :
    (replay hlsl cs s).all (Event.safe hlsl back_buffer) = true ∧
    (exec hlsl cs s).1 = s.1 ∧ (exec hlsl cs s).2.quiet hlsl := by
  induction cs generalizing s with
  | nil => exact ⟨rfl, rfl, hq⟩
  | cons c cs ih =>
    simp only [List.all_cons, Bool.and_eq_true, Cmd.isPlain, Bool.not_eq_true'] at h
    obtain ⟨k1, k2, k3⟩ := step_keeps hlsl c s h.1.1
    have hq2 : (step hlsl s c).2.quiet hlsl := ⟨k2.trans hq.1, k3.trans hq.2⟩
    obtain ⟨i1, i2, i3⟩ := ih (step hlsl s c)
      (by simpa only [List.all_eq_true, Cmd.isPlain, Bool.and_eq_true, Bool.not_eq_true']
        using h.2) hq2
    refine ⟨?_, ?_, ?_⟩
    · simp only [replay, List.all_cons, Bool.and_eq_true]
      exact ⟨safe_of_hazard_free hlsl back_buffer c _ h.1.2
        (hazard_free_of_reads hlsl _ hq2.1), i1⟩
    · simp only [exec, List.foldl_cons] at i2 ⊢
      rw [i2, k1]
    · simpa only [exec, List.foldl_cons] using i3

theorem BindBegin_quiet (hlsl : HLSL) (om : OutputManager) (ctx : DeviceContext)
    (h : ctx.unordered_idle hlsl) :
    (step hlsl (om, ctx) (Cmd.OutputManager OutputManagerCall.BindBegin)).1
        = { om with m_hdr0_to_hdr1 := true } ∧
    (step hlsl (om, ctx) (Cmd.OutputManager OutputManagerCall.BindBegin)).2.quiet hlsl := by
  have e1 : ∀ a s : Nat, (a ≤ s ∧ s < a + 1) ↔ s = a := by intro a s; omega
  refine ⟨rfl, ?_, ?_⟩
  · simp [step, Cmd.outputManagerCall, OutputManagerCall.run, OutputManager.BindBegin,
      Pipeline.PS.BindSRV, Pipeline.PS.BindSRVs, Pipeline.CS.BindSRV, Pipeline.CS.BindSRVs,
      Pipeline.OM.ClearRTV, Pipeline.OM.ClearDepthOfDSV, OutputManager.bindSlots_apply,
      DeviceContext.reads, HLSL.SLOT_SRV_MATERIAL, HLSL.SLOT_SRV_NORMAL, HLSL.SLOT_SRV_DEPTH,
      OutputManager.getD_none4, getD_none1, e1]
  · exact h

end Renderer

namespace Renderer

/-- The deferred shading phase, entered with no managed slot and no write
target bound: the pass between `BindBeginDeferred` and `BindEndDeferred` reads
the G-buffer and writes the HDR surface, and the phase leaves the slots
unbound. -/
theorem deferred_hazard_free (hlsl : HLSL) (back_buffer : Option View) (c1 c2 : Cmd)
    (om : OutputManager) (ctx : DeviceContext) (t : Nat)
    (h1 : c1.outputManagerCall = none) (h2 : c2.outputManagerCall = none)
    (g1 : c1.isBackBufferRender = false) (g2 : c2.isBackBufferRender = false)
    (hq : ctx.quiet hlsl) (hr : ctx.om_rtvs = [none]) (hd : ctx.om_dsv = none)
    (hreads : (om.read_textures).take 5 =
      [some (t + 4), some (t + 1), some (t + 2), some (t + 3), some t])
    (hrtv : (om.GetRTV RTVIndex.HDR).map View.texture = some (t + 4))
    (huav : (om.GetUAV UAVIndex.HDR).map View.texture
      = if om.m_msaa then none else some (t + 4)) :
    (replay hlsl
        [Cmd.OutputManager OutputManagerCall.BindBeginDeferred, c1, c2,
         Cmd.OutputManager OutputManagerCall.BindEndDeferred] (om, ctx)).all
        (Event.safe hlsl back_buffer) = true ∧
    (exec hlsl
        [Cmd.OutputManager OutputManagerCall.BindBeginDeferred, c1, c2,
         Cmd.OutputManager OutputManagerCall.BindEndDeferred] (om, ctx)).1 = om ∧
    (exec hlsl
        [Cmd.OutputManager OutputManagerCall.BindBeginDeferred, c1, c2,
         Cmd.OutputManager OutputManagerCall.BindEndDeferred] (om, ctx)).2.quiet hlsl := by
  have e1 : ∀ a s : Nat, (a ≤ s ∧ s < a + 1) ↔ s = a := by intro a s; omega
  have s1 : ∀ s : OutputManager × DeviceContext, step hlsl s c1 = s := by
    intro s; simp only [step, h1]
  have s2 : ∀ s : OutputManager × DeviceContext, step hlsl s c2 = s := by
    intro s; simp only [step, h2]
  simp only [replay, exec, List.foldl_cons, List.foldl_nil, List.all_cons, List.all_nil,
    s1, s2, Bool.and_true, Bool.and_eq_true]
  have key :
      (step hlsl (om, ctx) (Cmd.OutputManager OutputManagerCall.BindBeginDeferred)).2.hazard_free
          hlsl = true ∧
      (step hlsl (step hlsl (om, ctx) (Cmd.OutputManager OutputManagerCall.BindBeginDeferred))
          (Cmd.OutputManager OutputManagerCall.BindEndDeferred)).1 = om ∧
      (step hlsl (step hlsl (om, ctx) (Cmd.OutputManager OutputManagerCall.BindBeginDeferred))
          (Cmd.OutputManager OutputManagerCall.BindEndDeferred)).2.quiet hlsl := by
    rcases hlsl with ⟨B, I, U⟩
    simp only [OutputManager.read_textures, List.map, List.take, List.cons.injEq, and_true]
      at hreads
    obtain ⟨-, r2, r3, r4, r5⟩ := hreads
    obtain ⟨_, r2, q2⟩ := map_texture_some r2
    obtain ⟨_, r3, q3⟩ := map_texture_some r3
    obtain ⟨_, r4, q4⟩ := map_texture_some r4
    obtain ⟨_, r5, q5⟩ := map_texture_some r5
    obtain ⟨_, w1, x1⟩ := map_texture_some hrtv
    simp only [DeviceContext.quiet, DeviceContext.reads, DeviceContext.unordered,
      HLSL.SLOT_SRV_MATERIAL, HLSL.SLOT_SRV_NORMAL, HLSL.SLOT_SRV_DEPTH, HLSL.SLOT_UAV_NORMAL,
      HLSL.SLOT_UAV_DEPTH, List.cons.injEq, and_true] at hq
    obtain ⟨⟨p1, p2, p3, p4, p5, c1, c2, c3, c4, c5⟩, u1, u2, u3⟩ := hq
    cases hm : om.m_msaa
    · rw [hm] at huav
      obtain ⟨_, w2, x2⟩ := map_texture_some huav
      rcases slot_cases B I with h | h | h | h | ⟨n1, n2, n3, n4, n5, n6, n7, n8, n9⟩ <;>
        (try subst h) <;>
        simp [step, Cmd.outputManagerCall, OutputManagerCall.run,
          OutputManager.BindBeginDeferred, OutputManager.BindEndDeferred,
          Pipeline.PS.BindSRV, Pipeline.PS.BindSRVs, Pipeline.CS.BindSRV,
          Pipeline.CS.BindSRVs, Pipeline.CS.BindUAV, Pipeline.CS.BindUAVs,
          Pipeline.OM.BindRTVAndDSV, Pipeline.OM.BindRTVsAndDSV,
          OutputManager.bindSlots_apply, DeviceContext.hazard_free, DeviceContext.quiet,
          DeviceContext.writes, DeviceContext.reads, DeviceContext.unordered, textures_of,
          HLSL.SLOT_SRV_MATERIAL, HLSL.SLOT_SRV_NORMAL, HLSL.SLOT_SRV_DEPTH,
          HLSL.SLOT_UAV_NORMAL, HLSL.SLOT_UAV_DEPTH, *]
    · rcases slot_cases B I with h | h | h | h | ⟨n1, n2, n3, n4, n5, n6, n7, n8, n9⟩ <;>
        (try subst h) <;>
        simp [step, Cmd.outputManagerCall, OutputManagerCall.run,
          OutputManager.BindBeginDeferred, OutputManager.BindEndDeferred,
          Pipeline.PS.BindSRV, Pipeline.PS.BindSRVs, Pipeline.CS.BindSRV,
          Pipeline.CS.BindSRVs, Pipeline.CS.BindUAV, Pipeline.CS.BindUAVs,
          Pipeline.OM.BindRTVAndDSV, Pipeline.OM.BindRTVsAndDSV,
          OutputManager.bindSlots_apply, DeviceContext.hazard_free, DeviceContext.quiet,
          DeviceContext.writes, DeviceContext.reads, DeviceContext.unordered, textures_of,
          HLSL.SLOT_SRV_MATERIAL, HLSL.SLOT_SRV_NORMAL, HLSL.SLOT_SRV_DEPTH,
          HLSL.SLOT_UAV_NORMAL, HLSL.SLOT_UAV_DEPTH, *]
  exact ⟨⟨safe_of_hazard_free _ _ _ _ rfl key.1, safe_of_hazard_free _ _ _ _ g1 key.1,
    safe_of_hazard_free _ _ _ _ g2 key.1,
    safe_of_hazard_free _ _ _ _ rfl (hazard_free_of_reads _ _ key.2.2.1)⟩, key.2.1, key.2.2⟩

end Renderer

namespace Renderer

theorem replay_all_append (hlsl : HLSL) (p : Event → Bool) (a b : List Cmd)
    (s : OutputManager × DeviceContext) (ha : (replay hlsl a s).all p = true)
    (hb : (replay hlsl b (exec hlsl a s)).all p = true) :
    (replay hlsl (a ++ b) s).all p = true := by
  rw [replay_append, List.all_append, ha, hb]
  rfl

/-- The commands of the render mode, entered with no managed slot bound: every
draw and dispatch is free of hazards, the manager is left as it was and the
slots are left unbound. -/
theorem mode_hazard_free (hlsl : HLSL) (back_buffer : Option View) (uses_msaa : Bool) (camera : Camera)
    (om : OutputManager) (ctx : DeviceContext) (t : Nat) (hq : ctx.quiet hlsl)
    (hreads : (om.read_textures).take 5 =
      [some (t + 4), some (t + 1), some (t + 2), some (t + 3), some t])
    (hrtv : (om.GetRTV RTVIndex.HDR).map View.texture = some (t + 4))
    (huav : (om.GetUAV UAVIndex.HDR).map View.texture
      = if om.m_msaa then none else some (t + 4)) :
    (replay hlsl (mode_cmds uses_msaa camera) (om, ctx)).all
        (Event.safe hlsl back_buffer) = true ∧
    (exec hlsl (mode_cmds uses_msaa camera) (om, ctx)).1 = om ∧
    (exec hlsl (mode_cmds uses_msaa camera) (om, ctx)).2.quiet hlsl := by
  unfold mode_cmds
  cases camera.GetSettings.GetRenderMode
  case Deferred =>
    have hd : ∀ c1 c2 : Cmd, c1.outputManagerCall = none → c2.outputManagerCall = none →
        c1.isBackBufferRender = false → c2.isBackBufferRender = false →
        (replay hlsl
          (([Cmd.LBufferPass_Render, Cmd.BindViewport camera.GetSSViewport,
            Cmd.OutputManager OutputManagerCall.BindBeginGBuffer,
            Cmd.GBufferPass_BindFixedState, Cmd.GBufferPass_Render,
            Cmd.OutputManager OutputManagerCall.BindEndGBuffer] ++
           [Cmd.OutputManager OutputManagerCall.BindBeginDeferred, c1, c2,
            Cmd.OutputManager OutputManagerCall.BindEndDeferred]) ++
           [Cmd.OutputManager OutputManagerCall.BindBeginForward,
            Cmd.VariableShadingPass_BindFixedState camera.GetSettings.GetBRDF,
            Cmd.VariableShadingPass_RenderEmissive,
            Cmd.SkyPass_BindFixedState, Cmd.SkyPass_Render,
            Cmd.VariableShadingPass_BindFixedState camera.GetSettings.GetBRDF,
            Cmd.VariableShadingPass_RenderTransparent]) (om, ctx)).all
          (Event.safe hlsl back_buffer) = true ∧
        (exec hlsl
          (([Cmd.LBufferPass_Render, Cmd.BindViewport camera.GetSSViewport,
            Cmd.OutputManager OutputManagerCall.BindBeginGBuffer,
            Cmd.GBufferPass_BindFixedState, Cmd.GBufferPass_Render,
            Cmd.OutputManager OutputManagerCall.BindEndGBuffer] ++
           [Cmd.OutputManager OutputManagerCall.BindBeginDeferred, c1, c2,
            Cmd.OutputManager OutputManagerCall.BindEndDeferred]) ++
           [Cmd.OutputManager OutputManagerCall.BindBeginForward,
            Cmd.VariableShadingPass_BindFixedState camera.GetSettings.GetBRDF,
            Cmd.VariableShadingPass_RenderEmissive,
            Cmd.SkyPass_BindFixedState, Cmd.SkyPass_Render,
            Cmd.VariableShadingPass_BindFixedState camera.GetSettings.GetBRDF,
            Cmd.VariableShadingPass_RenderTransparent]) (om, ctx)).1 = om ∧
        (exec hlsl
          (([Cmd.LBufferPass_Render, Cmd.BindViewport camera.GetSSViewport,
            Cmd.OutputManager OutputManagerCall.BindBeginGBuffer,
            Cmd.GBufferPass_BindFixedState, Cmd.GBufferPass_Render,
            Cmd.OutputManager OutputManagerCall.BindEndGBuffer] ++
           [Cmd.OutputManager OutputManagerCall.BindBeginDeferred, c1, c2,
            Cmd.OutputManager OutputManagerCall.BindEndDeferred]) ++
           [Cmd.OutputManager OutputManagerCall.BindBeginForward,
            Cmd.VariableShadingPass_BindFixedState camera.GetSettings.GetBRDF,
            Cmd.VariableShadingPass_RenderEmissive,
            Cmd.SkyPass_BindFixedState, Cmd.SkyPass_Render,
            Cmd.VariableShadingPass_BindFixedState camera.GetSettings.GetBRDF,
            Cmd.VariableShadingPass_RenderTransparent]) (om, ctx)).2.quiet hlsl := by
      intro c1 c2 h1 h2 g1 g2
      obtain ⟨a1, a2, a3⟩ := replay_keeps hlsl back_buffer
        [Cmd.LBufferPass_Render, Cmd.BindViewport camera.GetSSViewport,
          Cmd.OutputManager OutputManagerCall.BindBeginGBuffer,
          Cmd.GBufferPass_BindFixedState, Cmd.GBufferPass_Render,
          Cmd.OutputManager OutputManagerCall.BindEndGBuffer] (om, ctx) rfl hq
      have a4 : exec hlsl
          [Cmd.LBufferPass_Render, Cmd.BindViewport camera.GetSSViewport,
            Cmd.OutputManager OutputManagerCall.BindBeginGBuffer,
            Cmd.GBufferPass_BindFixedState, Cmd.GBufferPass_Render,
            Cmd.OutputManager OutputManagerCall.BindEndGBuffer] (om, ctx)
          = (om, { ctx with om_rtvs := [none], om_dsv := none }) := rfl
      rw [a4] at a3
      obtain ⟨b1, b2, b3⟩ := deferred_hazard_free hlsl back_buffer c1 c2 om
        { ctx with om_rtvs := [none], om_dsv := none } t h1 h2 g1 g2 a3 rfl rfl hreads hrtv huav
      obtain ⟨d1, d2, d3⟩ := replay_keeps hlsl back_buffer
        [Cmd.OutputManager OutputManagerCall.BindBeginForward,
          Cmd.VariableShadingPass_BindFixedState camera.GetSettings.GetBRDF,
          Cmd.VariableShadingPass_RenderEmissive,
          Cmd.SkyPass_BindFixedState, Cmd.SkyPass_Render,
          Cmd.VariableShadingPass_BindFixedState camera.GetSettings.GetBRDF,
          Cmd.VariableShadingPass_RenderTransparent]
        (exec hlsl [Cmd.OutputManager OutputManagerCall.BindBeginDeferred, c1, c2,
            Cmd.OutputManager OutputManagerCall.BindEndDeferred]
          (om, { ctx with om_rtvs := [none], om_dsv := none })) rfl b3
      refine ⟨?_, ?_, ?_⟩
      · refine replay_all_append hlsl _ _ _ _ (replay_all_append hlsl _ _ _ _ a1 ?_) ?_
        · rw [a4]; exact b1
        · rw [exec_append, a4]; exact d1
      · rw [exec_append, exec_append, a4, d2, b2]
      · rw [exec_append, exec_append, a4]; exact d3
    cases uses_msaa
    · exact hd _ _ rfl rfl rfl rfl
    · exact hd _ _ rfl rfl rfl rfl
  all_goals exact replay_keeps hlsl back_buffer _ (om, ctx) rfl hq

end Renderer

namespace Renderer

theorem bindSlots_one (slots : Nat → Option View) (start : Nat) (v : Option View) (s : Nat) :
    bindSlots slots start 1 [v] s = if s = start then v else slots s := by
  unfold bindSlots
  by_cases h0 : s = start
  · subst h0; simp
  have h : ¬ (start ≤ s ∧ s < start + 1) := by omega
  simp [h0, h]

theorem bindSlots_three (slots : Nat → Option View) (start : Nat) (a b c : Option View)
    (s : Nat) :
    bindSlots slots start 3 [a, b, c] s =
      if s = start then a else if s = start + 1 then b else if s = start + 2 then c
      else slots s := by
  unfold bindSlots
  by_cases h0 : s = start
  · subst h0; simp
  by_cases h1 : s = start + 1
  · subst h1; simp
  by_cases h2 : s = start + 2
  · subst h2; simp
  have h : ¬ (start ≤ s ∧ s < start + 3) := by omega
  simp [h0, h1, h2, h]

/-- The resolve of a multi-sampled or super-sampled image followed by post-processing:
no draw or dispatch has a hazard, the back buffer pass writes the swap chain only and
the compute read-write slots end unbound. -/
theorem suffix_hazard_free_resolve (hlsl : HLSL) (desc : AADescriptor) (camera : Camera)
    (om : OutputManager) (ctx : DeviceContext) (t : Nat)
    (hq : ctx.quiet hlsl) (hr : ctx.om_rtvs = [none]) (hd : ctx.om_dsv = none)
    (hreads : om.read_textures = 
      [some (t + 4), some (t + 1), some (t + 2), some (t + 3), some t, some (t + 5),
       some (t + 6), some (t + 8), some (t + 7)])
    (hwrites : (om.write_textures).drop 6 = 
      [some (t + 5), some (t + 6), some (t + 8), some (t + 7)]) :
    ((replay hlsl
        ([Cmd.OutputManager OutputManagerCall.BindBeginResolve,
          Cmd.AAPass_DispatchAA camera.GetSSViewport desc,
          Cmd.OutputManager OutputManagerCall.BindEndResolve] ++ postprocessing_cmds camera)
        ({ om with m_hdr0_to_hdr1 := true }, ctx)).all
        (Event.safe hlsl om.m_swap_chain.GetRTV) = true) ∧
    (exec hlsl
        ([Cmd.OutputManager OutputManagerCall.BindBeginResolve,
          Cmd.AAPass_DispatchAA camera.GetSSViewport desc,
          Cmd.OutputManager OutputManagerCall.BindEndResolve] ++ postprocessing_cmds camera)
        ({ om with m_hdr0_to_hdr1 := true }, ctx)).2.unordered_idle hlsl := by
  rcases hlsl with ⟨B, I, U⟩
  simp only [OutputManager.read_textures, OutputManager.write_textures, List.map,
    List.cons.injEq, and_true, List.drop, List.cons_append, List.nil_append,
    List.append_assoc, List.drop_succ_cons, List.drop_zero] at hreads hwrites
  obtain ⟨r1, r2, r3, r4, r5, r6, r7, r8, r9⟩ := hreads
  obtain ⟨w2, w3, w4, w5⟩ := hwrites
  obtain ⟨_, r1', q1⟩ := map_texture_some r1
  obtain ⟨_, r4', q4⟩ := map_texture_some r4
  obtain ⟨_, r5', q5⟩ := map_texture_some r5
  obtain ⟨_, r6', q6⟩ := map_texture_some r6
  obtain ⟨_, r7', q7⟩ := map_texture_some r7
  obtain ⟨_, r8', q8⟩ := map_texture_some r8
  obtain ⟨_, r9', q9⟩ := map_texture_some r9
  obtain ⟨_, w2', x2⟩ := map_texture_some w2
  obtain ⟨_, w3', x3⟩ := map_texture_some w3
  obtain ⟨_, w4', x4⟩ := map_texture_some w4
  obtain ⟨_, w5', x5⟩ := map_texture_some w5
  clear r1 r2 r3 r4 r5 r6 r7 r8 r9 w2 w3 w4 w5
  simp only [DeviceContext.quiet, DeviceContext.reads, DeviceContext.unordered,
    HLSL.SLOT_SRV_MATERIAL, HLSL.SLOT_SRV_NORMAL, HLSL.SLOT_SRV_DEPTH, HLSL.SLOT_UAV_NORMAL,
    HLSL.SLOT_UAV_DEPTH, List.cons.injEq, and_true] at hq
  obtain ⟨⟨p1, p2, p3, p4, p5, c1, c2, c3, c4, c5⟩, u1, u2, u3⟩ := hq
  unfold postprocessing_cmds
  cases camera.GetLens.HasFiniteAperture <;>
    simp only [replay, exec, List.foldl_cons, List.foldl_nil, List.all_cons, List.all_nil,
      List.cons_append, List.nil_append, List.append_nil, List.append_assoc, if_true, if_false,
      Bool.false_eq_true, Event.safe, Event.isChecked, Cmd.isDrawOrDispatch, Cmd.isDraw, Cmd.isDispatch,
      Cmd.isBackBufferRender, Bool.or_false, Bool.false_or, Bool.and_true, Bool.not_false,
      Bool.not_true, Bool.true_or, Bool.true_and, Bool.false_and, Bool.and_false,
      Bool.or_true] <;>
    (rcases slot_cases B I with h | h | h | h | ⟨n1, n2, n3, n4, n5, n6, n7, n8, n9⟩ <;>
      (try subst h) <;>
      simp [step, Cmd.outputManagerCall, OutputManagerCall.run,
        OutputManager.BindBeginResolve, OutputManager.BindEndResolve,
        OutputManager.BindPingPong, OutputManager.BindBeginPostProcessing,
        OutputManager.BindEnd, Pipeline.PS.BindSRV, Pipeline.PS.BindSRVs,
        Pipeline.CS.BindSRV, Pipeline.CS.BindSRVs, Pipeline.CS.BindUAV, Pipeline.CS.BindUAVs,
        Pipeline.OM.BindRTVAndDSV, Pipeline.OM.BindRTVsAndDSV,
        bindSlots_one, bindSlots_three, List.length_cons, List.length_nil, GetSRV_flag, GetUAV_flag, DeviceContext.hazard_free,
        DeviceContext.writes, DeviceContext.reads, DeviceContext.unordered,
        DeviceContext.unordered_idle, textures_of,
        HLSL.SLOT_SRV_MATERIAL, HLSL.SLOT_SRV_NORMAL, HLSL.SLOT_SRV_DEPTH,
        HLSL.SLOT_UAV_NORMAL, HLSL.SLOT_UAV_DEPTH, *])

/-- The two FXAA dispatches followed by post-processing: no draw or dispatch has a
hazard, the back buffer pass writes the swap chain only and the compute read-write
slots end unbound. -/
theorem suffix_hazard_free_FXAA (hlsl : HLSL) (desc : AADescriptor) (camera : Camera)
    (om : OutputManager) (ctx : DeviceContext) (t : Nat)
    (hq : ctx.quiet hlsl) (hr : ctx.om_rtvs = [none]) (hd : ctx.om_dsv = none)
    (hreads : om.read_textures = 
      [some (t + 4), some (t + 1), some (t + 2), some (t + 3), some t, some (t + 5),
       some (t + 6), some (t + 3), some t])
    (hwrites : (om.write_textures).drop 6 = 
      [some (t + 5), some (t + 6), none, none]) :
    ((replay hlsl
        ([Cmd.OutputManager OutputManagerCall.BindBeginResolve,
          Cmd.AAPass_DispatchAAPreprocess camera.GetSSViewport desc,
          Cmd.OutputManager OutputManagerCall.BindEndResolve,
          Cmd.OutputManager OutputManagerCall.BindPingPong,
          Cmd.AAPass_DispatchAA camera.GetSSViewport desc] ++ postprocessing_cmds camera)
        ({ om with m_hdr0_to_hdr1 := true }, ctx)).all
        (Event.safe hlsl om.m_swap_chain.GetRTV) = true) ∧
    (exec hlsl
        ([Cmd.OutputManager OutputManagerCall.BindBeginResolve,
          Cmd.AAPass_DispatchAAPreprocess camera.GetSSViewport desc,
          Cmd.OutputManager OutputManagerCall.BindEndResolve,
          Cmd.OutputManager OutputManagerCall.BindPingPong,
          Cmd.AAPass_DispatchAA camera.GetSSViewport desc] ++ postprocessing_cmds camera)
        ({ om with m_hdr0_to_hdr1 := true }, ctx)).2.unordered_idle hlsl := by
  rcases hlsl with ⟨B, I, U⟩
  simp only [OutputManager.read_textures, OutputManager.write_textures, List.map,
    List.cons.injEq, and_true, List.drop, List.cons_append, List.nil_append,
    List.append_assoc, List.drop_succ_cons, List.drop_zero] at hreads hwrites
  obtain ⟨r1, r2, r3, r4, r5, r6, r7, r8, r9⟩ := hreads
  obtain ⟨w2, w3, w4, w5⟩ := hwrites
  obtain ⟨_, r1', q1⟩ := map_texture_some r1
  obtain ⟨_, r4', q4⟩ := map_texture_some r4
  obtain ⟨_, r5', q5⟩ := map_texture_some r5
  obtain ⟨_, r6', q6⟩ := map_texture_some r6
  obtain ⟨_, r7', q7⟩ := map_texture_some r7
  obtain ⟨_, r8', q8⟩ := map_texture_some r8
  obtain ⟨_, r9', q9⟩ := map_texture_some r9
  obtain ⟨_, w2', x2⟩ := map_texture_some w2
  obtain ⟨_, w3', x3⟩ := map_texture_some w3
  have w4' := Option.map_eq_none'.mp w4
  have w5' := Option.map_eq_none'.mp w5
  clear r1 r2 r3 r4 r5 r6 r7 r8 r9 w2 w3 w4 w5
  simp only [DeviceContext.quiet, DeviceContext.reads, DeviceContext.unordered,
    HLSL.SLOT_SRV_MATERIAL, HLSL.SLOT_SRV_NORMAL, HLSL.SLOT_SRV_DEPTH, HLSL.SLOT_UAV_NORMAL,
    HLSL.SLOT_UAV_DEPTH, List.cons.injEq, and_true] at hq
  obtain ⟨⟨p1, p2, p3, p4, p5, c1, c2, c3, c4, c5⟩, u1, u2, u3⟩ := hq
  unfold postprocessing_cmds
  cases camera.GetLens.HasFiniteAperture <;>
    simp only [replay, exec, List.foldl_cons, List.foldl_nil, List.all_cons, List.all_nil,
      List.cons_append, List.nil_append, List.append_nil, List.append_assoc, if_true, if_false,
      Bool.false_eq_true, Event.safe, Event.isChecked, Cmd.isDrawOrDispatch, Cmd.isDraw, Cmd.isDispatch,
      Cmd.isBackBufferRender, Bool.or_false, Bool.false_or, Bool.and_true, Bool.not_false,
      Bool.not_true, Bool.true_or, Bool.true_and, Bool.false_and, Bool.and_false,
      Bool.or_true] <;>
    (rcases slot_cases B I with h | h | h | h | ⟨n1, n2, n3, n4, n5, n6, n7, n8, n9⟩ <;>
      (try subst h) <;>
      simp [step, Cmd.outputManagerCall, OutputManagerCall.run,
        OutputManager.BindBeginResolve, OutputManager.BindEndResolve,
        OutputManager.BindPingPong, OutputManager.BindBeginPostProcessing,
        OutputManager.BindEnd, Pipeline.PS.BindSRV, Pipeline.PS.BindSRVs,
        Pipeline.CS.BindSRV, Pipeline.CS.BindSRVs, Pipeline.CS.BindUAV, Pipeline.CS.BindUAVs,
        Pipeline.OM.BindRTVAndDSV, Pipeline.OM.BindRTVsAndDSV,
        bindSlots_one, bindSlots_three, List.length_cons, List.length_nil, GetSRV_flag, GetUAV_flag, DeviceContext.hazard_free,
        DeviceContext.writes, DeviceContext.reads, DeviceContext.unordered,
        DeviceContext.unordered_idle, textures_of,
        HLSL.SLOT_SRV_MATERIAL, HLSL.SLOT_SRV_NORMAL, HLSL.SLOT_SRV_DEPTH,
        HLSL.SLOT_UAV_NORMAL, HLSL.SLOT_UAV_DEPTH, *])

/-- Post-processing without anti-aliasing: no draw or dispatch has a hazard, the back
buffer pass writes the swap chain only and the compute read-write slots end unbound. -/
theorem suffix_hazard_free_None (hlsl : HLSL) (camera : Camera)
    (om : OutputManager) (ctx : DeviceContext) (t : Nat)
    (hq : ctx.quiet hlsl) (hr : ctx.om_rtvs = [none]) (hd : ctx.om_dsv = none)
    (hreads : om.read_textures = 
      [some (t + 4), some (t + 1), some (t + 2), some (t + 3), some t, some (t + 4),
       some (t + 5), some (t + 3), some t])
    (hwrites : (om.write_textures).drop 6 = 
      [some (t + 4), some (t + 5), none, none]) :
    ((replay hlsl
        (postprocessing_cmds camera)
        ({ om with m_hdr0_to_hdr1 := true }, ctx)).all
        (Event.safe hlsl om.m_swap_chain.GetRTV) = true) ∧
    (exec hlsl
        (postprocessing_cmds camera)
        ({ om with m_hdr0_to_hdr1 := true }, ctx)).2.unordered_idle hlsl := by
  rcases hlsl with ⟨B, I, U⟩
  simp only [OutputManager.read_textures, OutputManager.write_textures, List.map,
    List.cons.injEq, and_true, List.drop, List.cons_append, List.nil_append,
    List.append_assoc, List.drop_succ_cons, List.drop_zero] at hreads hwrites
  obtain ⟨r1, r2, r3, r4, r5, r6, r7, r8, r9⟩ := hreads
  obtain ⟨w2, w3, w4, w5⟩ := hwrites
  obtain ⟨_, r1', q1⟩ := map_texture_some r1
  obtain ⟨_, r4', q4⟩ := map_texture_some r4
  obtain ⟨_, r5', q5⟩ := map_texture_some r5
  obtain ⟨_, r6', q6⟩ := map_texture_some r6
  obtain ⟨_, r7', q7⟩ := map_texture_some r7
  obtain ⟨_, r8', q8⟩ := map_texture_some r8
  obtain ⟨_, r9', q9⟩ := map_texture_some r9
  obtain ⟨_, w2', x2⟩ := map_texture_some w2
  obtain ⟨_, w3', x3⟩ := map_texture_some w3
  have w4' := Option.map_eq_none'.mp w4
  have w5' := Option.map_eq_none'.mp w5
  clear r1 r2 r3 r4 r5 r6 r7 r8 r9 w2 w3 w4 w5
  simp only [DeviceContext.quiet, DeviceContext.reads, DeviceContext.unordered,
    HLSL.SLOT_SRV_MATERIAL, HLSL.SLOT_SRV_NORMAL, HLSL.SLOT_SRV_DEPTH, HLSL.SLOT_UAV_NORMAL,
    HLSL.SLOT_UAV_DEPTH, List.cons.injEq, and_true] at hq
  obtain ⟨⟨p1, p2, p3, p4, p5, c1, c2, c3, c4, c5⟩, u1, u2, u3⟩ := hq
  unfold postprocessing_cmds
  cases camera.GetLens.HasFiniteAperture <;>
    simp only [replay, exec, List.foldl_cons, List.foldl_nil, List.all_cons, List.all_nil,
      List.cons_append, List.nil_append, List.append_nil, List.append_assoc, if_true, if_false,
      Bool.false_eq_true, Event.safe, Event.isChecked, Cmd.isDrawOrDispatch, Cmd.isDraw, Cmd.isDispatch,
      Cmd.isBackBufferRender, Bool.or_false, Bool.false_or, Bool.and_true, Bool.not_false,
      Bool.not_true, Bool.true_or, Bool.true_and, Bool.false_and, Bool.and_false,
      Bool.or_true] <;>
    (rcases slot_cases B I with h | h | h | h | ⟨n1, n2, n3, n4, n5, n6, n7, n8, n9⟩ <;>
      (try subst h) <;>
      simp [step, Cmd.outputManagerCall, OutputManagerCall.run,
        OutputManager.BindBeginResolve, OutputManager.BindEndResolve,
        OutputManager.BindPingPong, OutputManager.BindBeginPostProcessing,
        OutputManager.BindEnd, Pipeline.PS.BindSRV, Pipeline.PS.BindSRVs,
        Pipeline.CS.BindSRV, Pipeline.CS.BindSRVs, Pipeline.CS.BindUAV, Pipeline.CS.BindUAVs,
        Pipeline.OM.BindRTVAndDSV, Pipeline.OM.BindRTVsAndDSV,
        bindSlots_one, bindSlots_three, List.length_cons, List.length_nil, GetSRV_flag, GetUAV_flag, DeviceContext.hazard_free,
        DeviceContext.writes, DeviceContext.reads, DeviceContext.unordered,
        DeviceContext.unordered_idle, textures_of,
        HLSL.SLOT_SRV_MATERIAL, HLSL.SLOT_SRV_NORMAL, HLSL.SLOT_SRV_DEPTH,
        HLSL.SLOT_UAV_NORMAL, HLSL.SLOT_UAV_DEPTH, *])

end Renderer

namespace Renderer

theorem aa_cmds_resolve (desc : AADescriptor) (camera : Camera)
    (h1 : desc ≠ AADescriptor.None) (h2 : desc ≠ AADescriptor.FXAA) :
    aa_cmds desc camera =
      [Cmd.OutputManager OutputManagerCall.BindBeginResolve,
       Cmd.AAPass_DispatchAA camera.GetSSViewport desc,
       Cmd.OutputManager OutputManagerCall.BindEndResolve] := by
  cases desc <;> first | rfl | exact absurd rfl h1 | exact absurd rfl h2

theorem layers_plain (camera : Camera) :
    (layers_cmds camera ++ [Cmd.OutputManager OutputManagerCall.BindEndForward]).all
      Cmd.isPlain = true := by
  unfold layers_cmds
  cases camera.GetSettings.ContainsRenderLayer RenderLayer.Wireframe <;>
    cases camera.GetSettings.ContainsRenderLayer RenderLayer.AABB <;> rfl

theorem exec_BindEndForward (hlsl : HLSL) (cs : List Cmd) (s : OutputManager × DeviceContext) :
    (exec hlsl (cs ++ [Cmd.OutputManager OutputManagerCall.BindEndForward]) s).2.om_rtvs
        = [none] ∧
    (exec hlsl (cs ++ [Cmd.OutputManager OutputManagerCall.BindEndForward]) s).2.om_dsv
        = none := by
  rw [exec_append]
  exact ⟨rfl, rfl⟩

/-- The anti-aliasing and post-processing commands, entered after
`BindEndForward` with no managed slot bound. -/
theorem suffix_hazard_free {device : Device} {display_configuration : DisplayConfiguration}
    {swap_chain : SwapChain} {om : OutputManager}
    (hcreate : OutputManager.create device display_configuration swap_chain = Except.ok om)
    (hlsl : HLSL) (camera : Camera) (ctx : DeviceContext)
    (hq : ctx.quiet hlsl) (hr : ctx.om_rtvs = [none]) (hd : ctx.om_dsv = none) :
    ((replay hlsl
        (aa_cmds display_configuration.GetAADescriptor camera ++ postprocessing_cmds camera)
        ({ om with m_hdr0_to_hdr1 := true }, ctx)).all
        (Event.safe hlsl om.m_swap_chain.GetRTV) = true) ∧
    (exec hlsl
        (aa_cmds display_configuration.GetAADescriptor camera ++ postprocessing_cmds camera)
        ({ om with m_hdr0_to_hdr1 := true }, ctx)).2.unordered_idle hlsl := by
  obtain ⟨fr, fw⟩ := surface_textures hcreate
  by_cases h1 : display_configuration.GetAADescriptor = AADescriptor.None
  · rw [h1]
    exact suffix_hazard_free_None hlsl camera om ctx device.textures.length hq hr hd
      (by rw [fr]; simp [h1]) (by rw [fw]; simp [h1])
  · by_cases h2 : display_configuration.GetAADescriptor = AADescriptor.FXAA
    · rw [h2]
      exact suffix_hazard_free_FXAA hlsl AADescriptor.FXAA camera om ctx device.textures.length
        hq hr hd (by rw [fr]; simp [h2]) (by rw [fw]; simp [h2])
    · rw [aa_cmds_resolve _ _ h1 h2]
      exact suffix_hazard_free_resolve hlsl _ camera om ctx device.textures.length
        hq hr hd (by rw [fr]; simp [h1, h2]) (by rw [fw]; simp [h1, h2])

end Renderer

namespace Renderer

/-- The commands of an active camera, run from a state in which the managed
compute read-write slots are unbound: every event passes the hazard check, the
manager is left with its views unchanged and the slots unbound again. -/
theorem active_cmds_safe {device : Device} {display_configuration : DisplayConfiguration}
    {swap_chain : SwapChain} {om : OutputManager}
    (hcreate : OutputManager.create device display_configuration swap_chain = Except.ok om)
    (hlsl : HLSL) (uses_msaa : Bool) (camera : Camera) (flag : Bool) (ctx : DeviceContext)
    (hidle : ctx.unordered_idle hlsl) :
    (replay hlsl
        (scene_cmds uses_msaa display_configuration.GetAADescriptor camera ++
          postprocessing_cmds camera)
        ({ om with m_hdr0_to_hdr1 := flag }, ctx)).all
        (Event.safe hlsl om.m_swap_chain.GetRTV) = true ∧
    (exec hlsl
        (scene_cmds uses_msaa display_configuration.GetAADescriptor camera ++
          postprocessing_cmds camera)
        ({ om with m_hdr0_to_hdr1 := flag }, ctx)).1
      = { om with m_hdr0_to_hdr1 :=
            !(decide (display_configuration.GetAADescriptor = AADescriptor.FXAA)
              != camera.GetLens.HasFiniteAperture) } ∧
    (exec hlsl
        (scene_cmds uses_msaa display_configuration.GetAADescriptor camera ++
          postprocessing_cmds camera)
        ({ om with m_hdr0_to_hdr1 := flag }, ctx)).2.unordered_idle hlsl := by
  obtain ⟨fr, fw⟩ := surface_textures hcreate
  have f5 : (om.read_textures).take 5 =
      [some (device.textures.length + 4), some (device.textures.length + 1),
       some (device.textures.length + 2), some (device.textures.length + 3),
       some device.textures.length] := by rw [fr]; rfl
  simp only [OutputManager.write_textures, List.map, List.cons_append, List.nil_append,
    List.cons.injEq] at fw
  obtain ⟨frtv, -, -, -, -, fuav, -⟩ := fw
  rw [scene_cmds_split]
  obtain ⟨b1, b2⟩ := BindBegin_quiet hlsl { om with m_hdr0_to_hdr1 := flag } ctx hidle
  have hA := safe_of_hazard_free hlsl om.m_swap_chain.GetRTV
    (Cmd.OutputManager OutputManagerCall.BindBegin) _ rfl (hazard_free_of_reads _ _ b2.1)
  have b1' : (step hlsl ({ om with m_hdr0_to_hdr1 := flag }, ctx)
      (Cmd.OutputManager OutputManagerCall.BindBegin)).1 = { om with m_hdr0_to_hdr1 := true } :=
    b1
  generalize hS : aa_cmds display_configuration.GetAADescriptor camera ++
    postprocessing_cmds camera = S
  generalize h34 : layers_cmds camera ++ [Cmd.OutputManager OutputManagerCall.BindEndForward]
    = M34
  have hsplit : [Cmd.BindCameraBuffer camera] ++ mode_cmds uses_msaa camera ++
      layers_cmds camera ++ [Cmd.OutputManager OutputManagerCall.BindEndForward]
      = [Cmd.BindCameraBuffer camera] ++ (mode_cmds uses_msaa camera ++ M34) := by
    rw [← h34]; simp
  rw [hsplit]
  simp only [replay_append, exec_append]
  have x1 : exec hlsl [Cmd.OutputManager OutputManagerCall.BindBegin]
      ({ om with m_hdr0_to_hdr1 := flag }, ctx)
      = step hlsl ({ om with m_hdr0_to_hdr1 := flag }, ctx)
          (Cmd.OutputManager OutputManagerCall.BindBegin) := rfl
  have x2 : replay hlsl [Cmd.OutputManager OutputManagerCall.BindBegin]
      ({ om with m_hdr0_to_hdr1 := flag }, ctx)
      = [{ cmd := Cmd.OutputManager OutputManagerCall.BindBegin,
           ctx := (step hlsl ({ om with m_hdr0_to_hdr1 := flag }, ctx)
             (Cmd.OutputManager OutputManagerCall.BindBegin)).2 }] := rfl
  rw [x1, x2]
  generalize step hlsl ({ om with m_hdr0_to_hdr1 := flag }, ctx)
    (Cmd.OutputManager OutputManagerCall.BindBegin) = s1 at b1' b2 hA ⊢
  rcases s1 with ⟨om1, ctx1⟩
  dsimp only at b1' b2 hA
  subst b1'
  obtain ⟨c1, c2, c3⟩ := replay_keeps hlsl om.m_swap_chain.GetRTV
    [Cmd.BindCameraBuffer camera] ({ om with m_hdr0_to_hdr1 := true }, ctx1) rfl b2
  generalize exec hlsl [Cmd.BindCameraBuffer camera]
    ({ om with m_hdr0_to_hdr1 := true }, ctx1) = s2 at c2 c3 ⊢
  rcases s2 with ⟨om2, ctx2⟩
  dsimp only at c2 c3
  subst c2
  obtain ⟨d1, d2, d3⟩ := mode_hazard_free hlsl om.m_swap_chain.GetRTV uses_msaa camera
    { om with m_hdr0_to_hdr1 := true } ctx2 device.textures.length c3 f5 frtv fuav
  generalize exec hlsl (mode_cmds uses_msaa camera)
    ({ om with m_hdr0_to_hdr1 := true }, ctx2) = s3 at d2 d3 ⊢
  rcases s3 with ⟨om3, ctx3⟩
  dsimp only at d2 d3
  subst d2
  obtain ⟨e1, e2, e3⟩ := replay_keeps hlsl om.m_swap_chain.GetRTV M34
    ({ om with m_hdr0_to_hdr1 := true }, ctx3) (by rw [← h34]; exact layers_plain camera) d3
  have e4 := exec_BindEndForward hlsl (layers_cmds camera)
    ({ om with m_hdr0_to_hdr1 := true }, ctx3)
  rw [h34] at e4
  generalize exec hlsl M34 ({ om with m_hdr0_to_hdr1 := true }, ctx3) = s4 at e2 e3 e4 ⊢
  rcases s4 with ⟨om4, ctx4⟩
  dsimp only at e2 e3 e4
  subst e2
  subst hS
  obtain ⟨g1, g2⟩ := suffix_hazard_free hcreate hlsl camera ctx4 e3 e4.1 e4.2
  obtain ⟨p1, -, -⟩ := suffix_ping_pong hlsl display_configuration.GetAADescriptor camera om ctx4
  refine ⟨?_, p1, g2⟩
  simp only [List.all_append, List.all_cons, List.all_nil, Bool.and_true, Bool.and_eq_true]
  exact ⟨hA, ⟨⟨c1, d1, e1⟩, g1⟩⟩

end Renderer

namespace Renderer

/-- One camera, rendered from a state in which the managed compute read-write
slots are unbound and the manager is the one that was set up (with any value
of the ping-pong flag): every event passes the hazard check, and the state
reached satisfies the same conditions again. -/
theorem camera_safe {device : Device} {swap_chain : SwapChain} {om : OutputManager}
    (scene : Scene) (r : Renderer) (camera : Camera) (flag : Bool)
    (hcreate : OutputManager.create device r.display_configuration swap_chain = Except.ok om)
    (hom : r.output_manager = { om with m_hdr0_to_hdr1 := flag })
    (hidle : r.m_device_context.unordered_idle r.hlsl) :
    ∃ evs : List Event, ∃ flag2 : Bool,
      (Render_camera scene r camera).issued = r.issued ++ evs ∧
      evs.all (Event.safe r.hlsl om.m_swap_chain.GetRTV) = true ∧
      (Render_camera scene r camera).output_manager = { om with m_hdr0_to_hdr1 := flag2 } ∧
      (Render_camera scene r camera).m_device_context.unordered_idle r.hlsl ∧
      (Render_camera scene r camera).hlsl = r.hlsl ∧
      (Render_camera scene r camera).display_configuration = r.display_configuration := by
  obtain ⟨i1, i2, i3, i4⟩ := Runs_Render_camera scene r camera
  by_cases ha : State.Active ≠ camera.GetState
  · rw [camera_cmds, if_pos ha] at i1 i2
    refine ⟨[], flag, i1, rfl, ?_, ?_, i3, i4⟩
    · exact (congrArg Prod.fst i2).trans hom
    · have h2 := congrArg Prod.snd i2
      dsimp only [exec, List.foldl_nil] at h2
      rw [h2]
      exact hidle
  · rw [camera_cmds, if_neg ha, hom] at i1 i2
    obtain ⟨a1, a2, a3⟩ := active_cmds_safe hcreate r.hlsl r.display_configuration.UsesMSAA
      camera flag r.m_device_context hidle
    refine ⟨_, !(decide (r.display_configuration.GetAADescriptor = AADescriptor.FXAA)
      != camera.GetLens.HasFiniteAperture), i1, a1, ?_, ?_, i3, i4⟩
    · exact (congrArg Prod.fst i2).trans a2
    · have h2 := congrArg Prod.snd i2
      dsimp only at h2
      rw [h2]
      exact a3

/-- The cameras of a scene rendered one after the other: every event passes the
hazard check. -/
theorem cameras_safe {device : Device} {swap_chain : SwapChain} {om : OutputManager}
    (scene : Scene) (cameras : List Camera) (r : Renderer) (flag : Bool)
    (hcreate : OutputManager.create device r.display_configuration swap_chain = Except.ok om)
    (hom : r.output_manager = { om with m_hdr0_to_hdr1 := flag })
    (hidle : r.m_device_context.unordered_idle r.hlsl) :
    ∃ evs : List Event, ∃ flag2 : Bool,
      (cameras.foldl (Render_camera scene) r).issued = r.issued ++ evs ∧
      evs.all (Event.safe r.hlsl om.m_swap_chain.GetRTV) = true ∧
      (cameras.foldl (Render_camera scene) r).output_manager
        = { om with m_hdr0_to_hdr1 := flag2 } ∧
      (cameras.foldl (Render_camera scene) r).m_device_context.unordered_idle r.hlsl := by
  induction cameras generalizing r flag with
  | nil => exact ⟨[], flag, (List.append_nil _).symm, rfl, hom, hidle⟩
  | cons c cs ih =>
    obtain ⟨evs1, flag1, a1, a2, a3, a4, a5, a6⟩ :=
      camera_safe scene r c flag hcreate hom hidle
    obtain ⟨evs2, flag2, b1, b2, b3, b4⟩ :=
      ih (Render_camera scene r c) flag1 (by rw [a6]; exact hcreate) a3 (by rw [a5]; exact a4)
    rw [a5] at b2 b4
    refine ⟨evs1 ++ evs2, flag2, ?_, ?_, b3, b4⟩
    · rw [List.foldl_cons, b1, a1, List.append_assoc]
    · rw [List.all_append, a2, b2]; rfl

/-- C29: no read/write hazard at any draw or dispatch.  The renderer
starts from a manager that was set up for its display configuration (with any
value of the ping-pong flag) and from a device context in which the managed
compute read-write slots are unbound, as they are initially and after every
camera; the binding state changes only through the output manager calls.
Then, for all the cameras of a scene rendered one after the other, whatever
their render modes and lenses and whatever the anti-aliasing descriptor, at
every draw and every dispatch issued before the back buffer pass of a camera no
texture is bound both as a write target (render target, depth target or
compute read-write view) and as a read input in the managed slots; at the draw
of the back buffer pass the only write target bound is the back buffer of the
swap chain; and the state reached satisfies the starting conditions again. -/
theorem no_read_write_hazard (device : Device) (swap_chain : SwapChain) (om : OutputManager)
    (flag : Bool) (scene : Scene) (r : Renderer)
    (hcreate : OutputManager.create device r.display_configuration swap_chain = Except.ok om)
    (hom : r.output_manager = { om with m_hdr0_to_hdr1 := flag })
    (hidle : r.m_device_context.unordered_idle r.hlsl) :
    (((scene.ForEach_Camera (Render_camera scene) r).issued.drop r.issued.length).all
        (fun e => !e.isChecked || e.ctx.hazard_free r.hlsl) = true) ∧
    (((scene.ForEach_Camera (Render_camera scene) r).issued.drop r.issued.length).all
        (fun e => !e.cmd.isBackBufferRender ||
          decide (e.ctx.writes r.hlsl = [om.m_swap_chain.GetRTV, none, none, none, none]))
      = true) ∧
    (scene.ForEach_Camera (Render_camera scene) r).output_manager
      = { om with m_hdr0_to_hdr1 :=
            (scene.ForEach_Camera (Render_camera scene) r).output_manager.m_hdr0_to_hdr1 } ∧
    (scene.ForEach_Camera (Render_camera scene) r).m_device_context.unordered_idle r.hlsl := by
  obtain ⟨evs, flag2, a1, a2, a3, a4⟩ :=
    cameras_safe scene scene.m_cameras r flag hcreate hom hidle
  unfold Scene.ForEach_Camera
  rw [a1, List.drop_left]
  refine ⟨?_, ?_, ?_, a4⟩
  · rw [List.all_eq_true] at a2 ⊢
    intro e he
    have h := a2 e he
    simp only [Event.safe, Bool.and_eq_true] at h
    exact h.1
  · rw [List.all_eq_true] at a2 ⊢
    intro e he
    have h := a2 e he
    simp only [Event.safe, Bool.and_eq_true] at h
    exact h.2
  · rw [a3]

theorem no_read_write_hazard_witness :
    (OutputManager.create Device.reliable (example_configuration AADescriptor.MSAA_4x)
        example_swap_chain = Except.ok (example_manager AADescriptor.MSAA_4x) ∧
      (example_renderer AADescriptor.MSAA_4x).output_manager
        = { example_manager AADescriptor.MSAA_4x with m_hdr0_to_hdr1 := true } ∧
      (example_renderer AADescriptor.MSAA_4x).m_device_context.unordered_idle
        (example_renderer AADescriptor.MSAA_4x).hlsl) ∧
    (((Scene.ForEach_Camera ⟨[example_camera RenderMode.Deferred true]⟩
          (Render_camera ⟨[example_camera RenderMode.Deferred true]⟩)
          (example_renderer AADescriptor.MSAA_4x)).issued.drop
          (example_renderer AADescriptor.MSAA_4x).issued.length).all
        (fun e => !e.isChecked ||
          e.ctx.hazard_free (example_renderer AADescriptor.MSAA_4x).hlsl) = true) :=
  ⟨⟨rfl, rfl, rfl⟩,
    (no_read_write_hazard Device.reliable example_swap_chain
      (example_manager AADescriptor.MSAA_4x) true ⟨[example_camera RenderMode.Deferred true]⟩
      (example_renderer AADescriptor.MSAA_4x)
      (show OutputManager.create Device.reliable (example_configuration AADescriptor.MSAA_4x)
        example_swap_chain = Except.ok (example_manager AADescriptor.MSAA_4x) from rfl)
      rfl rfl).1⟩

end Renderer

end MAGE
